import Mathlib

/-! # Reference-table lookup in calstis: `c_tbcfnd1`, `GetTrace4`, `GetPCT`

A shallow embedding of three C sources of hstcal:

* `Cmod/c_tbcfnd1.c`               -- column lookup by name, case-insensitive;
* `pkg/stis/calstis/cs4/gettrace4.c` -- collect every SPTRCTAB row matching the key;
* `pkg/stis/calstis/cs7/getpct.c`    -- first PCTAB row matching the key, with the
                                       unity fallback.

Conventions of the embedding.

* A C `int` status is a value of `Status`; `Status.OK` is the C value `0`, the test
  `if (status = f (...))` is `status ≠ Status.OK`.
* A C `double` is the rational number it denotes.  The one arithmetic operation
  the sources perform on doubles, the decrement of the trace centres, rounds its exact
  result to the nearest double (`roundDouble`).
* The table layer (`c_tbtopn`, `c_tbegt*`, `c_tbagtd`, `c_tbtclo`, `c_iraferr`) is not
  part of the three sources.  Every call of it is an interaction with a `World`: the
  call is appended to `World.log`, a failing call sets the sticky flag
  `World.iraferr`, and `c_iraferr ()` reads that flag.  What a call returns is data of
  the table (`Cell`, `ArrayCell`): the value delivered, or the failure together with
  whatever the output buffer holds afterwards.
* `malloc` takes its outcome from `World.heap`; the size requested is not modelled.
* A C loop over `row = 1 .. nrows` is a recursion over the list of rows that carries
  the row number.
-/

namespace Hstcal

/-! ## Status codes, switches, pedigree -/

/-- Status codes returned by the three sources (`stiserr.h`); `OK` is the C value 0 and
every other constructor is a nonzero code.  `OTHER` stands for any further nonzero
code a collaborator may return. -/
inductive Status where
  | OK
  | OPEN_FAILED
  | COLUMN_NOT_FOUND
  | TABLE_ERROR
  | OUT_OF_MEMORY
  | INTERNAL_ERROR
  | OTHER (code : Nat)
deriving DecidableEq, Repr

/-- Calibration switch values (`stis.h`); the sources only compare them for equality. -/
inductive Switch where
  | OMIT
  | PERFORM
  | DUMMY
  | COMPLETE
  | SKIPPED
deriving DecidableEq, Repr

/-- Values of `RefTab.goodPedigree`; the sources only test `== DUMMY_PEDIGREE`.
`ABSENT_PEDIGREE` is the classification of a row of a table without pedigree column. -/
inductive Pedigree where
  | GOOD_PEDIGREE
  | DUMMY_PEDIGREE
  | ABSENT_PEDIGREE
deriving DecidableEq, Repr

/-! ## The table layer as an explicit world -/

/-- Columns named by the two table readers. -/
inductive Column where
  | OPT_ELEM | CENWAVE | SPORDER | A1CENTER | A2CENTER | NELEM | A2DISPL | MJD | DEGPERYR
  | APERTURE | EXTRHEIGHT | WAVELENGTH | THROUGHPUT
deriving DecidableEq, Repr

/-- Calls that leave the function under study: table layer and collaborators. -/
inductive Event where
  | tbtopn
  | tbtclo
  | tbhgti
  | tbegt (col : Column) (row : Nat)
  | tbagtd (col : Column) (row : Nat)
  | RowPedigree (row : Nat)
  | ReadTraceArray (row : Nat)
  | NewTrace4 (row : Nat)
  | FreeTrace4
  | rotatetrace (row : Nat)
  | ReadPCArray (row : Nat)
  | splint_nr (row : Nat)
  | PCDummy
deriving DecidableEq, Repr

/-- State outside the function under study. -/
structure World where
  /-- Sticky error flag of the table layer, read by `c_iraferr`. -/
  iraferr : Bool
  /-- Whether the table handle `tp` is currently open. -/
  handleOpen : Bool
  /-- Outcomes of the coming `malloc` calls (`true`: a non-NULL pointer); once the
  list is used up every allocation succeeds. -/
  heap : List Bool
  /-- Calls made so far, oldest first. -/
  log : List Event
deriving DecidableEq, Repr

/-- Outcome of reading one scalar cell: the value delivered, or a failure (the error
flag is set) that leaves `left` in the output buffer. -/
inductive Cell (α : Type) where
  | ok (v : α)
  | fail (left : α)
deriving DecidableEq, Repr

/-- Content of the output buffer after the read. -/
def Cell.val {α : Type} : Cell α → α
  | .ok v => v
  | .fail left => left

/-- Whether the read sets the error flag. -/
def Cell.failed {α : Type} : Cell α → Bool
  | .ok _ => false
  | .fail _ => true

/-- Outcome of reading one array cell with `c_tbagtd`: the number of elements
actually read (the return value), the buffer afterwards, and whether the error flag
is set by the call. -/
structure ArrayCell where
  nret : Int
  buf : List ℚ
  failed : Bool
deriving DecidableEq, Repr

def c_iraferr (w : World) : Bool := w.iraferr

def World.record (w : World) (e : Event) : World :=
  { w with log := w.log ++ [e] }

/-- A scalar read `c_tbegtt` / `c_tbegti` / `c_tbegtd` of column `col` in row `row`. -/
def c_tbegt {α : Type} (col : Column) (row : Nat) (c : Cell α) (w : World) : α × World :=
  (c.val, { w with iraferr := w.iraferr || c.failed, log := w.log ++ [Event.tbegt col row] })

/-- An array read `c_tbagtd (tp, cp, row, buffer, 1, nelem)`: returns the count read
and the buffer. -/
def c_tbagtd (col : Column) (row : Nat) (a : ArrayCell) (w : World) : Int × List ℚ × World :=
  (a.nret, a.buf,
    { w with iraferr := w.iraferr || a.failed, log := w.log ++ [Event.tbagtd col row] })

/-- Open a table, `c_tbtopn`; `ok` tells whether the file can be opened. -/
def c_tbtopn (ok : Bool) (w : World) : World :=
  { w with iraferr := w.iraferr || !ok, handleOpen := w.handleOpen || ok,
           log := w.log ++ [Event.tbtopn] }

/-- Close a table, `c_tbtclo`; `ok` tells whether the close succeeds. -/
def c_tbtclo (ok : Bool) (w : World) : World :=
  { w with iraferr := w.iraferr || !ok, handleOpen := false,
           log := w.log ++ [Event.tbtclo] }

/-- One call of `malloc`: whether the pointer is non-NULL. -/
def malloc (w : World) : Bool × World :=
  match w.heap with
  | [] => (true, w)
  | b :: rest => (b, { w with heap := rest })

/-! ## `Cmod/c_tbcfnd1.c` -/

/-- A column descriptor; only its name is used by the lookup. -/
structure ColumnDescr where
  name : String
deriving DecidableEq, Repr

/-- A table descriptor: `ncols` is the length of `columns`. -/
structure TableDescr where
  columns : List ColumnDescr
deriving DecidableEq, Repr

/-- The C function `str_lower`: copy `name` up to its terminating NUL, replacing each
upper-case letter by its lower-case letter. -/
def str_lower : List Char → List Char
  | [] => []
  | c :: cs =>
    if c = Char.ofNat 0 then []
    else (if c.isUpper then c.toLower else c) :: str_lower cs

/-- The loop of `c_tbcfnd1` from column index `i` on: the first column whose
lower-cased name equals `lc_colname`. -/
def c_tbcfnd1_loop (lc_colname : List Char) : List ColumnDescr → Nat → Option Nat
  | [], _ => none
  | col :: rest, i =>
    if lc_colname = str_lower col.name.data then some i
    else c_tbcfnd1_loop lc_colname rest (i + 1)

/-- The C function `c_tbcfnd1`: the value stored in `*cp`, `none` for NULL and
`some i` for the descriptor `tbl_descr->columns[i]`. -/
def c_tbcfnd1 (tp : TableDescr) (colname : String) : Option Nat :=
  c_tbcfnd1_loop (str_lower colname.data) tp.columns 0

/-! ## Collaborators shared by the two readers -/

/-- A reference table as the calibration code sees it (`RefTab` of `stis.h`): its name
and the pedigree classification of the row read last. -/
structure RefTab where
  name : String
  goodPedigree : Pedigree
deriving DecidableEq, Repr

/-- What `RowPedigree` does on one row: the status it returns and the value it leaves
in `goodPedigree`. -/
structure PedigreeCell where
  status : Status
  goodPedigree : Pedigree
deriving DecidableEq, Repr

/-- Modelled from the spec: `SameString` of `stisdef.h` is not among the sources; key
equality is exact and strings are compared case-sensitively. -/
def SameString (rowvalue value : String) : Bool := decide (rowvalue = value)

/-- Modelled from the spec: `SameInt` of `stisdef.h` is not among the sources; integer
comparison is exact. -/
def SameInt (rowvalue value : Int) : Bool := decide (rowvalue = value)

/-- Modelled from the spec: `RowPedigree` (the provenance classifier) is not among the
sources; invoked once per candidate row, it returns a status and updates
`goodPedigree` of the reference table.  Both are data of the row. -/
def RowPedigree (ref : RefTab) (row : Nat) (p : PedigreeCell) (w : World) :
    Status × RefTab × World :=
  (p.status, { ref with goodPedigree := p.goodPedigree }, w.record (Event.RowPedigree row))

/-- Functions of other source files that the readers call with numeric arguments. -/
structure Collab where
  /-- The function `rotatetrace (expstart, mjd, degperyr, a2displ, nelem)`: the rotation
  angle it returns and the array it leaves in `a2displ`. -/
  rotatetrace : ℚ → ℚ → ℚ → List ℚ → Int → ℚ × List ℚ
  /-- The function `splint_nr (xa, ya, n, x, y, nelem)`: its status and the array it
  leaves in `y`. -/
  splint_nr : List ℚ → List ℚ → Int → List ℚ → Nat → Status × List ℚ

/-! ## Arithmetic of `double` -/

/-- The number of halvings that bring `n` below 2, at most `fuel` of them: the integer
part of the binary logarithm of `n` when `1 ≤ n ≤ fuel`. -/
def log2Fuel : Nat → Nat → Nat
  | 0, _ => 0
  | fuel + 1, n => if n < 2 then 0 else log2Fuel fuel (n / 2) + 1

/-- The binary exponent of a nonzero rational `q`: the integer `e` with
`2 ^ e ≤ |q| < 2 ^ (e + 1)`.  The difference of the binary logarithms of numerator and
denominator is `e` or `e + 1`. -/
def binaryExponent (q : ℚ) : Int :=
  let e0 : Int := (log2Fuel q.num.natAbs q.num.natAbs : Int) - (log2Fuel q.den q.den : Int)
  if (2 : ℚ) ^ e0 ≤ |q| then e0 else e0 - 1

/-- The `double` nearest to the rational `q`, ties going to the even significand: the
rounding that the arithmetic of a C `double` (IEEE 754 binary64, 53 significant bits)
applies to the exact result of an operation.  The exponent range is not modelled:
the difference of a `double` and 1 neither overflows nor is subnormal. -/
def roundDouble (q : ℚ) : ℚ :=
  if q = 0 then 0
  else
    let k : Int := 52 - binaryExponent q
    let m : ℚ := |q| * 2 ^ k
    let f : Int := ⌊m⌋
    let r : ℚ := m - f
    let z : Int := if r < 1 / 2 then f else if 1 / 2 < r then f + 1
      else if f % 2 = 0 then f else f + 1
    (if q < 0 then -1 else 1) * z / 2 ^ k

/-! ## `pkg/stis/calstis/cs4/gettrace4.c` -/

namespace Cs4

/-- Maximum length of a spectrum trace.  Modelled from the spec: `MAX_SP_TRACE` is
defined in a header that is not among the sources; the column description in
`gettrace4.c` gives the size of `A2DISPL` as "max 1024". -/
def MAX_SP_TRACE : Int := 1024

/-- One record of the trace list (`SpTrace` without its `next` pointer). -/
structure SpTrace where
  sporder : Int
  a1center : ℚ
  a2center : ℚ
  nelem : Int
  a2displ : List ℚ
deriving DecidableEq, Repr

/-- The fields of `StisInfo4` that `GetTrace4` reads or writes. -/
structure StisInfo4 where
  sptrctab : RefTab
  opt_elem : String
  cenwave : Int
  expstart : ℚ
  trace_rotation : ℚ
deriving DecidableEq, Repr

/-- One row of SPTRCTAB: what each read of the row delivers. -/
structure SptrcRow where
  opt_elem : Cell String
  cenwave : Cell Int
  pedigree : PedigreeCell
  sporder : Cell Int
  a1center : Cell ℚ
  a2center : Cell ℚ
  nelem : Cell Int
  a2displ : ArrayCell
  mjd : Cell ℚ
  degperyr : Cell ℚ
deriving DecidableEq, Repr

/-- The table that `sts->sptrctab.name` names. -/
structure TraceTable where
  /-- Whether `c_tbtopn` can open it. -/
  tbtopn_ok : Bool
  /-- Its columns. -/
  descr : TableDescr
  /-- Its rows, row 1 first; `c_tbpsta (tp, TBL_NROWS)` is the length. -/
  rows : List SptrcRow
  /-- Whether `c_tbtclo` succeeds on it. -/
  tbtclo_ok : Bool
deriving DecidableEq, Repr

/-- The C struct `TblInfo`; a column pointer is `none` when it is 0. -/
structure TblInfo where
  cp_opt_elem : Option Nat
  cp_cenwave : Option Nat
  cp_sporder : Option Nat
  cp_a1center : Option Nat
  cp_a2center : Option Nat
  cp_nelem : Option Nat
  cp_a2displ : Option Nat
  cp_pedigree : Option Nat
  cp_descrip : Option Nat
  cp_mjd : Option Nat
  cp_degperyr : Option Nat
  nrows : Nat
deriving DecidableEq, Repr

/-- The C struct `TblRow`: the key values read from a row. -/
structure TblRow where
  opt_elem : String
  cenwave : Int
deriving DecidableEq, Repr

/-- Modelled from the spec: `NewTrace4` is not among the sources; a successfully
extracted row becomes one node appended to the list.  The node is allocated, so the
call fails with `OUT_OF_MEMORY` when the allocation does. -/
def NewTrace4 (row : Nat) (trace : List SpTrace) (newrec : SpTrace) (w : World) :
    Status × List SpTrace × World :=
  let w1 := w.record (Event.NewTrace4 row)
  let m := malloc w1
  if m.1 then (Status.OK, trace ++ [newrec], m.2) else (Status.OUT_OF_MEMORY, trace, m.2)

/-- Modelled from the spec: `FreeTrace4` is not among the sources; it is the "release
all" operation of the list and leaves the list empty. -/
def FreeTrace4 (_trace : List SpTrace) (w : World) : List SpTrace × World :=
  ([], w.record Event.FreeTrace4)

/-- The C function `OpenTraceTab`. -/
def OpenTraceTab (tbl : TraceTable) (tabinfo : TblInfo) (w : World) :
    Status × TblInfo × World :=
  let w1 := c_tbtopn tbl.tbtopn_ok w
  if c_iraferr w1 then (Status.OPEN_FAILED, tabinfo, w1)
  else
    let t1 : TblInfo :=
      { tabinfo with
        nrows := tbl.rows.length
        cp_opt_elem := c_tbcfnd1 tbl.descr "OPT_ELEM"
        cp_cenwave := c_tbcfnd1 tbl.descr "CENWAVE"
        cp_sporder := c_tbcfnd1 tbl.descr "SPORDER"
        cp_a1center := c_tbcfnd1 tbl.descr "A1CENTER"
        cp_a2center := c_tbcfnd1 tbl.descr "A2CENTER"
        cp_nelem := c_tbcfnd1 tbl.descr "NELEM"
        cp_a2displ := c_tbcfnd1 tbl.descr "A2DISPL" }
    if t1.cp_opt_elem = none || t1.cp_cenwave = none || t1.cp_sporder = none ||
        t1.cp_a1center = none || t1.cp_a2center = none || t1.cp_nelem = none ||
        t1.cp_a2displ = none then
      (Status.COLUMN_NOT_FOUND, t1, c_tbtclo tbl.tbtclo_ok w1)
    else
      let t2 : TblInfo :=
        { t1 with
          cp_pedigree := c_tbcfnd1 tbl.descr "PEDIGREE"
          cp_descrip := c_tbcfnd1 tbl.descr "DESCRIP"
          cp_mjd := c_tbcfnd1 tbl.descr "MJD"
          cp_degperyr := c_tbcfnd1 tbl.descr "DEGPERYR" }
      (Status.OK, t2, w1)

/-- The C function `ReadTraceTab` on row `row`, whose cells are `r`. -/
def ReadTraceTab (r : SptrcRow) (row : Nat) (tabrow : TblRow) (w : World) :
    Status × TblRow × World :=
  let g1 := c_tbegt Column.OPT_ELEM row r.opt_elem w
  let tabrow1 : TblRow := { tabrow with opt_elem := g1.1 }
  if c_iraferr g1.2 then (Status.TABLE_ERROR, tabrow1, g1.2)
  else
    let g2 := c_tbegt Column.CENWAVE row r.cenwave g1.2
    let tabrow2 : TblRow := { tabrow1 with cenwave := g2.1 }
    if c_iraferr g2.2 then (Status.TABLE_ERROR, tabrow2, g2.2)
    else (Status.OK, tabrow2, g2.2)

/-- The C function `CloseTraceTab`. -/
def CloseTraceTab (tbl : TraceTable) (w : World) : Status × World :=
  let w1 := c_tbtclo tbl.tbtclo_ok w
  if c_iraferr w1 then (Status.TABLE_ERROR, w1) else (Status.OK, w1)

/-- The C function `ReadTraceArray` on row `row`, whose cells are `r`: the status, and
the `sts`, trace list and world it leaves.  The statements `newrec->a1center--` and
`newrec->a2center--` on doubles store the rounded differences `roundDouble (x - 1)`. -/
def ReadTraceArray (X : Collab) (tbl : TraceTable) (tabinfo : TblInfo) (r : SptrcRow)
    (row : Nat) (sts : StisInfo4) (trace : List SpTrace) (w : World) :
    Status × StisInfo4 × List SpTrace × World :=
  let w0 := w.record (Event.ReadTraceArray row)
  let m := malloc w0
  if !m.1 then (Status.OUT_OF_MEMORY, sts, trace, m.2)
  else
    let g1 := c_tbegt Column.SPORDER row r.sporder m.2
    let g2 := c_tbegt Column.A1CENTER row r.a1center g1.2
    let g3 := c_tbegt Column.A2CENTER row r.a2center g2.2
    let g4 := c_tbegt Column.NELEM row r.nelem g3.2
    if g4.1 > MAX_SP_TRACE then (Status.TABLE_ERROR, sts, trace, g4.2)
    else
      let a := c_tbagtd Column.A2DISPL row r.a2displ g4.2
      let nelem := a.1
      if c_iraferr a.2.2 then (Status.TABLE_ERROR, sts, trace, a.2.2)
      else
        let rot : StisInfo4 × List ℚ × World :=
          if tabinfo.cp_mjd ≠ none then
            let g5 := c_tbegt Column.MJD row r.mjd a.2.2
            let g6 := c_tbegt Column.DEGPERYR row r.degperyr g5.2
            let t := X.rotatetrace sts.expstart g5.1 g6.1 a.2.1 nelem
            ({ sts with trace_rotation := t.1 }, t.2, g6.2.record (Event.rotatetrace row))
          else (sts, a.2.1, a.2.2)
        let newrec : SpTrace :=
          { sporder := g1.1, a1center := roundDouble (g2.1 - 1),
            a2center := roundDouble (g3.1 - 1), nelem := g4.1,
            a2displ := rot.2.1 }
        if nelem < newrec.nelem then
          (Status.TABLE_ERROR, rot.1, trace, c_tbtclo tbl.tbtclo_ok rot.2.2)
        else
          let n := NewTrace4 row trace newrec rot.2.2
          (n.1, rot.1, n.2.1, n.2.2)

/-- What the caller of `GetTrace4` observes: the status returned, `*sts`, `*trace`, and
the world. -/
structure Result where
  status : Status
  sts : StisInfo4
  trace : List SpTrace
  w : World
deriving DecidableEq, Repr

/-- The local variables and out-parameters of `GetTrace4` during the scan. -/
structure Frame where
  status : Status
  tabrow : TblRow
  foundit : Bool
  sts : StisInfo4
  trace : List SpTrace
  w : World
deriving DecidableEq, Repr

/-- How a run of loop iterations of `GetTrace4` ends: by a `return` in the body, or by
reaching the end of the body (or `continue`) with the frame `f`. -/
inductive Flow where
  | returned (r : Result)
  | finished (f : Frame)
deriving DecidableEq, Repr

/-- Whether a row with these key values is selected: the test
`SameString (tabrow.opt_elem, sts->opt_elem) && SameInt (tabrow.cenwave, sts->cenwave)`. -/
def isMatch (sts : StisInfo4) (tabrow : TblRow) : Bool :=
  SameString tabrow.opt_elem sts.opt_elem && SameInt tabrow.cenwave sts.cenwave

/-- The body of the `for` loop of `GetTrace4` on row `row`, whose cells are `r`. -/
def GetTrace4_body (X : Collab) (tbl : TraceTable) (tabinfo : TblInfo) (r : SptrcRow)
    (row : Nat) (f : Frame) : Flow :=
  let k := ReadTraceTab r row f.tabrow f.w
  let f1 : Frame := { f with status := k.1, tabrow := k.2.1, w := k.2.2 }
  if k.1 ≠ Status.OK then Flow.returned ⟨k.1, f1.sts, f1.trace, f1.w⟩
  else if isMatch f1.sts f1.tabrow then
    let f2 : Frame := { f1 with foundit := true }
    let p := RowPedigree f2.sts.sptrctab row r.pedigree f2.w
    let f3 : Frame :=
      { f2 with status := p.1, sts := { f2.sts with sptrctab := p.2.1 }, w := p.2.2 }
    if p.1 ≠ Status.OK then Flow.returned ⟨p.1, f3.sts, f3.trace, f3.w⟩
    else if f3.sts.sptrctab.goodPedigree = Pedigree.DUMMY_PEDIGREE then Flow.finished f3
    else
      let a := ReadTraceArray X tbl tabinfo r row f3.sts f3.trace f3.w
      let f4 : Frame := { f3 with status := a.1, sts := a.2.1, trace := a.2.2.1, w := a.2.2.2 }
      if a.1 ≠ Status.OK then Flow.returned ⟨a.1, f4.sts, f4.trace, f4.w⟩
      else Flow.finished f4
  else Flow.finished f1

/-- The `for` loop of `GetTrace4` over the rows not yet visited, `row` being the number
of the first of them. -/
def GetTrace4_loop (X : Collab) (tbl : TraceTable) (tabinfo : TblInfo) :
    List SptrcRow → Nat → Frame → Flow
  | [], _, f => Flow.finished f
  | r :: rest, row, f =>
    match GetTrace4_body X tbl tabinfo r row f with
    | Flow.returned res => Flow.returned res
    | Flow.finished f1 => GetTrace4_loop X tbl tabinfo rest (row + 1) f1

/-- The statements of `GetTrace4` after the loop. -/
def GetTrace4_end (tbl : TraceTable) (f : Frame) : Result :=
  if !f.foundit then
    let t := FreeTrace4 f.trace f.w
    let c := CloseTraceTab tbl t.2
    ⟨f.status, f.sts, t.1, c.2⟩
  else
    let c := CloseTraceTab tbl f.w
    if c.1 ≠ Status.OK then ⟨c.1, f.sts, f.trace, c.2⟩
    else ⟨Status.OK, f.sts, f.trace, c.2⟩

/-- Content of the local `tabinfo` before `OpenTraceTab` fills it. -/
def TblInfo.blank : TblInfo :=
  ⟨none, none, none, none, none, none, none, none, none, none, none, 0⟩

/-- Content of the local `tabrow` before the first `ReadTraceTab`. -/
def TblRow.blank : TblRow := ⟨"", 0⟩

/-- The C function `GetTrace4`, called on the table `tbl` that `sts->sptrctab.name`
names, with `trace` the list the caller passes in. -/
def GetTrace4 (X : Collab) (tbl : TraceTable) (sts : StisInfo4) (trace : List SpTrace)
    (w : World) : Result :=
  let o := OpenTraceTab tbl TblInfo.blank w
  if o.1 ≠ Status.OK then ⟨o.1, sts, trace, o.2.2⟩
  else
    match GetTrace4_loop X tbl o.2.1 tbl.rows 1
        { status := o.1, tabrow := TblRow.blank, foundit := false, sts := sts,
          trace := trace, w := o.2.2 } with
    | Flow.returned r => r
    | Flow.finished f => GetTrace4_end tbl f

end Cs4

/-! ## `pkg/stis/calstis/cs7/getpct.c` -/

/-- A header keyword read `c_tbhgti`. -/
def c_tbhgti (c : Cell Int) (w : World) : Int × World :=
  (c.val, { w with iraferr := w.iraferr || c.failed, log := w.log ++ [Event.tbhgti] })

namespace Cs7

/-- The fields of `StisInfo7` that `GetPCT` reads or writes. -/
structure StisInfo7 where
  x2dcorr_o : Switch
  pctcorr : Switch
  pctab : RefTab
  aperture : String
  cenwave : Int
deriving DecidableEq, Repr

/-- The fields of `PhotInfo` that `GetPCT` reads or writes; `pcorr` is `none` for a
NULL pointer, otherwise the content of the array of `nelem` factors. -/
structure PhotInfo where
  allocated : Bool
  nelem : Nat
  wl : List ℚ
  pcorr : Option (List ℚ)
deriving DecidableEq, Repr

/-- One row of PCTAB: what each read of the row delivers. -/
structure PctRow where
  aperture : Cell String
  cenwave : Cell Int
  extrheight : Cell Int
  pedigree : PedigreeCell
  nelem : Cell Int
  wl : ArrayCell
  pc : ArrayCell
deriving DecidableEq, Repr

/-- The table that `sts->pctab.name` names. -/
structure PCTable where
  /-- Whether `c_tbtopn` can open it. -/
  tbtopn_ok : Bool
  /-- Its columns. -/
  descr : TableDescr
  /-- The header keyword MAXHGHT as `c_tbhgti` delivers it. -/
  maxhght : Cell Int
  /-- Its rows, row 1 first; `c_tbpsta (tp, TBL_NROWS)` is the length. -/
  rows : List PctRow
  /-- Whether `c_tbtclo` succeeds on it. -/
  tbtclo_ok : Bool
deriving DecidableEq, Repr

/-- The C struct `TblInfo`; a column pointer is `none` when it is 0. -/
structure TblInfo where
  cp_aperture : Option Nat
  cp_cenwave : Option Nat
  cp_extrheight : Option Nat
  cp_nelem : Option Nat
  cp_wl : Option Nat
  cp_pc : Option Nat
  cp_pedigree : Option Nat
  cp_descrip : Option Nat
  maxhght : Int
  nrows : Nat
deriving DecidableEq, Repr

/-- The C struct `TblRow`: the key values read from a row. -/
structure TblRow where
  aperture : String
  cenwave : Int
  extrheight : Int
deriving DecidableEq, Repr

/-- The C function `OpenPCTab`. -/
def OpenPCTab (tbl : PCTable) (tabinfo : TblInfo) (w : World) : Status × TblInfo × World :=
  let w1 := c_tbtopn tbl.tbtopn_ok w
  if c_iraferr w1 then (Status.OPEN_FAILED, tabinfo, w1)
  else
    let h := c_tbhgti tbl.maxhght w1
    let t1 : TblInfo :=
      { tabinfo with
        nrows := tbl.rows.length
        maxhght := h.1
        cp_aperture := c_tbcfnd1 tbl.descr "APERTURE"
        cp_cenwave := c_tbcfnd1 tbl.descr "CENWAVE"
        cp_extrheight := c_tbcfnd1 tbl.descr "EXTRHEIGHT"
        cp_nelem := c_tbcfnd1 tbl.descr "NELEM"
        cp_wl := c_tbcfnd1 tbl.descr "WAVELENGTH"
        cp_pc := c_tbcfnd1 tbl.descr "THROUGHPUT" }
    if t1.cp_aperture = none || t1.cp_cenwave = none || t1.cp_extrheight = none ||
        t1.cp_nelem = none || t1.cp_wl = none || t1.cp_pc = none then
      (Status.COLUMN_NOT_FOUND, t1, c_tbtclo tbl.tbtclo_ok h.2)
    else
      let t2 : TblInfo :=
        { t1 with
          cp_pedigree := c_tbcfnd1 tbl.descr "PEDIGREE"
          cp_descrip := c_tbcfnd1 tbl.descr "DESCRIP" }
      (Status.OK, t2, h.2)

/-- The C function `ReadPCTab` on row `row`, whose cells are `r`. -/
def ReadPCTab (r : PctRow) (row : Nat) (tabrow : TblRow) (w : World) :
    Status × TblRow × World :=
  let g1 := c_tbegt Column.APERTURE row r.aperture w
  let tabrow1 : TblRow := { tabrow with aperture := g1.1 }
  if c_iraferr g1.2 then (Status.TABLE_ERROR, tabrow1, g1.2)
  else
    let g2 := c_tbegt Column.CENWAVE row r.cenwave g1.2
    let tabrow2 : TblRow := { tabrow1 with cenwave := g2.1 }
    if c_iraferr g2.2 then (Status.TABLE_ERROR, tabrow2, g2.2)
    else
      let g3 := c_tbegt Column.EXTRHEIGHT row r.extrheight g2.2
      let tabrow3 : TblRow := { tabrow2 with extrheight := g3.1 }
      if c_iraferr g3.2 then (Status.TABLE_ERROR, tabrow3, g3.2)
      else (Status.OK, tabrow3, g3.2)

/-- The C function `ReadPCArray` on row `row`, whose cells are `r`.  The sizes passed
to `malloc` are not modelled: each allocation takes its outcome from `World.heap`. -/
def ReadPCArray (X : Collab) (tbl : PCTable) (r : PctRow) (row : Nat) (phot : PhotInfo)
    (w : World) : Status × PhotInfo × World :=
  let w0 := w.record (Event.ReadPCArray row)
  let g := c_tbegt Column.NELEM row r.nelem w0
  let nelem := g.1
  if c_iraferr g.2 then (Status.TABLE_ERROR, phot, g.2)
  else
    let mpc := malloc g.2
    let mwl := malloc mpc.2
    if !mpc.1 || !mwl.1 then (Status.OUT_OF_MEMORY, phot, mwl.2)
    else
      let awl := c_tbagtd Column.WAVELENGTH row r.wl mwl.2
      if c_iraferr awl.2.2 then (Status.TABLE_ERROR, phot, awl.2.2)
      else
        let apc := c_tbagtd Column.THROUGHPUT row r.pc awl.2.2
        if c_iraferr apc.2.2 then (Status.TABLE_ERROR, phot, apc.2.2)
        else if awl.1 < nelem || apc.1 < nelem then
          (Status.TABLE_ERROR, phot, c_tbtclo tbl.tbtclo_ok apc.2.2)
        else
          let mcorr := malloc apc.2.2
          if !mcorr.1 then (Status.OUT_OF_MEMORY, { phot with pcorr := none }, mcorr.2)
          else
            let s := X.splint_nr awl.2.1 apc.2.1 nelem phot.wl phot.nelem
            (s.1, { phot with pcorr := some s.2 }, mcorr.2.record (Event.splint_nr row))

/-- The C function `ClosePCTab`. -/
def ClosePCTab (tbl : PCTable) (w : World) : Status × World :=
  let w1 := c_tbtclo tbl.tbtclo_ok w
  if c_iraferr w1 then (Status.TABLE_ERROR, w1) else (Status.OK, w1)

/-- The C function `PCDummy`: allocate `pcorr` and fill it with ones. -/
def PCDummy (phot : PhotInfo) (w : World) : Status × PhotInfo × World :=
  let m := malloc (w.record Event.PCDummy)
  if !m.1 then (Status.OUT_OF_MEMORY, { phot with pcorr := none }, m.2)
  else (Status.OK, { phot with pcorr := some (List.replicate phot.nelem 1) }, m.2)

/-- What the caller of `GetPCT` observes: the status returned, `*sts`, `*phot`, and the
world. -/
structure Result where
  status : Status
  sts : StisInfo7
  phot : PhotInfo
  w : World
deriving DecidableEq, Repr

/-- The local variables and out-parameters of `GetPCT` during the scan. -/
structure Frame where
  status : Status
  tabrow : TblRow
  foundit : Bool
  sts : StisInfo7
  phot : PhotInfo
  w : World
deriving DecidableEq, Repr

/-- How a run of loop iterations of `GetPCT` ends: by a `return` in the body, by
`break`, or by reaching the end of the body with the frame `f`. -/
inductive Flow where
  | returned (r : Result)
  | broke (f : Frame)
  | finished (f : Frame)
deriving DecidableEq, Repr

/-- Whether a row with these key values is selected: the test
`SameString (tabrow.aperture, sts->aperture) && SameInt (tabrow.cenwave, sts->cenwave)
&& SameInt (tabrow.extrheight, tabinfo.maxhght)`. -/
def isMatch (sts : StisInfo7) (tabinfo : TblInfo) (tabrow : TblRow) : Bool :=
  SameString tabrow.aperture sts.aperture && SameInt tabrow.cenwave sts.cenwave &&
    SameInt tabrow.extrheight tabinfo.maxhght

/-- The body of the `for` loop of `GetPCT` on row `row`, whose cells are `r`. -/
def GetPCT_body (X : Collab) (tbl : PCTable) (tabinfo : TblInfo) (r : PctRow) (row : Nat)
    (f : Frame) : Flow :=
  let k := ReadPCTab r row f.tabrow f.w
  let f1 : Frame := { f with status := k.1, tabrow := k.2.1, w := k.2.2 }
  if k.1 ≠ Status.OK then Flow.returned ⟨k.1, f1.sts, f1.phot, f1.w⟩
  else if isMatch f1.sts tabinfo f1.tabrow then
    let f2 : Frame := { f1 with foundit := true }
    let p := RowPedigree f2.sts.pctab row r.pedigree f2.w
    let f3 : Frame :=
      { f2 with status := p.1, sts := { f2.sts with pctab := p.2.1 }, w := p.2.2 }
    if p.1 ≠ Status.OK then Flow.returned ⟨p.1, f3.sts, f3.phot, f3.w⟩
    else if f3.sts.pctab.goodPedigree = Pedigree.DUMMY_PEDIGREE then
      let sts4 : StisInfo7 := { f3.sts with pctcorr := Switch.DUMMY }
      let d := PCDummy f3.phot f3.w
      if d.1 ≠ Status.OK then Flow.returned ⟨d.1, sts4, d.2.1, d.2.2⟩
      else
        let c := ClosePCTab tbl d.2.2
        Flow.returned ⟨Status.OK, sts4, d.2.1, c.2⟩
    else
      let a := ReadPCArray X tbl r row f3.phot f3.w
      let f4 : Frame := { f3 with status := a.1, phot := a.2.1, w := a.2.2 }
      if a.1 ≠ Status.OK then Flow.returned ⟨a.1, f4.sts, f4.phot, f4.w⟩
      else Flow.broke f4
  else Flow.finished f1

/-- The `for` loop of `GetPCT` over the rows not yet visited, `row` being the number of
the first of them. -/
def GetPCT_loop (X : Collab) (tbl : PCTable) (tabinfo : TblInfo) :
    List PctRow → Nat → Frame → Flow
  | [], _, f => Flow.finished f
  | r :: rest, row, f =>
    match GetPCT_body X tbl tabinfo r row f with
    | Flow.returned res => Flow.returned res
    | Flow.broke f1 => Flow.broke f1
    | Flow.finished f1 => GetPCT_loop X tbl tabinfo rest (row + 1) f1

/-- The statements of `GetPCT` after the loop. -/
def GetPCT_end (tbl : PCTable) (f : Frame) : Result :=
  let c := ClosePCTab tbl f.w
  if c.1 ≠ Status.OK then ⟨c.1, f.sts, f.phot, c.2⟩
  else if !f.foundit then
    let sts1 : StisInfo7 := { f.sts with pctcorr := Switch.OMIT }
    let d := PCDummy f.phot c.2
    if d.1 ≠ Status.OK then ⟨d.1, sts1, d.2.1, d.2.2⟩
    else ⟨Status.OK, sts1, d.2.1, d.2.2⟩
  else ⟨Status.OK, f.sts, f.phot, c.2⟩

/-- Content of the local `tabinfo` before `OpenPCTab` fills it. -/
def TblInfo.blank : TblInfo := ⟨none, none, none, none, none, none, none, none, 0, 0⟩

/-- Content of the local `tabrow` before the first `ReadPCTab`. -/
def TblRow.blank : TblRow := ⟨"", 0, 0⟩

/-- The C function `GetPCT`, called on the table `tbl` that `sts->pctab.name` names. -/
def GetPCT (X : Collab) (tbl : PCTable) (sts : StisInfo7) (phot : PhotInfo) (w : World) :
    Result :=
  if sts.x2dcorr_o ≠ Switch.PERFORM then ⟨Status.OK, sts, phot, w⟩
  else if !phot.allocated then ⟨Status.INTERNAL_ERROR, sts, phot, w⟩
  else if sts.pctcorr ≠ Switch.PERFORM then
    let d := PCDummy phot w
    if d.1 ≠ Status.OK then ⟨d.1, sts, d.2.1, d.2.2⟩
    else ⟨Status.OK, sts, d.2.1, d.2.2⟩
  else
    let o := OpenPCTab tbl TblInfo.blank w
    if o.1 ≠ Status.OK then ⟨o.1, sts, phot, o.2.2⟩
    else
      match GetPCT_loop X tbl o.2.1 tbl.rows 1
          { status := o.1, tabrow := TblRow.blank, foundit := false, sts := sts,
            phot := phot, w := o.2.2 } with
      | Flow.returned r => r
      | Flow.broke f => GetPCT_end tbl f
      | Flow.finished f => GetPCT_end tbl f

end Cs7

/-! ## Vocabulary of the statements -/

/-- Every coming allocation succeeds. -/
def HeapOK (w : World) : Prop := ∀ b ∈ w.heap, b = true

instance (w : World) : Decidable (HeapOK w) := by unfold HeapOK; infer_instance

/-- The row a logged call concerns, if it concerns one. -/
def Event.row : Event → Option Nat
  | .tbegt _ n => some n
  | .tbagtd _ n => some n
  | .RowPedigree n => some n
  | .ReadTraceArray n => some n
  | .NewTrace4 n => some n
  | .rotatetrace n => some n
  | .ReadPCArray n => some n
  | .splint_nr n => some n
  | _ => none

/-- The rows handed to `ReadTraceArray`, in the order of the calls. -/
def handed (log : List Event) : List Nat :=
  log.filterMap (fun e => match e with
    | Event.ReadTraceArray n => some n
    | _ => none)

/-- The number of `c_tbtclo` calls. -/
def closes (log : List Event) : Nat := log.count Event.tbtclo

/-- The numbers of the rows that satisfy `p`, in increasing order, when the first row
of `rows` has the number `first`. -/
def rowNumbers {α : Type} (p : α → Bool) (rows : List α) (first : Nat) : List Nat :=
  ((rows.enumFrom first).filter (fun x => p x.2)).map Prod.fst

/-- Whether a logged call reads or resamples the arrays of a row: `ReadTraceArray`,
`ReadPCArray`, the array read `c_tbagtd`, `splint_nr`. -/
def Event.extracts : Event → Bool
  | .ReadTraceArray _ => true
  | .ReadPCArray _ => true
  | .tbagtd _ _ => true
  | .splint_nr _ => true
  | _ => false

/-- The world `w2` continues `w1` at row `row`: its log is the log of `w1` followed by
calls each of which concerns row `row` or no row. -/
def World.continuesAt (row : Nat) (w1 w2 : World) : Prop :=
  ∃ new, w2.log = w1.log ++ new ∧ ∀ e ∈ new, ∀ n, e.row = some n → n = row

/-- A world in which nothing has happened yet: no error pending, no handle open, no
call made, every allocation succeeding. -/
def World.fresh : World := ⟨false, false, [], []⟩

/-- A table descriptor with the given column names. -/
def TableDescr.ofNames (names : List String) : TableDescr := ⟨names.map ColumnDescr.mk⟩

/-- Collaborators used at concrete inputs: `rotatetrace` leaves the trace as it is,
`splint_nr` succeeds and delivers the target grid itself. -/
def Collab.sample : Collab := ⟨fun _ _ _ a _ => (0, a), fun _ _ _ x _ => (Status.OK, x)⟩

/-- Modelled from the spec: the status `InsufficientData` with which the resampler
rejects fewer than 2 reference samples.  `splint_nr` is not among the sources, which do
not give the value of this status. -/
def INSUFFICIENT_DATA : Status := Status.OTHER 1

/-- Modelled from the spec: the resampler "builds a natural cubic spline over the
reference samples".  This is the forward sweep that eliminates the lower diagonal of
the tridiagonal system for the second derivatives at the interior knots; `cu` is the
pair (coefficient, right-hand side) left at the knot before. -/
def splineSweep : List (ℚ × ℚ) → ℚ × ℚ → List (ℚ × ℚ)
  | [], _ => []
  | p0 :: rest, cu =>
    match rest with
    | p1 :: p2 :: _ =>
      let sig := (p1.1 - p0.1) / (p2.1 - p0.1)
      let p := sig * cu.1 + 2
      let c1 := (sig - 1) / p
      let u1 := (6 * ((p2.2 - p1.2) / (p2.1 - p1.1) - (p1.2 - p0.2) / (p1.1 - p0.1)) /
        (p2.1 - p0.1) - sig * cu.2) / p
      (c1, u1) :: splineSweep rest (c1, u1)
    | _ => []

/-- Modelled from the spec: the second derivatives of the natural cubic spline through
the points `pts`, zero at both ends, by back-substitution after `splineSweep`. -/
def splineY2 (pts : List (ℚ × ℚ)) : List ℚ :=
  ((0, 0) :: splineSweep pts (0, 0)).foldr
    (fun cu acc => (cu.1 * acc.headD 0 + cu.2) :: acc) [0]

/-- Modelled from the spec: the cubic of the spline between two neighbouring knots,
each given as (abscissa, ordinate, second derivative), evaluated at `x`. -/
def splineCubic (p0 p1 : ℚ × ℚ × ℚ) (x : ℚ) : ℚ :=
  let h := p1.1 - p0.1
  let a := (p1.1 - x) / h
  let b := (x - p0.1) / h
  a * p0.2.1 + b * p1.2.1 + ((a ^ 3 - a) * p0.2.2 + (b ^ 3 - b) * p1.2.2) * h ^ 2 / 6

/-- Modelled from the spec: the spline "evaluated at each target abscissa, including
extrapolation beyond the reference range using the same spline (no clamping)": the
cubic of the first interval whose right knot lies beyond `x`, the last interval if
there is none. -/
def splineEval : List (ℚ × ℚ × ℚ) → ℚ → ℚ
  | [], _ => 0
  | p0 :: rest, x =>
    match rest with
    | [] => 0
    | [p1] => splineCubic p0 p1 x
    | p1 :: _ :: _ => if x < p1.1 then splineCubic p0 p1 x else splineEval rest x

/-- Modelled from the spec: `splint_nr (xa, ya, n, x, y, nelem)` is not among the
sources.  The contract `resample(xsRef[1..n], ysRef[1..n], xsTarget[1..m])` of the spec:
fewer than 2 reference samples are rejected with `InsufficientData`; otherwise the
natural cubic spline through the `n` reference samples is evaluated at each of the
`nelem` target abscissas. -/
def splint_nr (xa ya : List ℚ) (n : Int) (x : List ℚ) (nelem : Nat) : Status × List ℚ :=
  if n < 2 then (INSUFFICIENT_DATA, [])
  else
    let y2 := splineY2 ((List.range n.toNat).map (fun i => (xa.getD i 0, ya.getD i 0)))
    let knots := (List.range n.toNat).map (fun i => (xa.getD i 0, ya.getD i 0, y2.getD i 0))
    (Status.OK, (x.take nelem).map (splineEval knots))

/-- Collaborators whose `splint_nr` is the resampler modelled from the spec. -/
def Collab.spline : Collab := ⟨fun _ _ _ a _ => (0, a), Hstcal.splint_nr⟩

/-- Folding of one character as the spec words it: an ASCII upper-case letter becomes
the lower-case letter, every other character stays. -/
def foldCase (c : Char) : Char :=
  if 'A' ≤ c ∧ c ≤ 'Z' then Char.ofNat (c.toNat + 32) else c

/-- The C string a name denotes: its characters up to the first NUL. -/
def cstring (s : String) : List Char := s.data.takeWhile (fun c => c ≠ Char.ofNat 0)

/-- The name with its upper-case letters folded to lower case. -/
def folded (s : String) : List Char := (cstring s).map foldCase

/-- The table has a column of this name, upper and lower case not distinguished. -/
@[reducible] def TableDescr.hasColumn (tp : TableDescr) (name : String) : Prop :=
  ∃ c ∈ tp.columns, folded c.name = folded name

/-- A table whose columns are spelled in mixed case. -/
def TableDescr.mixedCase : TableDescr :=
  TableDescr.ofNames ["Cenwave", "opt_ELEM", "SPORDER"]

/-- A table with two columns whose names differ in case only. -/
def TableDescr.twice : TableDescr :=
  TableDescr.ofNames ["SPORDER", "cenwave", "CENWAVE", "OPT_ELEM"]

namespace Cs4

/-- The two key reads of the row succeed. -/
@[reducible] def SptrcRow.keysOK (r : SptrcRow) : Prop :=
  r.opt_elem.failed = false ∧ r.cenwave.failed = false

/-- The key values read from the row are (OPT_ELEM, CENWAVE). -/
@[reducible] def SptrcRow.hasKey (r : SptrcRow) (opt_elem : String) (cenwave : Int) : Prop :=
  r.opt_elem.val = opt_elem ∧ r.cenwave.val = cenwave

/-- The row is classified Dummy by `RowPedigree`. -/
@[reducible] def SptrcRow.isDummy (r : SptrcRow) : Prop :=
  r.pedigree.goodPedigree = Pedigree.DUMMY_PEDIGREE

/-- The row holds the key and is not Dummy. -/
def SptrcRow.selected (opt_elem : String) (cenwave : Int) (r : SptrcRow) : Bool :=
  decide (r.hasKey opt_elem cenwave) && !decide r.isDummy

/-- Extraction of the row succeeds: every read of `ReadTraceArray` succeeds (those of
MJD and DEGPERYR included, which are made when the table has the column MJD), NELEM is
within `MAX_SP_TRACE` and the array read returns at least NELEM elements. -/
@[reducible] def SptrcRow.extractOK (r : SptrcRow) : Prop :=
  r.sporder.failed = false ∧ r.a1center.failed = false ∧ r.a2center.failed = false ∧
    r.nelem.failed = false ∧ r.nelem.val ≤ MAX_SP_TRACE ∧ r.a2displ.failed = false ∧
    r.nelem.val ≤ r.a2displ.nret ∧ r.mjd.failed = false ∧ r.degperyr.failed = false

/-- Every read that `GetTrace4` makes of the row succeeds when the key is
(`opt_elem`, `cenwave`): `ReadTraceTab`; `RowPedigree`, called if the row holds the key;
`ReadTraceArray`, called if moreover the row is not Dummy. -/
@[reducible] def SptrcRow.readsOK (opt_elem : String) (cenwave : Int) (r : SptrcRow) : Prop :=
  r.keysOK ∧ (r.hasKey opt_elem cenwave →
    r.pedigree.status = Status.OK ∧ (¬ r.isDummy → r.extractOK))

/-- The record `ReadTraceArray` builds from the row. -/
def SptrcRow.record (X : Collab) (tabinfo : TblInfo) (expstart : ℚ) (r : SptrcRow) : SpTrace :=
  { sporder := r.sporder.val, a1center := roundDouble (r.a1center.val - 1),
    a2center := roundDouble (r.a2center.val - 1), nelem := r.nelem.val,
    a2displ :=
      if tabinfo.cp_mjd ≠ none then
        (X.rotatetrace expstart r.mjd.val r.degperyr.val r.a2displ.buf r.a2displ.nret).2
      else r.a2displ.buf }

/-- The calls a successful `ReadTraceArray` makes on row `row`. -/
def extractLog (tabinfo : TblInfo) (row : Nat) : List Event :=
  [Event.ReadTraceArray row, Event.tbegt Column.SPORDER row, Event.tbegt Column.A1CENTER row,
    Event.tbegt Column.A2CENTER row, Event.tbegt Column.NELEM row,
    Event.tbagtd Column.A2DISPL row] ++
  (if tabinfo.cp_mjd ≠ none then
    [Event.tbegt Column.MJD row, Event.tbegt Column.DEGPERYR row, Event.rotatetrace row]
   else []) ++ [Event.NewTrace4 row]

/-- The required columns of SPTRCTAB: those for which `OpenTraceTab` tests the column
pointer against 0 and reports "Column not found". -/
def requiredColumns : List String :=
  ["OPT_ELEM", "CENWAVE", "SPORDER", "A1CENTER", "A2CENTER", "NELEM", "A2DISPL"]

/-- The calls `ReadTraceTab` makes on row `row`. -/
def keyLog (row : Nat) : List Event :=
  [Event.tbegt Column.OPT_ELEM row, Event.tbegt Column.CENWAVE row]

/-- The frame after an iteration on a row that does not hold the key. -/
def Frame.skip (f : Frame) (r : SptrcRow) (row : Nat) : Frame :=
  { f with status := Status.OK
           tabrow := ⟨r.opt_elem.val, r.cenwave.val⟩
           w := { f.w with log := f.w.log ++ keyLog row } }

/-- The frame after an iteration on a row that holds the key and is Dummy. -/
def Frame.dummy (f : Frame) (r : SptrcRow) (row : Nat) : Frame :=
  { f with status := Status.OK
           tabrow := ⟨r.opt_elem.val, r.cenwave.val⟩
           foundit := true
           sts := { f.sts with
             sptrctab := { f.sts.sptrctab with goodPedigree := r.pedigree.goodPedigree } }
           w := { f.w with log := f.w.log ++ (keyLog row ++ [Event.RowPedigree row]) } }

/-- The frame after an iteration on a row that holds the key, is not Dummy and is
extracted. -/
def Frame.extract (X : Collab) (tabinfo : TblInfo) (f : Frame) (r : SptrcRow) (row : Nat) :
    Frame :=
  { status := Status.OK
    tabrow := ⟨r.opt_elem.val, r.cenwave.val⟩
    foundit := true
    sts :=
      { f.sts with
        sptrctab := { f.sts.sptrctab with goodPedigree := r.pedigree.goodPedigree }
        trace_rotation :=
          if tabinfo.cp_mjd ≠ none then
            (X.rotatetrace f.sts.expstart r.mjd.val r.degperyr.val r.a2displ.buf
              r.a2displ.nret).1
          else f.sts.trace_rotation }
    trace := f.trace ++ [r.record X tabinfo f.sts.expstart]
    w := { f.w with heap := f.w.heap.tail.tail
                    log := f.w.log ++
                      (keyLog row ++ [Event.RowPedigree row] ++ extractLog tabinfo row) } }

/-- The frame after an iteration all of whose reads succeed. -/
def Frame.step (X : Collab) (tabinfo : TblInfo) (f : Frame) (r : SptrcRow) (row : Nat) :
    Frame :=
  if r.hasKey f.sts.opt_elem f.sts.cenwave then
    if r.isDummy then f.dummy r row else f.extract X tabinfo r row
  else f.skip r row

/-- The frame after the iterations on `rows`, all of whose reads succeed. -/
def Frame.scan (X : Collab) (tabinfo : TblInfo) : List SptrcRow → Nat → Frame → Frame
  | [], _, f => f
  | r :: rest, row, f => Frame.scan X tabinfo rest (row + 1) (f.step X tabinfo r row)

/-- The frame at the entry of the loop, after `OpenTraceTab` returned 0. -/
def Frame.init (sts : StisInfo4) (trace : List SpTrace) (w : World) : Frame :=
  { status := Status.OK, tabrow := TblRow.blank, foundit := false, sts := sts, trace := trace,
    w := c_tbtopn true w }

/-- A SPTRCTAB row with the given key, order and pedigree, and a trace of two elements. -/
def SptrcRow.sample (opt_elem : String) (cenwave sporder : Int) (ped : Pedigree) : SptrcRow :=
  { opt_elem := Cell.ok opt_elem, cenwave := Cell.ok cenwave, pedigree := ⟨Status.OK, ped⟩,
    sporder := Cell.ok sporder, a1center := Cell.ok 512, a2center := Cell.ok 300,
    nelem := Cell.ok 2, a2displ := ⟨2, [0, 1], false⟩, mjd := Cell.ok 0, degperyr := Cell.ok 0 }

/-- A SPTRCTAB with its required columns and PEDIGREE, and the given rows. -/
def TraceTable.sample (rows : List SptrcRow) : TraceTable :=
  { tbtopn_ok := true,
    descr := TableDescr.ofNames ["OPT_ELEM", "CENWAVE", "SPORDER", "A1CENTER", "A2CENTER",
      "NELEM", "A2DISPL", "PEDIGREE"],
    rows := rows, tbtclo_ok := true }

/-- The observation of the examples: optical element A, central wavelength 100. -/
def StisInfo4.sample : StisInfo4 :=
  { sptrctab := ⟨"sptrctab.fits", Pedigree.GOOD_PEDIGREE⟩, opt_elem := "A", cenwave := 100,
    expstart := 0, trace_rotation := 0 }

/-- The table {(A,100,order=1), (A,100,order=2), (B,100,order=1)}. -/
def TraceTable.threeRows : TraceTable :=
  TraceTable.sample [SptrcRow.sample "A" 100 1 Pedigree.GOOD_PEDIGREE,
    SptrcRow.sample "A" 100 2 Pedigree.GOOD_PEDIGREE,
    SptrcRow.sample "B" 100 1 Pedigree.GOOD_PEDIGREE]

/-- Three rows holding the key (A,100), the second of them Dummy. -/
def TraceTable.dummyMiddle : TraceTable :=
  TraceTable.sample [SptrcRow.sample "A" 100 1 Pedigree.GOOD_PEDIGREE,
    SptrcRow.sample "A" 100 2 Pedigree.DUMMY_PEDIGREE,
    SptrcRow.sample "A" 100 3 Pedigree.GOOD_PEDIGREE]

/-- A table whose only row holds another key than (A,100). -/
def TraceTable.otherKey : TraceTable :=
  TraceTable.sample [SptrcRow.sample "B" 100 1 Pedigree.GOOD_PEDIGREE]

/-- A table without rows. -/
def TraceTable.noRows : TraceTable := TraceTable.sample []

/-- A table in which every row that holds the key (A,100) is Dummy. -/
def TraceTable.allDummy : TraceTable :=
  TraceTable.sample [SptrcRow.sample "A" 100 1 Pedigree.DUMMY_PEDIGREE,
    SptrcRow.sample "B" 100 1 Pedigree.GOOD_PEDIGREE,
    SptrcRow.sample "A" 100 2 Pedigree.DUMMY_PEDIGREE]

/-- A SPTRCTAB without the columns SPORDER and PEDIGREE. -/
def TraceTable.noSporder : TraceTable :=
  { TraceTable.threeRows with
    descr := TableDescr.ofNames ["OPT_ELEM", "CENWAVE", "A1CENTER", "A2CENTER", "NELEM",
      "A2DISPL", "MJD", "DEGPERYR"] }

/-- A SPTRCTAB with its seven required columns spelled in lower case and none of the
optional ones. -/
def TraceTable.requiredOnly : TraceTable :=
  { TraceTable.threeRows with
    descr := TableDescr.ofNames ["opt_elem", "cenwave", "sporder", "a1center", "a2center",
      "nelem", "a2displ"] }

/-- A SPTRCTAB that has the columns MJD and DEGPERYR, and whose only row holds the key
(A,100), is not Dummy, and has a failing read of MJD. -/
def TraceTable.badMjd : TraceTable :=
  { tbtopn_ok := true,
    descr := TableDescr.ofNames ["OPT_ELEM", "CENWAVE", "SPORDER", "A1CENTER", "A2CENTER",
      "NELEM", "A2DISPL", "PEDIGREE", "MJD", "DEGPERYR"],
    rows := [{ SptrcRow.sample "A" 100 1 Pedigree.GOOD_PEDIGREE with mjd := Cell.fail 0 }],
    tbtclo_ok := true }

/-- The row (A, 100, order 1) whose A1CENTER is the double nearest to 0.1,
3602879701896397 / 2 ^ 55. -/
def SptrcRow.tenth : SptrcRow :=
  { SptrcRow.sample "A" 100 1 Pedigree.GOOD_PEDIGREE with
    a1center := Cell.ok (3602879701896397 / 36028797018963968) }

/-- A table whose second row cannot be read: the read of CENWAVE fails. -/
def TraceTable.badSecond : TraceTable :=
  TraceTable.sample [SptrcRow.sample "A" 100 1 Pedigree.GOOD_PEDIGREE,
    { SptrcRow.sample "A" 100 2 Pedigree.GOOD_PEDIGREE with cenwave := Cell.fail 0 },
    SptrcRow.sample "A" 100 3 Pedigree.GOOD_PEDIGREE]

/-- A row that declares 50 elements while the array read returns 40. -/
def SptrcRow.short : SptrcRow :=
  { SptrcRow.sample "A" 100 1 Pedigree.GOOD_PEDIGREE with
    nelem := Cell.ok 50, a2displ := ⟨40, List.replicate 40 0, false⟩ }

/-- A row that declares 1025 elements, one more than `MAX_SP_TRACE`. -/
def SptrcRow.oversize : SptrcRow :=
  { SptrcRow.sample "A" 100 1 Pedigree.GOOD_PEDIGREE with
    nelem := Cell.ok 1025, a2displ := ⟨1025, List.replicate 1025 0, false⟩ }

end Cs4

namespace Cs7

/-- The three key reads of the row succeed. -/
@[reducible] def PctRow.keysOK (r : PctRow) : Prop :=
  r.aperture.failed = false ∧ r.cenwave.failed = false ∧ r.extrheight.failed = false

/-- The key values read from the row are (APERTURE, CENWAVE, EXTRHEIGHT). -/
@[reducible] def PctRow.hasKey (r : PctRow) (aperture : String) (cenwave extrheight : Int) :
    Prop :=
  r.aperture.val = aperture ∧ r.cenwave.val = cenwave ∧ r.extrheight.val = extrheight

/-- The row is classified Dummy by `RowPedigree`. -/
@[reducible] def PctRow.isDummy (r : PctRow) : Prop :=
  r.pedigree.goodPedigree = Pedigree.DUMMY_PEDIGREE

/-- Extraction of the row succeeds as far as the table is concerned: the read of NELEM
and the two array reads of `ReadPCArray` succeed, and each array read returns at least
NELEM elements. -/
@[reducible] def PctRow.extractOK (r : PctRow) : Prop :=
  r.nelem.failed = false ∧ r.wl.failed = false ∧ r.pc.failed = false ∧
    r.nelem.val ≤ r.wl.nret ∧ r.nelem.val ≤ r.pc.nret

/-- The calls a successful `ReadPCArray` makes on row `row`. -/
def extractLog (row : Nat) : List Event :=
  [Event.ReadPCArray row, Event.tbegt Column.NELEM row, Event.tbagtd Column.WAVELENGTH row,
    Event.tbagtd Column.THROUGHPUT row, Event.splint_nr row]

/-- The first row in scan order whose key values are
(`aperture`, `cenwave`, `extrheight`), if there is one. -/
def firstMatch (aperture : String) (cenwave extrheight : Int) (rows : List PctRow) :
    Option PctRow :=
  rows.find? (fun r => decide (r.hasKey aperture cenwave extrheight))

/-- The curve `ReadPCArray` stores in `phot.pcorr` for the row: what `splint_nr` makes
of the arrays WAVELENGTH and THROUGHPUT of the row on the grid `phot.wl`. -/
def PctRow.resampled (X : Collab) (phot : PhotInfo) (r : PctRow) : List ℚ :=
  (X.splint_nr r.wl.buf r.pc.buf r.nelem.val phot.wl phot.nelem).2

/-- The required columns of PCTAB: those for which `OpenPCTab` tests the column pointer
against 0 and reports "Column not found". -/
def requiredColumns : List String :=
  ["APERTURE", "CENWAVE", "EXTRHEIGHT", "NELEM", "WAVELENGTH", "THROUGHPUT"]

/-- The world in which a run of loop iterations ends. -/
def Flow.world : Flow → World
  | Flow.returned res => res.w
  | Flow.broke f => f.w
  | Flow.finished f => f.w

/-- The frame after an iteration that reads the keys of a row and finds no match. -/
def Frame.skip (f : Frame) (r : PctRow) (row : Nat) : Frame :=
  { f with status := Status.OK
           tabrow := ⟨r.aperture.val, r.cenwave.val, r.extrheight.val⟩
           w := { f.w with log := f.w.log ++ [Event.tbegt Column.APERTURE row,
                    Event.tbegt Column.CENWAVE row, Event.tbegt Column.EXTRHEIGHT row] } }

/-- A PCTAB row with the given key, pedigree and a reference curve of three points. -/
def PctRow.sample (aperture : String) (cenwave extrheight : Int) (ped : Pedigree) : PctRow :=
  { aperture := Cell.ok aperture, cenwave := Cell.ok cenwave, extrheight := Cell.ok extrheight,
    pedigree := ⟨Status.OK, ped⟩, nelem := Cell.ok 3,
    wl := ⟨3, [1, 2, 3], false⟩, pc := ⟨3, [2, 4, 6], false⟩ }

/-- A PCTAB with all its columns, MAXHGHT = 21 and the given rows. -/
def PCTable.sample (rows : List PctRow) : PCTable :=
  { tbtopn_ok := true,
    descr := TableDescr.ofNames ["APERTURE", "CENWAVE", "EXTRHEIGHT", "NELEM", "WAVELENGTH",
      "THROUGHPUT", "PEDIGREE", "DESCRIP"],
    maxhght := Cell.ok 21, rows := rows, tbtclo_ok := true }

/-- The observation of the examples: aperture F1, central wavelength 5000. -/
def StisInfo7.sample : StisInfo7 :=
  { x2dcorr_o := Switch.PERFORM, pctcorr := Switch.PERFORM,
    pctab := ⟨"pctab.fits", Pedigree.GOOD_PEDIGREE⟩, aperture := "F1", cenwave := 5000 }

/-- Photometry information with a target grid of four wavelengths. -/
def PhotInfo.sample : PhotInfo :=
  { allocated := true, nelem := 4, wl := [1, 2, 3, 4], pcorr := none }

/-- A PCTAB none of whose rows holds the key (F1, 5000, 21). -/
def PCTable.noMatch : PCTable :=
  PCTable.sample [PctRow.sample "F2" 5000 21 Pedigree.GOOD_PEDIGREE,
    PctRow.sample "F1" 5000 15 Pedigree.GOOD_PEDIGREE,
    PctRow.sample "F1" 4000 21 Pedigree.GOOD_PEDIGREE]

/-- A PCTAB whose second row cannot be read: the read of EXTRHEIGHT fails. -/
def PCTable.badSecond : PCTable :=
  PCTable.sample [PctRow.sample "F2" 5000 21 Pedigree.GOOD_PEDIGREE,
    { PctRow.sample "F1" 5000 21 Pedigree.GOOD_PEDIGREE with extrheight := Cell.fail 0 },
    PctRow.sample "F1" 5000 21 Pedigree.GOOD_PEDIGREE]

/-- A PCTAB whose first row holding the key (F1, 5000, 21) is Dummy; a good row with
the same key follows. -/
def PCTable.dummyFirst : PCTable :=
  PCTable.sample [PctRow.sample "F2" 5000 21 Pedigree.GOOD_PEDIGREE,
    PctRow.sample "F1" 5000 21 Pedigree.DUMMY_PEDIGREE,
    PctRow.sample "F1" 5000 21 Pedigree.GOOD_PEDIGREE]

/-- A row that declares 50 elements while the read of WAVELENGTH returns 40. -/
def PctRow.short : PctRow :=
  { PctRow.sample "F1" 5000 21 Pedigree.GOOD_PEDIGREE with
    nelem := Cell.ok 50, wl := ⟨40, List.replicate 40 1, false⟩,
    pc := ⟨50, List.replicate 50 1, false⟩ }

/-- A row that declares 2000 elements, more than `MAX_SP_TRACE`, and whose arrays are
read in full. -/
def PctRow.oversize : PctRow :=
  { PctRow.sample "F1" 5000 21 Pedigree.GOOD_PEDIGREE with
    nelem := Cell.ok 2000, wl := ⟨2000, List.replicate 2000 1, false⟩,
    pc := ⟨2000, List.replicate 2000 1, false⟩ }

/-- A PCTAB without the column THROUGHPUT. -/
def PCTable.noThroughput : PCTable :=
  { PCTable.noMatch with
    descr := TableDescr.ofNames ["APERTURE", "CENWAVE", "EXTRHEIGHT", "NELEM", "WAVELENGTH",
      "PEDIGREE", "DESCRIP"] }

/-- A PCTAB with its six required columns and none of the optional ones. -/
def PCTable.requiredOnly : PCTable :=
  { PCTable.noMatch with
    descr := TableDescr.ofNames ["APERTURE", "CENWAVE", "EXTRHEIGHT", "NELEM", "WAVELENGTH",
      "THROUGHPUT"] }

/-- A PCTAB with two good rows that hold the key (F1, 5000, 21), rows 2 and 3; the
throughput of row 3 differs from that of row 2. -/
def PCTable.twoMatches : PCTable :=
  PCTable.sample [PctRow.sample "F2" 5000 21 Pedigree.GOOD_PEDIGREE,
    PctRow.sample "F1" 5000 21 Pedigree.GOOD_PEDIGREE,
    { PctRow.sample "F1" 5000 21 Pedigree.GOOD_PEDIGREE with pc := ⟨3, [5, 5, 5], false⟩ }]

/-- A PCTAB without rows. -/
def PCTable.noRows : PCTable := PCTable.sample []

end Cs7

/-! ## Theorems -/

theorem malloc_of_heapOK (w : World) (h : HeapOK w) :
    (malloc w).1 = true ∧ HeapOK (malloc w).2 ∧ (malloc w).2.iraferr = w.iraferr ∧
      (malloc w).2.handleOpen = w.handleOpen ∧ (malloc w).2.log = w.log := by
  unfold malloc
  cases hh : w.heap with
  | nil => simp [HeapOK, hh]
  | cons b rest =>
    have hb : b = true := h b (by simp [hh])
    have hr : ∀ x ∈ rest, x = true := fun x hx => h x (by simp [hh, hx])
    simpa [HeapOK, hb] using hr

theorem foldCase_eq (c : Char) : (if c.isUpper then c.toLower else c) = foldCase c := by
  unfold foldCase Char.isUpper Char.toLower
  by_cases h : 65 ≤ c.val ∧ c.val ≤ 90
  · have hA : 'A' ≤ c ∧ c ≤ 'Z' := h
    have h3 : c.toNat ≥ 65 ∧ c.toNat ≤ 90 := h
    have h4 : (decide (c.val ≥ 65) && decide (c.val ≤ 90)) = true := by simpa using h
    simp only [if_pos hA, if_pos h3, if_pos h4]
  · have hA : ¬ ('A' ≤ c ∧ c ≤ 'Z') := h
    have h4 : ¬ ((decide (c.val ≥ 65) && decide (c.val ≤ 90)) = true) := by simpa using h
    simp only [if_neg hA, if_neg h4]

theorem str_lower_eq_map (l : List Char) :
    str_lower l = (l.takeWhile (fun c => c ≠ Char.ofNat 0)).map foldCase := by
  induction l with
  | nil => rfl
  | cons c cs ih =>
    by_cases h : c = Char.ofNat 0
    · simp [str_lower, h]
    · simp [str_lower, h, ih, foldCase_eq]

theorem str_lower_data (s : String) : str_lower s.data = folded s := str_lower_eq_map s.data

/-- C5.  `c_tbcfnd1` is case-insensitive: two column names that are equal after folding
ASCII upper-case letters to lower case resolve, in every table, to the same column
handle, or both to NULL. -/
theorem c_tbcfnd1_case_insensitive (tp : TableDescr) (name1 name2 : String)
    (h : folded name1 = folded name2) : c_tbcfnd1 tp name1 = c_tbcfnd1 tp name2 := by
  unfold c_tbcfnd1
  rw [str_lower_data, str_lower_data, h]

/-- C5 at the names OPT_ELEM and Opt_Elem, in a table that spells the column opt_ELEM:
both resolve to that column, the second of the table. -/
theorem c_tbcfnd1_case_insensitive_witness :
    folded "OPT_ELEM" = folded "Opt_Elem" ∧
      c_tbcfnd1 TableDescr.mixedCase "OPT_ELEM" = c_tbcfnd1 TableDescr.mixedCase "Opt_Elem" ∧
      c_tbcfnd1 TableDescr.mixedCase "OPT_ELEM" = some 1 :=
  ⟨by decide, c_tbcfnd1_case_insensitive TableDescr.mixedCase "OPT_ELEM" "Opt_Elem" (by decide),
    by decide⟩

theorem malloc_eq (w : World) (h : HeapOK w) :
    malloc w = (true, { w with heap := w.heap.tail }) := by
  unfold malloc
  cases hh : w.heap with
  | nil => cases w; simp_all
  | cons b rest =>
    have hb : b = true := h b (by simp [hh])
    simp [hb]

theorem HeapOK_tail (w : World) (h : HeapOK w) (e : Bool) (o : Bool) (l : List Event) :
    HeapOK ⟨e, o, w.heap.tail, l⟩ := by
  intro b hb
  exact h b (List.mem_of_mem_tail hb)

namespace Cs4

theorem NewTrace4_ok (row : Nat) (trace : List SpTrace) (newrec : SpTrace) (w : World)
    (h : HeapOK w) :
    NewTrace4 row trace newrec w = (Status.OK, trace ++ [newrec],
      { w with heap := w.heap.tail, log := w.log ++ [Event.NewTrace4 row] }) := by
  have h1 : HeapOK (w.record (Event.NewTrace4 row)) := h
  unfold NewTrace4
  simp only [malloc_eq _ h1]
  simp [World.record]

theorem ReadTraceArray_ok (X : Collab) (tbl : TraceTable) (ti : TblInfo) (r : SptrcRow)
    (row : Nat) (sts : StisInfo4) (trace : List SpTrace) (w : World)
    (hw : w.iraferr = false) (hh : HeapOK w) (hr : r.extractOK) :
    ReadTraceArray X tbl ti r row sts trace w =
      (Status.OK,
        (if ti.cp_mjd ≠ none then
          { sts with trace_rotation :=
              (X.rotatetrace sts.expstart r.mjd.val r.degperyr.val r.a2displ.buf r.a2displ.nret).1 }
         else sts),
        trace ++ [r.record X ti sts.expstart],
        { w with heap := w.heap.tail.tail, log := w.log ++ extractLog ti row }) := by
  obtain ⟨h1, h2, h3, h4, h5, h6, h7, h8, h9⟩ := hr
  have h0 : HeapOK (w.record (Event.ReadTraceArray row)) := hh
  unfold ReadTraceArray
  simp only [malloc_eq _ h0]
  by_cases hm : ti.cp_mjd = none
  · simp [hm, c_tbegt, c_tbagtd, c_iraferr, hw, h1, h2, h3, h4, h5, h6, h7, World.record,
      not_lt.mpr h5, not_lt.mpr h7, NewTrace4_ok, HeapOK_tail w hh, SptrcRow.record, extractLog]
  · simp [hm, c_tbegt, c_tbagtd, c_iraferr, hw, h1, h2, h3, h4, h5, h6, h7, h8, h9, World.record,
      not_lt.mpr h5, not_lt.mpr h7, NewTrace4_ok, HeapOK_tail w hh, SptrcRow.record, extractLog]

theorem ReadTraceTab_ok (r : SptrcRow) (row : Nat) (tabrow : TblRow) (w : World)
    (hw : w.iraferr = false) (hk : r.keysOK) :
    ReadTraceTab r row tabrow w =
      (Status.OK, ⟨r.opt_elem.val, r.cenwave.val⟩, { w with log := w.log ++ keyLog row }) := by
  simp [ReadTraceTab, c_tbegt, c_iraferr, hw, hk.1, hk.2, keyLog]

theorem isMatch_iff_hasKey (sts : StisInfo4) (r : SptrcRow) :
    isMatch sts ⟨r.opt_elem.val, r.cenwave.val⟩ = true ↔ r.hasKey sts.opt_elem sts.cenwave := by
  simp [isMatch, SameString, SameInt]

theorem GetTrace4_body_step (X : Collab) (tbl : TraceTable) (ti : TblInfo) (r : SptrcRow)
    (row : Nat) (f : Frame) (hw : f.w.iraferr = false) (hh : HeapOK f.w)
    (hr : r.readsOK f.sts.opt_elem f.sts.cenwave) :
    GetTrace4_body X tbl ti r row f = Flow.finished (f.step X ti r row) := by
  obtain ⟨hk, hp⟩ := hr
  unfold GetTrace4_body Frame.step
  simp only [ReadTraceTab_ok r row f.tabrow f.w hw hk, isMatch_iff_hasKey]
  by_cases hm : r.hasKey f.sts.opt_elem f.sts.cenwave
  · obtain ⟨hs, he⟩ := hp hm
    by_cases hd : r.isDummy
    · have hd1 : r.pedigree.goodPedigree = Pedigree.DUMMY_PEDIGREE := hd
      simp only [if_pos hm, if_pos hd, RowPedigree, World.record, hs, ne_eq, not_true_eq_false,
        if_false, if_pos hd1, Frame.dummy]
      simp
    · have hd1 : ¬ r.pedigree.goodPedigree = Pedigree.DUMMY_PEDIGREE := hd
      have hx := ReadTraceArray_ok X tbl ti r row
        { f.sts with sptrctab := { f.sts.sptrctab with goodPedigree := r.pedigree.goodPedigree } }
        f.trace { f.w with log := f.w.log ++ keyLog row ++ [Event.RowPedigree row] } hw hh (he hd)
      simp only [if_pos hm, if_neg hd, RowPedigree, World.record, hs, ne_eq, not_true_eq_false,
        if_false, if_neg hd1, hx, Frame.extract]
      by_cases hj : ti.cp_mjd = none <;> simp [hj]
  · simp only [if_neg hm, ne_eq, not_true_eq_false, if_false, Frame.skip]

theorem step_sts (X : Collab) (ti : TblInfo) (f : Frame) (r : SptrcRow) (row : Nat) :
    (f.step X ti r row).sts.opt_elem = f.sts.opt_elem ∧
      (f.step X ti r row).sts.cenwave = f.sts.cenwave ∧
      (f.step X ti r row).sts.expstart = f.sts.expstart := by
  unfold Frame.step
  split_ifs <;> simp [Frame.dummy, Frame.extract, Frame.skip]

theorem step_world (X : Collab) (ti : TblInfo) (f : Frame) (r : SptrcRow) (row : Nat) :
    (f.step X ti r row).w.iraferr = f.w.iraferr ∧
      (f.step X ti r row).w.handleOpen = f.w.handleOpen ∧
      (HeapOK f.w → HeapOK (f.step X ti r row).w) := by
  unfold Frame.step
  split_ifs
  · exact ⟨rfl, rfl, fun h => h⟩
  · refine ⟨rfl, rfl, fun h => ?_⟩
    intro b hb
    exact h b (List.mem_of_mem_tail (List.mem_of_mem_tail hb))
  · exact ⟨rfl, rfl, fun h => h⟩

theorem step_result (X : Collab) (ti : TblInfo) (f : Frame) (r : SptrcRow) (row : Nat) :
    (f.step X ti r row).status = Status.OK ∧
      (f.step X ti r row).foundit =
        (f.foundit || decide (r.hasKey f.sts.opt_elem f.sts.cenwave)) ∧
      (f.step X ti r row).trace = f.trace ++
        (if r.selected f.sts.opt_elem f.sts.cenwave then [r.record X ti f.sts.expstart]
         else []) := by
  unfold Frame.step SptrcRow.selected
  split_ifs with h1 h2 h3 h4 <;>
    simp_all [Frame.dummy, Frame.extract, Frame.skip]

theorem step_log (X : Collab) (ti : TblInfo) (f : Frame) (r : SptrcRow) (row : Nat) :
    ∃ new, (f.step X ti r row).w.log = f.w.log ++ new ∧
      handed new = (if r.selected f.sts.opt_elem f.sts.cenwave then [row] else []) ∧
      closes new = 0 ∧ ∀ e ∈ new, e.row = some row := by
  unfold Frame.step SptrcRow.selected
  by_cases h1 : r.hasKey f.sts.opt_elem f.sts.cenwave
  · by_cases h2 : r.isDummy
    · refine ⟨keyLog row ++ [Event.RowPedigree row], ?_, ?_, ?_, ?_⟩
      · simp only [if_pos h1, if_pos h2, Frame.dummy]
      · simp [h2, keyLog, handed]
      · simp [keyLog, closes]
      · simp [keyLog, Event.row]
    · refine ⟨keyLog row ++ [Event.RowPedigree row] ++ extractLog ti row, ?_, ?_, ?_, ?_⟩
      · simp only [if_pos h1, if_neg h2, Frame.extract]
      · by_cases hj : ti.cp_mjd = none <;> simp [h1, h2, keyLog, handed, extractLog, hj]
      · by_cases hj : ti.cp_mjd = none <;> simp [keyLog, closes, extractLog, hj]
      · by_cases hj : ti.cp_mjd = none <;> simp [keyLog, extractLog, hj, Event.row]
  · refine ⟨keyLog row, ?_, ?_, ?_, ?_⟩
    · simp only [if_neg h1, Frame.skip]
    · simp [h1, keyLog, handed]
    · simp [keyLog, closes]
    · simp [keyLog, Event.row]

theorem GetTrace4_loop_scan (X : Collab) (tbl : TraceTable) (ti : TblInfo)
    (rows : List SptrcRow) :
    ∀ (row : Nat) (f : Frame), f.w.iraferr = false → HeapOK f.w →
      (∀ r ∈ rows, r.readsOK f.sts.opt_elem f.sts.cenwave) →
      GetTrace4_loop X tbl ti rows row f = Flow.finished (f.scan X ti rows row) := by
  induction rows with
  | nil => intro row f _ _ _; rfl
  | cons r rest ih =>
    intro row f hw hh hr
    have hb := GetTrace4_body_step X tbl ti r row f hw hh (hr r (List.mem_cons_self _ _))
    obtain ⟨s1, s2, -⟩ := step_sts X ti f r row
    obtain ⟨w1, -, w3⟩ := step_world X ti f r row
    simp only [GetTrace4_loop, hb, Frame.scan]
    exact ih (row + 1) (f.step X ti r row) (by rw [w1]; exact hw) (w3 hh)
      (fun x hx => by rw [s1, s2]; exact hr x (List.mem_cons_of_mem _ hx))

theorem scan_sts (X : Collab) (ti : TblInfo) (rows : List SptrcRow) :
    ∀ (row : Nat) (f : Frame),
      (f.scan X ti rows row).sts.opt_elem = f.sts.opt_elem ∧
      (f.scan X ti rows row).sts.cenwave = f.sts.cenwave ∧
      (f.scan X ti rows row).sts.expstart = f.sts.expstart := by
  induction rows with
  | nil => intro row f; exact ⟨rfl, rfl, rfl⟩
  | cons r rest ih =>
    intro row f
    obtain ⟨s1, s2, s3⟩ := step_sts X ti f r row
    obtain ⟨i1, i2, i3⟩ := ih (row + 1) (f.step X ti r row)
    exact ⟨i1.trans s1, i2.trans s2, i3.trans s3⟩

theorem scan_world (X : Collab) (ti : TblInfo) (rows : List SptrcRow) :
    ∀ (row : Nat) (f : Frame),
      (f.scan X ti rows row).w.iraferr = f.w.iraferr ∧
      (f.scan X ti rows row).w.handleOpen = f.w.handleOpen ∧
      (HeapOK f.w → HeapOK (f.scan X ti rows row).w) := by
  induction rows with
  | nil => intro row f; exact ⟨rfl, rfl, fun h => h⟩
  | cons r rest ih =>
    intro row f
    obtain ⟨s1, s2, s3⟩ := step_world X ti f r row
    obtain ⟨i1, i2, i3⟩ := ih (row + 1) (f.step X ti r row)
    exact ⟨i1.trans s1, i2.trans s2, fun h => i3 (s3 h)⟩

theorem scan_result (X : Collab) (ti : TblInfo) (rows : List SptrcRow) :
    ∀ (row : Nat) (f : Frame),
      (f.status = Status.OK → (f.scan X ti rows row).status = Status.OK) ∧
      (f.scan X ti rows row).foundit =
        (f.foundit || rows.any (fun r => decide (r.hasKey f.sts.opt_elem f.sts.cenwave))) ∧
      (f.scan X ti rows row).trace = f.trace ++
        (rows.filter (SptrcRow.selected f.sts.opt_elem f.sts.cenwave)).map
          (SptrcRow.record X ti f.sts.expstart) := by
  induction rows with
  | nil => intro row f; simp [Frame.scan]
  | cons r rest ih =>
    intro row f
    obtain ⟨s1, s2, s3⟩ := step_sts X ti f r row
    obtain ⟨t1, t2, t3⟩ := step_result X ti f r row
    obtain ⟨i1, i2, i3⟩ := ih (row + 1) (f.step X ti r row)
    simp only [Frame.scan]
    refine ⟨fun _ => i1 t1, ?_, ?_⟩
    · rw [i2, t2, s1, s2]; simp [Bool.or_assoc]
    · rw [i3, t3, s1, s2, s3]
      by_cases hs : r.selected f.sts.opt_elem f.sts.cenwave = true
      · simp [hs]
      · simp [hs]

theorem rowNumbers_cons {α : Type} (p : α → Bool) (r : α) (rest : List α) (first : Nat) :
    rowNumbers p (r :: rest) first =
      (if p r then [first] else []) ++ rowNumbers p rest (first + 1) := by
  unfold rowNumbers
  by_cases h : p r = true <;> simp [List.enumFrom_cons, List.filter_cons, h]

theorem scan_log (X : Collab) (ti : TblInfo) (rows : List SptrcRow) :
    ∀ (row : Nat) (f : Frame),
      ∃ new, (f.scan X ti rows row).w.log = f.w.log ++ new ∧
        handed new = rowNumbers (SptrcRow.selected f.sts.opt_elem f.sts.cenwave) rows row ∧
        closes new = 0 ∧
        ∀ e ∈ new, ∃ n, e.row = some n ∧ row ≤ n ∧ n < row + rows.length := by
  induction rows with
  | nil => intro row f; exact ⟨[], by simp [Frame.scan], rfl, rfl, by simp⟩
  | cons r rest ih =>
    intro row f
    obtain ⟨s1, s2, -⟩ := step_sts X ti f r row
    obtain ⟨new1, l1, l2, l3, l4⟩ := step_log X ti f r row
    obtain ⟨new2, k1, k2, k3, k4⟩ := ih (row + 1) (f.step X ti r row)
    refine ⟨new1 ++ new2, ?_, ?_, ?_, ?_⟩
    · simp only [Frame.scan]; rw [k1, l1, List.append_assoc]
    · rw [rowNumbers_cons, ← l2, ← s1, ← s2, ← k2]; simp [handed]
    · simp only [closes, List.count_append] at *; omega
    · intro e he
      rcases List.mem_append.mp he with h | h
      · exact ⟨row, l4 e h, le_refl _, by simp⟩
      · obtain ⟨n, a1, a2, a3⟩ := k4 e h
        exact ⟨n, a1, by omega, by simp only [List.length_cons]; omega⟩

theorem rowNumbers_ge {α : Type} (p : α → Bool) (rows : List α) :
    ∀ (first : Nat), ∀ n ∈ rowNumbers p rows first, first ≤ n := by
  induction rows with
  | nil => intro first n hn; simp [rowNumbers] at hn
  | cons r rest ih =>
    intro first n hn
    rw [rowNumbers_cons] at hn
    rcases List.mem_append.mp hn with h | h
    · by_cases hp : p r = true
      · simp [hp] at h; omega
      · simp [hp] at h
    · have := ih (first + 1) n h; omega

theorem rowNumbers_increasing {α : Type} (p : α → Bool) (rows : List α) :
    ∀ (first : Nat), (rowNumbers p rows first).Pairwise (fun a b => a < b) := by
  induction rows with
  | nil => intro first; simp [rowNumbers]
  | cons r rest ih =>
    intro first
    rw [rowNumbers_cons]
    by_cases hp : p r = true
    · simp only [hp, if_true, List.singleton_append, List.pairwise_cons]
      exact ⟨fun n hn => by have := rowNumbers_ge p rest (first + 1) n hn; omega, ih (first + 1)⟩
    · simp only [hp, Bool.false_eq_true, if_false, List.nil_append]
      exact ih (first + 1)

theorem OpenTraceTab_ok (tbl : TraceTable) (w : World)
    (hopen : (OpenTraceTab tbl TblInfo.blank w).1 = Status.OK) :
    w.iraferr = false ∧ tbl.tbtopn_ok = true ∧
      (OpenTraceTab tbl TblInfo.blank w).2.2 = c_tbtopn true w := by
  unfold OpenTraceTab at hopen ⊢
  simp only [c_iraferr, c_tbtopn] at hopen ⊢
  split at hopen
  · simp at hopen
  · rename_i h1
    split at hopen
    · simp at hopen
    · rename_i h2
      simp only [Bool.or_eq_true, not_or, Bool.not_eq_true, Bool.not_eq_eq_eq_not,
        Bool.not_true] at h1
      simp [h1.1, h1.2, h2]

theorem GetTrace4_eq_end (X : Collab) (tbl : TraceTable) (sts : StisInfo4)
    (trace : List SpTrace) (w : World)
    (hopen : (OpenTraceTab tbl TblInfo.blank w).1 = Status.OK) (hheap : HeapOK w)
    (hreads : ∀ r ∈ tbl.rows, r.readsOK sts.opt_elem sts.cenwave) :
    GetTrace4 X tbl sts trace w =
      GetTrace4_end tbl
        ((Frame.init sts trace w).scan X (OpenTraceTab tbl TblInfo.blank w).2.1 tbl.rows 1) := by
  obtain ⟨hw, -, ho⟩ := OpenTraceTab_ok tbl w hopen
  have hl := GetTrace4_loop_scan X tbl (OpenTraceTab tbl TblInfo.blank w).2.1 tbl.rows 1
    (Frame.init sts trace w) (by simp [Frame.init, c_tbtopn, hw]) hheap hreads
  unfold GetTrace4
  simp only [hopen, ne_eq, not_true_eq_false, if_false, ho]
  unfold Frame.init at hl
  rw [hl]
  rfl

theorem GetTrace4_end_eq (tbl : TraceTable) (f : Frame) :
    (GetTrace4_end tbl f).trace = (if f.foundit then f.trace else []) ∧
      (GetTrace4_end tbl f).w.log =
        f.w.log ++ (if f.foundit then [Event.tbtclo] else [Event.FreeTrace4, Event.tbtclo]) ∧
      (GetTrace4_end tbl f).w.handleOpen = false ∧
      (f.foundit = false → (GetTrace4_end tbl f).status = f.status) ∧
      (f.foundit = true → f.w.iraferr = false → tbl.tbtclo_ok = true →
        (GetTrace4_end tbl f).status = Status.OK) := by
  unfold GetTrace4_end
  cases hf : f.foundit <;> cases hc : (f.w.iraferr || !tbl.tbtclo_ok) <;>
    simp_all [FreeTrace4, CloseTraceTab, c_tbtclo, c_iraferr, World.record]

theorem handed_append (l1 l2 : List Event) : handed (l1 ++ l2) = handed l1 ++ handed l2 := by
  simp [handed]

/-- C3.  Collect-all.  The table opens, every read `GetTrace4` makes succeeds
(`ReadTraceTab` on every row, `RowPedigree` on every row that holds the key,
`ReadTraceArray` on every such row that is not Dummy) and the allocations succeed.
Then the rows handed to `ReadTraceArray` are, in the order of the calls, the numbers of
the rows that hold the key (`sts.opt_elem`, `sts.cenwave`) and are not Dummy, in
strictly increasing order, hence each once; and the trace list returned is the list
passed in followed by one record per such row and by nothing else.  (When no row holds
the key the list is released and comes back empty.) -/
theorem GetTrace4_collects_selected (X : Collab) (tbl : TraceTable) (sts : StisInfo4)
    (trace : List SpTrace) (w : World)
    (hopen : (OpenTraceTab tbl TblInfo.blank w).1 = Status.OK) (hheap : HeapOK w)
    (hreads : ∀ r ∈ tbl.rows, r.readsOK sts.opt_elem sts.cenwave) :
    (∃ new, (GetTrace4 X tbl sts trace w).w.log = w.log ++ new ∧
        handed new = rowNumbers (SptrcRow.selected sts.opt_elem sts.cenwave) tbl.rows 1) ∧
      (rowNumbers (SptrcRow.selected sts.opt_elem sts.cenwave) tbl.rows 1).Pairwise
        (fun a b => a < b) ∧
      ((∃ r ∈ tbl.rows, r.hasKey sts.opt_elem sts.cenwave) →
        (GetTrace4 X tbl sts trace w).trace = trace ++
          (tbl.rows.filter (SptrcRow.selected sts.opt_elem sts.cenwave)).map
            (SptrcRow.record X (OpenTraceTab tbl TblInfo.blank w).2.1 sts.expstart)) ∧
      ((∀ r ∈ tbl.rows, ¬ r.hasKey sts.opt_elem sts.cenwave) →
        (GetTrace4 X tbl sts trace w).trace = []) := by
  rw [GetTrace4_eq_end X tbl sts trace w hopen hheap hreads]
  obtain ⟨e1, e2, -, -, -⟩ := GetTrace4_end_eq tbl
    ((Frame.init sts trace w).scan X (OpenTraceTab tbl TblInfo.blank w).2.1 tbl.rows 1)
  obtain ⟨-, r2, r3⟩ := scan_result X (OpenTraceTab tbl TblInfo.blank w).2.1 tbl.rows 1
    (Frame.init sts trace w)
  obtain ⟨new, l1, l2, -, -⟩ := scan_log X (OpenTraceTab tbl TblInfo.blank w).2.1 tbl.rows 1
    (Frame.init sts trace w)
  obtain ⟨tl, e3, e4⟩ : ∃ tl, (GetTrace4_end tbl ((Frame.init sts trace w).scan X
      (OpenTraceTab tbl TblInfo.blank w).2.1 tbl.rows 1)).w.log =
      ((Frame.init sts trace w).scan X (OpenTraceTab tbl TblInfo.blank w).2.1 tbl.rows 1).w.log
        ++ tl ∧ handed tl = [] := ⟨_, e2, by split_ifs <;> simp [handed]⟩
  refine ⟨⟨[Event.tbtopn] ++ new ++ tl, ?_, ?_⟩, rowNumbers_increasing _ _ _, ?_, ?_⟩
  · rw [e3, l1]; simp [Frame.init, c_tbtopn]
  · rw [handed_append, handed_append, l2, e4]
    simp [handed, Frame.init]
  · intro hex
    have hf : List.any tbl.rows (fun r => decide (r.hasKey sts.opt_elem sts.cenwave)) = true := by
      obtain ⟨r, hr, hk⟩ := hex
      exact List.any_eq_true.mpr ⟨r, hr, by simpa using hk⟩
    have r2a : ((Frame.init sts trace w).scan X (OpenTraceTab tbl TblInfo.blank w).2.1
        tbl.rows 1).foundit = true := by
      rw [r2]
      exact hf
    rw [e1, if_pos r2a, r3]
    rfl
  · intro hno
    have hf : List.any tbl.rows (fun r => decide (r.hasKey sts.opt_elem sts.cenwave)) = false := by
      rw [List.any_eq_false]
      intro r hr
      simpa using hno r hr
    have r2a : ¬ ((Frame.init sts trace w).scan X (OpenTraceTab tbl TblInfo.blank w).2.1
        tbl.rows 1).foundit = true := by
      rw [r2]
      exact fun h => Bool.noConfusion (hf.symm.trans h)
    rw [e1, if_neg r2a]

/-- C3 at the table {(A,100,order=1), (A,100,order=2), (B,100,order=1)} and the key
(A,100): rows 1 and 2 are handed to `ReadTraceArray` and exactly two records, with
orders 1 and 2, are produced.  In the table `TraceTable.dummyMiddle` the Dummy row 2
is not extracted and does not stop the scan: rows 1 and 3 are extracted. -/
theorem GetTrace4_collects_selected_witness :
    ((OpenTraceTab TraceTable.threeRows TblInfo.blank World.fresh).1 = Status.OK ∧
      HeapOK World.fresh ∧ ∀ r ∈ TraceTable.threeRows.rows, r.readsOK "A" 100) ∧
    ((∃ new, (GetTrace4 Collab.sample TraceTable.threeRows StisInfo4.sample []
          World.fresh).w.log = World.fresh.log ++ new ∧
        handed new = rowNumbers (SptrcRow.selected "A" 100) TraceTable.threeRows.rows 1) ∧
      (rowNumbers (SptrcRow.selected "A" 100) TraceTable.threeRows.rows 1).Pairwise
        (fun a b => a < b) ∧
      ((∃ r ∈ TraceTable.threeRows.rows, r.hasKey "A" 100) →
        (GetTrace4 Collab.sample TraceTable.threeRows StisInfo4.sample [] World.fresh).trace =
          [] ++ (TraceTable.threeRows.rows.filter (SptrcRow.selected "A" 100)).map
            (SptrcRow.record Collab.sample
              (OpenTraceTab TraceTable.threeRows TblInfo.blank World.fresh).2.1 0)) ∧
      ((∀ r ∈ TraceTable.threeRows.rows, ¬ r.hasKey "A" 100) →
        (GetTrace4 Collab.sample TraceTable.threeRows StisInfo4.sample [] World.fresh).trace
          = [])) ∧
    rowNumbers (SptrcRow.selected "A" 100) TraceTable.threeRows.rows 1 = [1, 2] ∧
    (GetTrace4 Collab.sample TraceTable.threeRows StisInfo4.sample [] World.fresh).trace.map
      (fun t => t.sporder) = [1, 2] ∧
    handed (GetTrace4 Collab.sample TraceTable.dummyMiddle StisInfo4.sample []
      World.fresh).w.log = [1, 3] ∧
    (GetTrace4 Collab.sample TraceTable.dummyMiddle StisInfo4.sample [] World.fresh).trace.map
      (fun t => t.sporder) = [1, 3] :=
  ⟨by decide,
    GetTrace4_collects_selected Collab.sample TraceTable.threeRows StisInfo4.sample []
      World.fresh (by decide) (by decide) (by decide),
    by decide, by decide, by decide, by decide⟩

/-- C2, what the code does.  The table opens and the key reads of every row succeed.
If no row holds the key (`sts.opt_elem`, `sts.cenwave`), a table without rows
included, the trace list is released (it comes back empty) but `GetTrace4` returns
`status`, which is 0 at that point: no error is reported. -/
theorem GetTrace4_no_match_returns_OK (X : Collab) (tbl : TraceTable) (sts : StisInfo4)
    (trace : List SpTrace) (w : World)
    (hopen : (OpenTraceTab tbl TblInfo.blank w).1 = Status.OK) (hheap : HeapOK w)
    (hkeys : ∀ r ∈ tbl.rows, r.keysOK)
    (hno : ∀ r ∈ tbl.rows, ¬ r.hasKey sts.opt_elem sts.cenwave) :
    (GetTrace4 X tbl sts trace w).status = Status.OK ∧
      (GetTrace4 X tbl sts trace w).trace = [] := by
  have hreads : ∀ r ∈ tbl.rows, r.readsOK sts.opt_elem sts.cenwave :=
    fun r hr => ⟨hkeys r hr, fun hk => absurd hk (hno r hr)⟩
  rw [GetTrace4_eq_end X tbl sts trace w hopen hheap hreads]
  obtain ⟨e1, -, -, e4, -⟩ := GetTrace4_end_eq tbl
    ((Frame.init sts trace w).scan X (OpenTraceTab tbl TblInfo.blank w).2.1 tbl.rows 1)
  obtain ⟨r1, r2, -⟩ := scan_result X (OpenTraceTab tbl TblInfo.blank w).2.1 tbl.rows 1
    (Frame.init sts trace w)
  have hf : List.any tbl.rows (fun r => decide (r.hasKey sts.opt_elem sts.cenwave)) = false := by
    rw [List.any_eq_false]
    intro r hr
    simpa using hno r hr
  have r2a : ((Frame.init sts trace w).scan X (OpenTraceTab tbl TblInfo.blank w).2.1
      tbl.rows 1).foundit = false := by
    rw [r2]
    exact hf
  refine ⟨?_, ?_⟩
  · rw [e4 r2a]; exact r1 rfl
  · rw [e1, r2a]; rfl

/-- C2 at a table without rows and at a table whose only row holds the key (B,100),
for the key (A,100): the status is 0. -/
theorem GetTrace4_no_match_returns_OK_witness :
    ((GetTrace4 Collab.sample TraceTable.noRows StisInfo4.sample [] World.fresh).status
        = Status.OK ∧
      (GetTrace4 Collab.sample TraceTable.noRows StisInfo4.sample [] World.fresh).trace = []) ∧
    ((GetTrace4 Collab.sample TraceTable.otherKey StisInfo4.sample [] World.fresh).status
        = Status.OK ∧
      (GetTrace4 Collab.sample TraceTable.otherKey StisInfo4.sample [] World.fresh).trace = []) :=
  ⟨GetTrace4_no_match_returns_OK Collab.sample TraceTable.noRows StisInfo4.sample []
      World.fresh (by decide) (by decide) (by decide) (by decide),
    GetTrace4_no_match_returns_OK Collab.sample TraceTable.otherKey StisInfo4.sample []
      World.fresh (by decide) (by decide) (by decide) (by decide)⟩

/-- C8, what the code does.  The table opens, every read `GetTrace4` makes succeeds and
so does the close.  If some row holds the key and every row that holds it is Dummy,
`GetTrace4` returns 0 and hands back the trace list it was given, without any record
added: success with an empty list when the caller passed an empty one. -/
theorem GetTrace4_all_dummy_returns_OK (X : Collab) (tbl : TraceTable) (sts : StisInfo4)
    (trace : List SpTrace) (w : World)
    (hopen : (OpenTraceTab tbl TblInfo.blank w).1 = Status.OK) (hheap : HeapOK w)
    (hreads : ∀ r ∈ tbl.rows, r.readsOK sts.opt_elem sts.cenwave)
    (hclose : tbl.tbtclo_ok = true)
    (hex : ∃ r ∈ tbl.rows, r.hasKey sts.opt_elem sts.cenwave)
    (hall : ∀ r ∈ tbl.rows, r.hasKey sts.opt_elem sts.cenwave → r.isDummy) :
    (GetTrace4 X tbl sts trace w).status = Status.OK ∧
      (GetTrace4 X tbl sts trace w).trace = trace := by
  obtain ⟨hw, -, -⟩ := OpenTraceTab_ok tbl w hopen
  rw [GetTrace4_eq_end X tbl sts trace w hopen hheap hreads]
  obtain ⟨e1, -, -, -, e5⟩ := GetTrace4_end_eq tbl
    ((Frame.init sts trace w).scan X (OpenTraceTab tbl TblInfo.blank w).2.1 tbl.rows 1)
  obtain ⟨-, r2, r3⟩ := scan_result X (OpenTraceTab tbl TblInfo.blank w).2.1 tbl.rows 1
    (Frame.init sts trace w)
  obtain ⟨w1, -, -⟩ := scan_world X (OpenTraceTab tbl TblInfo.blank w).2.1 tbl.rows 1
    (Frame.init sts trace w)
  have hf : List.any tbl.rows (fun r => decide (r.hasKey sts.opt_elem sts.cenwave)) = true := by
    obtain ⟨r, hr, hk⟩ := hex
    exact List.any_eq_true.mpr ⟨r, hr, by simpa using hk⟩
  have r2a : ((Frame.init sts trace w).scan X (OpenTraceTab tbl TblInfo.blank w).2.1
      tbl.rows 1).foundit = true := by
    rw [r2]
    exact hf
  have hsel : tbl.rows.filter (SptrcRow.selected sts.opt_elem sts.cenwave) = [] := by
    rw [List.filter_eq_nil_iff]
    intro r hr
    unfold SptrcRow.selected
    by_cases hk : r.hasKey sts.opt_elem sts.cenwave
    · have hd : r.isDummy := hall r hr hk
      rw [decide_eq_true hd]; simp
    · rw [decide_eq_false hk]; simp
  have hi : ((Frame.init sts trace w).scan X (OpenTraceTab tbl TblInfo.blank w).2.1
      tbl.rows 1).w.iraferr = false := by
    rw [w1]; simp [Frame.init, c_tbtopn, hw]
  refine ⟨e5 r2a hi hclose, ?_⟩
  rw [e1, if_pos r2a, r3]
  show trace ++ List.map _ (tbl.rows.filter (SptrcRow.selected sts.opt_elem sts.cenwave)) = trace
  rw [hsel]; simp

/-- C8 at a table whose two rows holding the key (A,100) are both Dummy: the status is
0 and the trace list is empty. -/
theorem GetTrace4_all_dummy_returns_OK_witness :
    (GetTrace4 Collab.sample TraceTable.allDummy StisInfo4.sample [] World.fresh).status
        = Status.OK ∧
      (GetTrace4 Collab.sample TraceTable.allDummy StisInfo4.sample [] World.fresh).trace = [] :=
  GetTrace4_all_dummy_returns_OK Collab.sample TraceTable.allDummy StisInfo4.sample []
    World.fresh (by decide) (by decide) (by decide) (by decide) (by decide) (by decide)

theorem ReadTraceArray_short (X : Collab) (tbl : TraceTable) (ti : TblInfo) (r : SptrcRow)
    (row : Nat) (sts : StisInfo4) (trace : List SpTrace) (w : World)
    (hs : r.a2displ.nret < r.nelem.val) :
    (ReadTraceArray X tbl ti r row sts trace w).2.2.1 = trace ∧
      (ReadTraceArray X tbl ti r row sts trace w).1 ≠ Status.OK ∧
      (HeapOK w → (ReadTraceArray X tbl ti r row sts trace w).1 = Status.TABLE_ERROR) := by
  have key : ∀ m : Bool × World, m = malloc (w.record (Event.ReadTraceArray row)) →
      (ReadTraceArray X tbl ti r row sts trace w).2.2.1 = trace ∧
      (ReadTraceArray X tbl ti r row sts trace w).1 ≠ Status.OK ∧
      (m.1 = true → (ReadTraceArray X tbl ti r row sts trace w).1 = Status.TABLE_ERROR) := by
    intro m hm
    unfold ReadTraceArray
    simp only [← hm, c_tbegt, c_tbagtd, c_iraferr]
    cases h1 : m.1
    · simp
    · simp only [Bool.not_true, Bool.false_eq_true, if_false]
      split_ifs <;> simp_all
  obtain ⟨k1, k2, k3⟩ := key _ rfl
  refine ⟨k1, k2, fun hh => ?_⟩
  have h0 : HeapOK (w.record (Event.ReadTraceArray row)) := hh
  exact k3 (malloc_of_heapOK _ h0).1

/-- C9, as amended.  For every row whose declared NELEM exceeds `MAX_SP_TRACE`,
`ReadTraceArray` (its allocation succeeding) returns `TABLE_ERROR`, the status the code
uses for this condition, without appending a record to the trace list and before any
array element is read: the run logs no `c_tbagtd`. -/
theorem ReadTraceArray_capacity_check (X : Collab) (tbl : TraceTable) (ti : TblInfo) (r : SptrcRow)
    (row : Nat) (sts : StisInfo4) (trace : List SpTrace) (w : World)
    (hs : MAX_SP_TRACE < r.nelem.val) (hh : HeapOK w) :
    (ReadTraceArray X tbl ti r row sts trace w).1 = Status.TABLE_ERROR ∧
      (ReadTraceArray X tbl ti r row sts trace w).2.2.1 = trace ∧
      ∃ new, (ReadTraceArray X tbl ti r row sts trace w).2.2.2.log = w.log ++ new ∧
        ∀ e ∈ new, ∀ c n, e ≠ Event.tbagtd c n := by
  have h0 : HeapOK (w.record (Event.ReadTraceArray row)) := hh
  unfold ReadTraceArray
  simp only [malloc_eq _ h0, c_tbegt, gt_iff_lt, hs, if_true, Bool.not_true, Bool.false_eq_true,
    if_false]
  refine ⟨trivial, trivial, [Event.ReadTraceArray row, Event.tbegt Column.SPORDER row,
    Event.tbegt Column.A1CENTER row, Event.tbegt Column.A2CENTER row,
    Event.tbegt Column.NELEM row], by simp [World.record], ?_⟩
  intro e he c n
  simp only [List.mem_cons, List.mem_singleton, List.not_mem_nil, or_false] at he
  rcases he with he | he | he | he | he <;> (rw [he]; simp)

/-- C9 (amended) at a row that declares 1025 elements. -/
theorem ReadTraceArray_capacity_check_witness :
    (MAX_SP_TRACE < SptrcRow.oversize.nelem.val ∧ HeapOK World.fresh) ∧
    (ReadTraceArray Collab.sample (TraceTable.sample [SptrcRow.oversize]) TblInfo.blank
        SptrcRow.oversize 1 StisInfo4.sample [] World.fresh).1 = Status.TABLE_ERROR ∧
      (ReadTraceArray Collab.sample (TraceTable.sample [SptrcRow.oversize]) TblInfo.blank
        SptrcRow.oversize 1 StisInfo4.sample [] World.fresh).2.2.1 = [] ∧
      ∃ new, (ReadTraceArray Collab.sample (TraceTable.sample [SptrcRow.oversize]) TblInfo.blank
          SptrcRow.oversize 1 StisInfo4.sample [] World.fresh).2.2.2.log
            = World.fresh.log ++ new ∧
        ∀ e ∈ new, ∀ c n, e ≠ Event.tbagtd c n :=
  ⟨by decide,
    ReadTraceArray_capacity_check Collab.sample (TraceTable.sample [SptrcRow.oversize])
      TblInfo.blank SptrcRow.oversize 1 StisInfo4.sample [] World.fresh (by decide) (by decide)⟩

theorem GetTrace4_loop_append (X : Collab) (tbl : TraceTable) (ti : TblInfo)
    (pre rest : List SptrcRow) :
    ∀ (row : Nat) (f : Frame),
      GetTrace4_loop X tbl ti (pre ++ rest) row f =
        match GetTrace4_loop X tbl ti pre row f with
        | Flow.returned res => Flow.returned res
        | Flow.finished f1 => GetTrace4_loop X tbl ti rest (row + pre.length) f1 := by
  induction pre with
  | nil => intro row f; simp [GetTrace4_loop]
  | cons r pre ih =>
    intro row f
    simp only [List.cons_append, GetTrace4_loop, List.length_cons]
    cases hb : GetTrace4_body X tbl ti r row f with
    | returned res => rfl
    | finished f1 =>
      have h1 : row + 1 + pre.length = row + (pre.length + 1) := by omega
      have h2 := ih (row + 1) f1
      rw [h1] at h2
      exact h2

theorem ReadTraceTab_fail (r : SptrcRow) (row : Nat) (tabrow : TblRow) (w : World)
    (hk : ¬ r.keysOK) :
    (ReadTraceTab r row tabrow w).1 = Status.TABLE_ERROR ∧
      ∃ new, (ReadTraceTab r row tabrow w).2.2.log = w.log ++ new ∧
        ∀ e ∈ new, e.row = some row := by
  unfold ReadTraceTab
  simp only [c_tbegt, c_iraferr]
  by_cases h1 : (w.iraferr || r.opt_elem.failed) = true
  · simp only [h1, if_true]
    exact ⟨trivial, [Event.tbegt Column.OPT_ELEM row], rfl, by simp [Event.row]⟩
  · have h2 : r.cenwave.failed = true := by
      by_contra hc
      apply hk
      simp only [Bool.or_eq_true, not_or, Bool.not_eq_true] at h1
      exact ⟨h1.2, by simpa using hc⟩
    simp only [h1, Bool.false_eq_true, if_false, h2, Bool.or_true, if_true]
    exact ⟨trivial, [Event.tbegt Column.OPT_ELEM row, Event.tbegt Column.CENWAVE row],
      by simp, by simp [Event.row]⟩

theorem GetTrace4_loop_key_fail (X : Collab) (tbl : TraceTable) (ti : TblInfo) (r : SptrcRow)
    (post : List SptrcRow) (row : Nat) (f : Frame) (hk : ¬ r.keysOK) :
    ∃ res, GetTrace4_loop X tbl ti (r :: post) row f = Flow.returned res ∧
      res.status = Status.TABLE_ERROR ∧
      ∃ new, res.w.log = f.w.log ++ new ∧ ∀ e ∈ new, e.row = some row := by
  obtain ⟨k1, new, k2, k3⟩ := ReadTraceTab_fail r row f.tabrow f.w hk
  refine ⟨⟨Status.TABLE_ERROR, f.sts, f.trace, (ReadTraceTab r row f.tabrow f.w).2.2⟩, ?_, rfl,
    new, k2, k3⟩
  simp only [GetTrace4_loop, GetTrace4_body, k1, ne_eq, reduceCtorEq, not_false_eq_true, if_true]

theorem GetTrace4_loop_key_fail_trace (X : Collab) (tbl : TraceTable) (ti : TblInfo)
    (r : SptrcRow) (post : List SptrcRow) (row : Nat) (f : Frame) (hk : ¬ r.keysOK) :
    ∃ res, GetTrace4_loop X tbl ti (r :: post) row f = Flow.returned res ∧
      res.status = Status.TABLE_ERROR ∧ res.trace = f.trace ∧
      ∃ new, res.w.log = f.w.log ++ new ∧ ∀ e ∈ new, ∃ c, e = Event.tbegt c row := by
  obtain ⟨k1, -⟩ := ReadTraceTab_fail r row f.tabrow f.w hk
  refine ⟨⟨Status.TABLE_ERROR, f.sts, f.trace, (ReadTraceTab r row f.tabrow f.w).2.2⟩, ?_, rfl,
    rfl, ?_⟩
  · simp only [GetTrace4_loop, GetTrace4_body, k1, ne_eq, reduceCtorEq, not_false_eq_true,
      if_true]
  · unfold ReadTraceTab
    simp only [c_tbegt, c_iraferr]
    split_ifs
    · exact ⟨[Event.tbegt Column.OPT_ELEM row], rfl, by simp⟩
    · exact ⟨[Event.tbegt Column.OPT_ELEM row, Event.tbegt Column.CENWAVE row], by simp,
        by simp⟩
    · exact ⟨[Event.tbegt Column.OPT_ELEM row, Event.tbegt Column.CENWAVE row], by simp,
        by simp⟩

/-- C14, what the code does.  When the table opens, every read of the rows `pre`
succeeds and a key read of the next row `r` fails, `GetTrace4` returns
`TABLE_ERROR` and the trace list it leaves to the caller is the list passed in followed
by the records of the rows of `pre` that hold the key and are not Dummy: the records
appended before the failure are not released, and `FreeTrace4` is not called. -/
theorem GetTrace4_error_keeps_partial_list (X : Collab) (tbl : TraceTable) (sts : StisInfo4)
    (trace : List SpTrace) (w : World) (pre : List SptrcRow) (r : SptrcRow)
    (post : List SptrcRow) (hrows : tbl.rows = pre ++ r :: post)
    (hopen : (OpenTraceTab tbl TblInfo.blank w).1 = Status.OK) (hheap : HeapOK w)
    (hpre : ∀ x ∈ pre, x.readsOK sts.opt_elem sts.cenwave) (hk : ¬ r.keysOK) :
    (GetTrace4 X tbl sts trace w).status = Status.TABLE_ERROR ∧
      (GetTrace4 X tbl sts trace w).trace = trace ++
        (pre.filter (SptrcRow.selected sts.opt_elem sts.cenwave)).map
          (SptrcRow.record X (OpenTraceTab tbl TblInfo.blank w).2.1 sts.expstart) ∧
      ∃ new, (GetTrace4 X tbl sts trace w).w.log = w.log ++ new ∧ Event.FreeTrace4 ∉ new := by
  obtain ⟨hw, -, ho⟩ := OpenTraceTab_ok tbl w hopen
  have hs := GetTrace4_loop_scan X tbl (OpenTraceTab tbl TblInfo.blank w).2.1 pre 1
    (Frame.init sts trace w) (by simp [Frame.init, c_tbtopn, hw]) hheap hpre
  obtain ⟨-, -, r3⟩ := scan_result X (OpenTraceTab tbl TblInfo.blank w).2.1 pre 1
    (Frame.init sts trace w)
  obtain ⟨new1, l1, -, -, l4⟩ := scan_log X (OpenTraceTab tbl TblInfo.blank w).2.1 pre 1
    (Frame.init sts trace w)
  obtain ⟨res, k1, k2, k3, new2, k4, k5⟩ :=
    GetTrace4_loop_key_fail_trace X tbl (OpenTraceTab tbl TblInfo.blank w).2.1 r post
      (1 + pre.length)
      ((Frame.init sts trace w).scan X (OpenTraceTab tbl TblInfo.blank w).2.1 pre 1) hk
  have hl := GetTrace4_loop_append X tbl (OpenTraceTab tbl TblInfo.blank w).2.1 pre (r :: post) 1
    (Frame.init sts trace w)
  rw [hs] at hl
  simp only [] at hl
  rw [k1, ← hrows] at hl
  have hG : GetTrace4 X tbl sts trace w = res := by
    unfold GetTrace4
    simp only [hopen, ne_eq, not_true_eq_false, if_false, ho]
    unfold Frame.init at hl
    rw [hl]
  rw [hG]
  refine ⟨k2, ?_, [Event.tbtopn] ++ new1 ++ new2, ?_, ?_⟩
  · rw [k3, r3]; rfl
  · rw [k4, l1]; simp [Frame.init, c_tbtopn]
  · intro hmem
    simp only [List.mem_append, List.mem_cons, List.mem_singleton, List.not_mem_nil,
      or_false, reduceCtorEq, false_or] at hmem
    rcases hmem with h | h
    · obtain ⟨n, h1, -, -⟩ := l4 _ h
      simp [Event.row] at h1
    · obtain ⟨c, h1⟩ := k5 _ h
      simp at h1

/-- C14 at the table `TraceTable.badSecond`: the status is `TABLE_ERROR` and the record
of row 1, of order 1, is still in the list. -/
theorem GetTrace4_error_keeps_partial_list_witness :
    ((GetTrace4 Collab.sample TraceTable.badSecond StisInfo4.sample [] World.fresh).status
        = Status.TABLE_ERROR ∧
      (GetTrace4 Collab.sample TraceTable.badSecond StisInfo4.sample [] World.fresh).trace =
        [] ++ ([SptrcRow.sample "A" 100 1 Pedigree.GOOD_PEDIGREE].filter
          (SptrcRow.selected "A" 100)).map
          (SptrcRow.record Collab.sample
            (OpenTraceTab TraceTable.badSecond TblInfo.blank World.fresh).2.1 0) ∧
      ∃ new, (GetTrace4 Collab.sample TraceTable.badSecond StisInfo4.sample []
          World.fresh).w.log = World.fresh.log ++ new ∧ Event.FreeTrace4 ∉ new) ∧
    (GetTrace4 Collab.sample TraceTable.badSecond StisInfo4.sample [] World.fresh).trace.map
      (fun t => t.sporder) = [1] :=
  ⟨GetTrace4_error_keeps_partial_list Collab.sample TraceTable.badSecond StisInfo4.sample []
      World.fresh [SptrcRow.sample "A" 100 1 Pedigree.GOOD_PEDIGREE]
      { SptrcRow.sample "A" 100 2 Pedigree.GOOD_PEDIGREE with cenwave := Cell.fail 0 }
      [SptrcRow.sample "A" 100 3 Pedigree.GOOD_PEDIGREE]
      rfl (by decide) (by decide) (by decide) (by decide),
    by decide⟩

theorem GetTrace4_key_read_failure (X : Collab) (tbl : TraceTable) (sts : StisInfo4)
    (trace : List SpTrace) (w : World) (pre : List SptrcRow) (r : SptrcRow)
    (post : List SptrcRow) (hrows : tbl.rows = pre ++ r :: post)
    (hopen : (OpenTraceTab tbl TblInfo.blank w).1 = Status.OK) (hheap : HeapOK w)
    (hpre : ∀ x ∈ pre, x.readsOK sts.opt_elem sts.cenwave) (hk : ¬ r.keysOK) :
    (GetTrace4 X tbl sts trace w).status = Status.TABLE_ERROR ∧
      ∃ new, (GetTrace4 X tbl sts trace w).w.log = w.log ++ new ∧
        ∀ e ∈ new, ∀ n, e.row = some n → n ≤ pre.length + 1 := by
  obtain ⟨hw, -, ho⟩ := OpenTraceTab_ok tbl w hopen
  have hs := GetTrace4_loop_scan X tbl (OpenTraceTab tbl TblInfo.blank w).2.1 pre 1
    (Frame.init sts trace w) (by simp [Frame.init, c_tbtopn, hw]) hheap hpre
  obtain ⟨new1, l1, -, -, l4⟩ := scan_log X (OpenTraceTab tbl TblInfo.blank w).2.1 pre 1
    (Frame.init sts trace w)
  obtain ⟨res, k1, k2, new2, k3, k4⟩ :=
    GetTrace4_loop_key_fail X tbl (OpenTraceTab tbl TblInfo.blank w).2.1 r post (1 + pre.length)
      ((Frame.init sts trace w).scan X (OpenTraceTab tbl TblInfo.blank w).2.1 pre 1) hk
  have hl := GetTrace4_loop_append X tbl (OpenTraceTab tbl TblInfo.blank w).2.1 pre (r :: post) 1
    (Frame.init sts trace w)
  rw [hs] at hl
  simp only [] at hl
  rw [k1, ← hrows] at hl
  have hG : GetTrace4 X tbl sts trace w = res := by
    unfold GetTrace4
    simp only [hopen, ne_eq, not_true_eq_false, if_false, ho]
    unfold Frame.init at hl
    rw [hl]
  rw [hG]
  refine ⟨k2, [Event.tbtopn] ++ new1 ++ new2, ?_, ?_⟩
  · rw [k3, l1]; simp [Frame.init, c_tbtopn]
  · intro e he n hn
    simp only [List.mem_append, List.mem_cons, List.mem_singleton, List.not_mem_nil,
      or_false] at he
    rcases he with (he | he) | he
    · rw [he] at hn; simp [Event.row] at hn
    · obtain ⟨m, h1, h2, h3⟩ := l4 e he
      rw [h1] at hn
      simp only [Option.some.injEq] at hn
      omega
    · have := k4 e he
      rw [this] at hn
      simp only [Option.some.injEq] at hn
      omega

end Cs4

namespace Cs7

theorem GetPCT_body_skip (X : Collab) (tbl : PCTable) (ti : TblInfo) (r : PctRow) (row : Nat)
    (f : Frame) (hf : f.w.iraferr = false) (hk : r.keysOK)
    (hn : ¬ r.hasKey f.sts.aperture f.sts.cenwave ti.maxhght) :
    GetPCT_body X tbl ti r row f = Flow.finished (f.skip r row) := by
  obtain ⟨h1, h2, h3⟩ := hk
  have hm : isMatch f.sts ti ⟨r.aperture.val, r.cenwave.val, r.extrheight.val⟩ = false := by
    simp only [isMatch, SameString, SameInt, PctRow.hasKey] at hn ⊢
    by_contra hc
    simp at hc
    exact hn hc
  simp [GetPCT_body, ReadPCTab, c_tbegt, c_iraferr, hf, h1, h2, h3, hm, Frame.skip]


theorem GetPCT_loop_skip (X : Collab) (tbl : PCTable) (ti : TblInfo) (rows : List PctRow) :
    ∀ (row : Nat) (f : Frame), f.w.iraferr = false →
      (∀ r ∈ rows, r.keysOK ∧ ¬ r.hasKey f.sts.aperture f.sts.cenwave ti.maxhght) →
      ∃ f1, GetPCT_loop X tbl ti rows row f = Flow.finished f1 ∧ f1.sts = f.sts ∧
        f1.phot = f.phot ∧ f1.foundit = f.foundit ∧ f1.w.iraferr = false ∧
        f1.w.heap = f.w.heap ∧ f1.w.handleOpen = f.w.handleOpen ∧
        ∃ new, f1.w.log = f.w.log ++ new ∧
          ∀ e ∈ new, ∃ c n, e = Event.tbegt c n ∧ row ≤ n ∧ n < row + rows.length := by
  induction rows with
  | nil =>
    intro row f _ _
    exact ⟨f, rfl, rfl, rfl, rfl, ‹_›, rfl, rfl, [], by simp, by simp⟩
  | cons r rest ih =>
    intro row f hf h
    have hr := h r (List.mem_cons_self _ _)
    have hb := GetPCT_body_skip X tbl ti r row f hf hr.1 hr.2
    obtain ⟨f1, e1, e2, e3, e4, e5, e6, e7, new, e8, e9⟩ :=
      ih (row + 1) (f.skip r row) (by simpa [Frame.skip] using hf)
        (fun x hx => by simpa [Frame.skip] using h x (List.mem_cons_of_mem _ hx))
    refine ⟨f1, ?_, e2, e3, e4, e5, e6, e7, [Event.tbegt Column.APERTURE row,
      Event.tbegt Column.CENWAVE row, Event.tbegt Column.EXTRHEIGHT row] ++ new, ?_, ?_⟩
    · simp only [GetPCT_loop, hb]; exact e1
    · rw [e8]; simp [Frame.skip]
    · intro e he
      simp only [List.mem_append, List.mem_cons, List.mem_singleton, List.not_mem_nil,
        or_false] at he
      rcases he with (he | he | he) | he
      · exact ⟨_, _, he, le_refl _, by simp⟩
      · exact ⟨_, _, he, le_refl _, by simp⟩
      · exact ⟨_, _, he, le_refl _, by simp⟩
      · obtain ⟨c, n, hc, h1, h2⟩ := e9 e he
        exact ⟨c, n, hc, by omega, by simp only [List.length_cons]; omega⟩


theorem OpenPCTab_ok (tbl : PCTable) (w : World)
    (hopen : (OpenPCTab tbl TblInfo.blank w).1 = Status.OK) :
    w.iraferr = false ∧ tbl.tbtopn_ok = true ∧
      (OpenPCTab tbl TblInfo.blank w).2.1.maxhght = tbl.maxhght.val ∧
      (OpenPCTab tbl TblInfo.blank w).2.2 =
        { w with handleOpen := true, iraferr := tbl.maxhght.failed,
                 log := w.log ++ [Event.tbtopn, Event.tbhgti] } := by
  unfold OpenPCTab at hopen ⊢
  simp only [c_iraferr, c_tbtopn, c_tbhgti] at hopen ⊢
  split at hopen
  · simp at hopen
  · rename_i h1
    split at hopen
    · simp at hopen
    · rename_i h2
      simp only [Bool.or_eq_true, not_or, Bool.not_eq_true, Bool.not_eq_eq_eq_not, Bool.not_true] at h1
      simp [h1.1, h1.2, h2]

theorem PCDummy_of_heapOK (phot : PhotInfo) (w : World) (h : HeapOK w) :
    (PCDummy phot w).1 = Status.OK ∧
      (PCDummy phot w).2.1 = { phot with pcorr := some (List.replicate phot.nelem 1) } ∧
      HeapOK (PCDummy phot w).2.2 ∧ (PCDummy phot w).2.2.iraferr = w.iraferr ∧
      (PCDummy phot w).2.2.handleOpen = w.handleOpen ∧
      (PCDummy phot w).2.2.log = w.log ++ [Event.PCDummy] := by
  have hh : HeapOK (w.record Event.PCDummy) := h
  obtain ⟨m1, m2, m3, m4, m5⟩ := malloc_of_heapOK _ hh
  unfold PCDummy
  simp only [m1, Bool.not_true, Bool.false_eq_true, if_false]
  exact ⟨trivial, trivial, m2, m3, m4, m5⟩

theorem ClosePCTab_ok (tbl : PCTable) (w : World) (hw : w.iraferr = false)
    (hc : tbl.tbtclo_ok = true) :
    ClosePCTab tbl w = (Status.OK, { w with handleOpen := false, log := w.log ++ [Event.tbtclo] }) := by
  simp [ClosePCTab, c_tbtclo, c_iraferr, hw, hc]

theorem GetPCT_end_not_found (tbl : PCTable) (f : Frame) (hw : f.w.iraferr = false)
    (hc : tbl.tbtclo_ok = true) (hh : HeapOK f.w) (hf : f.foundit = false) :
    (GetPCT_end tbl f).status = Status.OK ∧
      (GetPCT_end tbl f).phot = { f.phot with pcorr := some (List.replicate f.phot.nelem 1) } ∧
      (GetPCT_end tbl f).sts = { f.sts with pctcorr := Switch.OMIT } ∧
      (GetPCT_end tbl f).w.handleOpen = false ∧
      (GetPCT_end tbl f).w.log = f.w.log ++ [Event.tbtclo, Event.PCDummy] := by
  obtain ⟨d1, d2, d3, d4, d5, d6⟩ := PCDummy_of_heapOK f.phot
    { f.w with handleOpen := false, log := f.w.log ++ [Event.tbtclo] } hh
  unfold GetPCT_end
  simp only [ClosePCTab_ok tbl f.w hw hc, d1, hf, ne_eq, not_true_eq_false, if_false,
    Bool.not_false, if_true]
  refine ⟨trivial, d2, trivial, d5, ?_⟩
  rw [d6]; simp

/-- C1.  First-match with no match.  The table opens with all required columns
(`OpenPCTab` returns 0, the header keyword MAXHGHT is read), the key reads of every row
succeed, the close succeeds and so does the allocation of `pcorr`; `x2dcorr_o` and
`pctcorr` are PERFORM and `phot` is allocated.  If no row holds the key
(`sts.aperture`, `sts.cenwave`, MAXHGHT), a table without rows included, then `GetPCT`
returns 0 and `phot.pcorr` has exactly `phot.nelem` elements, each equal to 1. -/
theorem GetPCT_no_match_unity (X : Collab) (tbl : PCTable) (sts : StisInfo7) (phot : PhotInfo)
    (w : World) (hx : sts.x2dcorr_o = Switch.PERFORM) (ha : phot.allocated = true)
    (hp : sts.pctcorr = Switch.PERFORM)
    (hopen : (OpenPCTab tbl TblInfo.blank w).1 = Status.OK)
    (hmax : tbl.maxhght.failed = false)
    (hkeys : ∀ r ∈ tbl.rows, r.keysOK)
    (hclose : tbl.tbtclo_ok = true)
    (hheap : HeapOK w)
    (hno : ∀ r ∈ tbl.rows, ¬ r.hasKey sts.aperture sts.cenwave tbl.maxhght.val) :
    (GetPCT X tbl sts phot w).status = Status.OK ∧
      (GetPCT X tbl sts phot w).phot.nelem = phot.nelem ∧
      ∃ pcorr, (GetPCT X tbl sts phot w).phot.pcorr = some pcorr ∧
        pcorr.length = phot.nelem ∧ ∀ x ∈ pcorr, x = 1 := by
  obtain ⟨hw, hto, hm, ho⟩ := OpenPCTab_ok tbl w hopen
  obtain ⟨f1, e1, e2, e3, e4, e5, e6, e7, new, e8, -⟩ :=
    GetPCT_loop_skip X tbl (OpenPCTab tbl TblInfo.blank w).2.1 tbl.rows 1
      { status := (OpenPCTab tbl TblInfo.blank w).1, tabrow := TblRow.blank, foundit := false,
        sts := sts, phot := phot, w := (OpenPCTab tbl TblInfo.blank w).2.2 }
      (by rw [ho]; exact hmax)
      (fun r hr => ⟨hkeys r hr, by rw [hm]; exact hno r hr⟩)
  dsimp only at e2 e3 e4 e6 e7 e8
  rw [hopen] at e1
  have hh : HeapOK f1.w := by
    unfold HeapOK; rw [e6, ho]; exact hheap
  obtain ⟨g1, g2, -⟩ := GetPCT_end_not_found tbl f1 e5 hclose hh e4
  have hG : GetPCT X tbl sts phot w = GetPCT_end tbl f1 := by
    unfold GetPCT
    simp only [hx, ha, hp, hopen, e1, ne_eq, not_true_eq_false, if_false, Bool.not_true,
      Bool.false_eq_true]
  rw [hG, g1, g2, e3]
  exact ⟨rfl, rfl, _, rfl, by simp, fun x hx => (List.mem_replicate.mp hx).2⟩

/-- C1 at the table `PCTable.noMatch`, none of whose three rows holds the key
(F1, 5000, 21), and at a table without rows. -/
theorem GetPCT_no_match_unity_witness :
    ((StisInfo7.sample.x2dcorr_o = Switch.PERFORM ∧ PhotInfo.sample.allocated = true ∧
      StisInfo7.sample.pctcorr = Switch.PERFORM ∧
      (OpenPCTab PCTable.noMatch TblInfo.blank World.fresh).1 = Status.OK ∧
      PCTable.noMatch.maxhght.failed = false ∧
      (∀ r ∈ PCTable.noMatch.rows, r.keysOK) ∧
      PCTable.noMatch.tbtclo_ok = true ∧ HeapOK World.fresh ∧
      ∀ r ∈ PCTable.noMatch.rows, ¬ r.hasKey "F1" 5000 21) ∧
    (GetPCT Collab.sample PCTable.noMatch StisInfo7.sample PhotInfo.sample World.fresh).status
        = Status.OK ∧
    (GetPCT Collab.sample PCTable.noMatch StisInfo7.sample PhotInfo.sample World.fresh).phot.nelem
        = 4 ∧
    ∃ pcorr,
      (GetPCT Collab.sample PCTable.noMatch StisInfo7.sample PhotInfo.sample World.fresh).phot.pcorr
        = some pcorr ∧ pcorr.length = 4 ∧ ∀ x ∈ pcorr, x = 1) ∧
    ((GetPCT Collab.sample PCTable.noRows StisInfo7.sample PhotInfo.sample World.fresh).status
        = Status.OK ∧
    (GetPCT Collab.sample PCTable.noRows StisInfo7.sample PhotInfo.sample World.fresh).phot.nelem
        = 4 ∧
    ∃ pcorr,
      (GetPCT Collab.sample PCTable.noRows StisInfo7.sample PhotInfo.sample World.fresh).phot.pcorr
        = some pcorr ∧ pcorr.length = 4 ∧ ∀ x ∈ pcorr, x = 1) :=
  ⟨⟨by decide,
    GetPCT_no_match_unity Collab.sample PCTable.noMatch StisInfo7.sample PhotInfo.sample
      World.fresh (by decide) (by decide) (by decide) (by decide) (by decide) (by decide)
      (by decide) (by decide) (by decide)⟩,
    GetPCT_no_match_unity Collab.sample PCTable.noRows StisInfo7.sample PhotInfo.sample
      World.fresh (by decide) (by decide) (by decide) (by decide) (by decide) (by decide)
      (by decide) (by decide) (by decide)⟩

theorem ReadPCTab_ok (r : PctRow) (row : Nat) (tabrow : TblRow) (w : World)
    (hw : w.iraferr = false) (hk : r.keysOK) :
    ReadPCTab r row tabrow w =
      (Status.OK, ⟨r.aperture.val, r.cenwave.val, r.extrheight.val⟩,
        { w with log := w.log ++ [Event.tbegt Column.APERTURE row,
            Event.tbegt Column.CENWAVE row, Event.tbegt Column.EXTRHEIGHT row] }) := by
  simp [ReadPCTab, c_tbegt, c_iraferr, hw, hk.1, hk.2.1, hk.2.2]

theorem isMatch_iff_holdsKey (sts : StisInfo7) (ti : TblInfo) (r : PctRow) :
    isMatch sts ti ⟨r.aperture.val, r.cenwave.val, r.extrheight.val⟩ = true ↔
      r.hasKey sts.aperture sts.cenwave ti.maxhght := by
  simp [isMatch, SameString, SameInt, and_assoc]

theorem GetPCT_body_dummy (X : Collab) (tbl : PCTable) (ti : TblInfo) (r : PctRow) (row : Nat)
    (f : Frame) (hw : f.w.iraferr = false) (hh : HeapOK f.w) (hk : r.keysOK)
    (hm : r.hasKey f.sts.aperture f.sts.cenwave ti.maxhght)
    (hs : r.pedigree.status = Status.OK)
    (hd : r.pedigree.goodPedigree = Pedigree.DUMMY_PEDIGREE) :
    ∃ res, GetPCT_body X tbl ti r row f = Flow.returned res ∧ res.status = Status.OK ∧
      res.phot = { f.phot with pcorr := some (List.replicate f.phot.nelem 1) } ∧
      res.sts.pctcorr = Switch.DUMMY ∧ res.w.handleOpen = false ∧
      res.w.log = f.w.log ++ [Event.tbegt Column.APERTURE row, Event.tbegt Column.CENWAVE row,
        Event.tbegt Column.EXTRHEIGHT row, Event.RowPedigree row, Event.PCDummy,
        Event.tbtclo] := by
  obtain ⟨d1, d2, d3, d4, d5, d6⟩ := PCDummy_of_heapOK f.phot
    ({ f.w with log := f.w.log ++ [Event.tbegt Column.APERTURE row,
        Event.tbegt Column.CENWAVE row, Event.tbegt Column.EXTRHEIGHT row] }.record
      (Event.RowPedigree row)) hh
  have hm1 := (isMatch_iff_holdsKey f.sts ti r).mpr hm
  have hb : GetPCT_body X tbl ti r row f = Flow.returned
      ⟨Status.OK,
        { f.sts with pctab := { f.sts.pctab with goodPedigree := r.pedigree.goodPedigree },
                     pctcorr := Switch.DUMMY },
        (PCDummy f.phot ({ f.w with log := f.w.log ++ [Event.tbegt Column.APERTURE row,
          Event.tbegt Column.CENWAVE row, Event.tbegt Column.EXTRHEIGHT row] }.record
            (Event.RowPedigree row))).2.1,
        (ClosePCTab tbl (PCDummy f.phot ({ f.w with log := f.w.log ++
          [Event.tbegt Column.APERTURE row, Event.tbegt Column.CENWAVE row,
            Event.tbegt Column.EXTRHEIGHT row] }.record (Event.RowPedigree row))).2.2).2⟩ := by
    unfold GetPCT_body
    simp only [ReadPCTab_ok r row f.tabrow f.w hw hk, hm1, RowPedigree, hs, hd, d1, ne_eq,
      not_true_eq_false, if_false, if_true]
  refine ⟨_, hb, rfl, d2, rfl, ?_, ?_⟩
  · simp only [ClosePCTab, c_tbtclo]; split_ifs <;> rfl
  · simp only [ClosePCTab, c_tbtclo]
    split_ifs <;> (dsimp only; rw [d6]; simp [World.record])

theorem ReadPCArray_short (X : Collab) (tbl : PCTable) (r : PctRow) (row : Nat)
    (phot : PhotInfo) (w : World)
    (hs : r.wl.nret < r.nelem.val ∨ r.pc.nret < r.nelem.val) :
    (ReadPCArray X tbl r row phot w).2.1 = phot ∧
      (ReadPCArray X tbl r row phot w).1 ≠ Status.OK ∧
      (HeapOK w → (ReadPCArray X tbl r row phot w).1 = Status.TABLE_ERROR) := by
  have hs1 : (decide (r.wl.nret < r.nelem.val) || decide (r.pc.nret < r.nelem.val)) = true := by
    simpa using hs
  have key : ∀ m1 m2 : Bool × World,
      m1 = malloc (c_tbegt Column.NELEM row r.nelem (w.record (Event.ReadPCArray row))).2 →
      m2 = malloc m1.2 →
      (ReadPCArray X tbl r row phot w).2.1 = phot ∧
      (ReadPCArray X tbl r row phot w).1 ≠ Status.OK ∧
      (m1.1 = true → m2.1 = true →
        (ReadPCArray X tbl r row phot w).1 = Status.TABLE_ERROR) := by
    intro m1 m2 hm1 hm2
    unfold ReadPCArray
    simp only [← hm1, ← hm2, c_tbagtd, c_iraferr]
    simp only [c_tbegt, hs1, if_true]
    cases h1 : m1.1 <;> cases h2 : m2.1 <;> simp <;> split_ifs <;> simp_all
  obtain ⟨k1, k2, k3⟩ := key _ _ rfl rfl
  refine ⟨k1, k2, fun hh => ?_⟩
  have h1 : HeapOK (c_tbegt Column.NELEM row r.nelem (w.record (Event.ReadPCArray row))).2 := hh
  obtain ⟨a1, a2, -⟩ := malloc_of_heapOK _ h1
  obtain ⟨b1, -⟩ := malloc_of_heapOK _ a2
  exact k3 a1 b1

theorem GetPCT_loop_append (X : Collab) (tbl : PCTable) (ti : TblInfo)
    (pre rest : List PctRow) :
    ∀ (row : Nat) (f : Frame),
      GetPCT_loop X tbl ti (pre ++ rest) row f =
        match GetPCT_loop X tbl ti pre row f with
        | Flow.returned res => Flow.returned res
        | Flow.broke f1 => Flow.broke f1
        | Flow.finished f1 => GetPCT_loop X tbl ti rest (row + pre.length) f1 := by
  induction pre with
  | nil => intro row f; simp [GetPCT_loop]
  | cons r pre ih =>
    intro row f
    simp only [List.cons_append, GetPCT_loop, List.length_cons]
    cases hb : GetPCT_body X tbl ti r row f with
    | returned res => rfl
    | broke f1 => rfl
    | finished f1 =>
      have h1 : row + 1 + pre.length = row + (pre.length + 1) := by omega
      have h2 := ih (row + 1) f1
      rw [h1] at h2
      exact h2

theorem ReadPCTab_log (r : PctRow) (row : Nat) (tabrow : TblRow) (w : World) :
    ∃ new, (ReadPCTab r row tabrow w).2.2.log = w.log ++ new ∧
      ∀ e ∈ new, e.row = some row := by
  unfold ReadPCTab
  simp only [c_tbegt, c_iraferr]
  split_ifs
  · exact ⟨[Event.tbegt Column.APERTURE row], rfl, by simp [Event.row]⟩
  · exact ⟨[Event.tbegt Column.APERTURE row, Event.tbegt Column.CENWAVE row],
      by simp, by simp [Event.row]⟩
  · exact ⟨[Event.tbegt Column.APERTURE row, Event.tbegt Column.CENWAVE row,
      Event.tbegt Column.EXTRHEIGHT row], by simp, by simp [Event.row]⟩
  · exact ⟨[Event.tbegt Column.APERTURE row, Event.tbegt Column.CENWAVE row,
      Event.tbegt Column.EXTRHEIGHT row], by simp, by simp [Event.row]⟩

theorem ReadPCTab_fail (r : PctRow) (row : Nat) (tabrow : TblRow) (w : World)
    (hk : ¬ r.keysOK) :
    (ReadPCTab r row tabrow w).1 = Status.TABLE_ERROR ∧
      ∃ new, (ReadPCTab r row tabrow w).2.2.log = w.log ++ new ∧
        ∀ e ∈ new, e.row = some row := by
  refine ⟨?_, ReadPCTab_log r row tabrow w⟩
  unfold ReadPCTab
  simp only [c_tbegt, c_iraferr]
  unfold PctRow.keysOK at hk
  cases h1 : r.aperture.failed <;> cases h2 : r.cenwave.failed <;>
    cases h3 : r.extrheight.failed <;> cases h4 : w.iraferr <;> simp_all

theorem GetPCT_loop_key_fail (X : Collab) (tbl : PCTable) (ti : TblInfo) (r : PctRow)
    (post : List PctRow) (row : Nat) (f : Frame) (hk : ¬ r.keysOK) :
    ∃ res, GetPCT_loop X tbl ti (r :: post) row f = Flow.returned res ∧
      res.status = Status.TABLE_ERROR ∧
      ∃ new, res.w.log = f.w.log ++ new ∧ ∀ e ∈ new, e.row = some row := by
  obtain ⟨k1, new, k2, k3⟩ := ReadPCTab_fail r row f.tabrow f.w hk
  refine ⟨⟨Status.TABLE_ERROR, f.sts, f.phot, (ReadPCTab r row f.tabrow f.w).2.2⟩, ?_, rfl,
    new, k2, k3⟩
  simp only [GetPCT_loop, GetPCT_body, k1, ne_eq, reduceCtorEq, not_false_eq_true, if_true]

theorem GetPCT_key_read_failure (X : Collab) (tbl : PCTable) (sts : StisInfo7)
    (phot : PhotInfo) (w : World) (pre : List PctRow) (r : PctRow) (post : List PctRow)
    (hrows : tbl.rows = pre ++ r :: post)
    (hx : sts.x2dcorr_o = Switch.PERFORM) (ha : phot.allocated = true)
    (hp : sts.pctcorr = Switch.PERFORM)
    (hopen : (OpenPCTab tbl TblInfo.blank w).1 = Status.OK)
    (hmax : tbl.maxhght.failed = false)
    (hpre : ∀ x ∈ pre, x.keysOK ∧ ¬ x.hasKey sts.aperture sts.cenwave tbl.maxhght.val)
    (hk : ¬ r.keysOK) :
    (GetPCT X tbl sts phot w).status = Status.TABLE_ERROR ∧
      ∃ new, (GetPCT X tbl sts phot w).w.log = w.log ++ new ∧
        ∀ e ∈ new, ∀ n, e.row = some n → n ≤ pre.length + 1 := by
  obtain ⟨hw, hto, hm, ho⟩ := OpenPCTab_ok tbl w hopen
  obtain ⟨f1, e1, -, -, -, -, -, -, new1, e8, e9⟩ :=
    GetPCT_loop_skip X tbl (OpenPCTab tbl TblInfo.blank w).2.1 pre 1
      { status := (OpenPCTab tbl TblInfo.blank w).1, tabrow := TblRow.blank, foundit := false,
        sts := sts, phot := phot, w := (OpenPCTab tbl TblInfo.blank w).2.2 }
      (by rw [ho]; exact hmax)
      (fun x hx => ⟨(hpre x hx).1, by rw [hm]; exact (hpre x hx).2⟩)
  obtain ⟨res, k1, k2, new2, k3, k4⟩ :=
    GetPCT_loop_key_fail X tbl (OpenPCTab tbl TblInfo.blank w).2.1 r post (1 + pre.length) f1 hk
  have hl := GetPCT_loop_append X tbl (OpenPCTab tbl TblInfo.blank w).2.1 pre (r :: post) 1
    { status := (OpenPCTab tbl TblInfo.blank w).1, tabrow := TblRow.blank, foundit := false,
      sts := sts, phot := phot, w := (OpenPCTab tbl TblInfo.blank w).2.2 }
  rw [e1] at hl
  simp only [] at hl
  rw [k1, ← hrows] at hl
  have hG : GetPCT X tbl sts phot w = res := by
    unfold GetPCT
    simp only [hx, ha, hp, hopen, ne_eq, not_true_eq_false, if_false, Bool.not_true,
      Bool.false_eq_true]
    rw [hopen] at hl
    rw [hl]
  rw [hG]
  refine ⟨k2, [Event.tbtopn, Event.tbhgti] ++ new1 ++ new2, ?_, ?_⟩
  · rw [k3, e8, ho]; simp
  · intro e he n hn
    simp only [List.mem_append, List.mem_cons, List.mem_singleton, List.not_mem_nil,
      or_false] at he
    rcases he with ((he | he) | he) | he
    · rw [he] at hn; simp [Event.row] at hn
    · rw [he] at hn; simp [Event.row] at hn
    · obtain ⟨c, m, hc, h1, h2⟩ := e9 e he
      rw [hc] at hn
      simp only [Event.row, Option.some.injEq] at hn
      omega
    · have := k4 e he
      rw [this] at hn
      simp only [Option.some.injEq] at hn
      omega

/-- C4.  Provenance gate in first-match mode.  The switches are PERFORM, `phot` is
allocated, the table opens and the allocation of `pcorr` succeeds.  Let `r` be the first
row in scan order that holds the key (`sts.aperture`, `sts.cenwave`, MAXHGHT): the key
reads of the rows `pre` before it succeed and none of them holds the key.  If
`RowPedigree` classifies `r` as Dummy, then `GetPCT` returns 0, `phot.pcorr` has
exactly `phot.nelem` elements, each equal to 1, no call of the run reads or resamples
an array (`ReadPCArray`, `c_tbagtd`, `splint_nr`), and no call concerns a row after
`r`, whatever the rows `post` after it are. -/
theorem GetPCT_dummy_first_match (X : Collab) (tbl : PCTable) (sts : StisInfo7)
    (phot : PhotInfo) (w : World) (pre : List PctRow) (r : PctRow) (post : List PctRow)
    (hrows : tbl.rows = pre ++ r :: post)
    (hx : sts.x2dcorr_o = Switch.PERFORM) (ha : phot.allocated = true)
    (hp : sts.pctcorr = Switch.PERFORM)
    (hopen : (OpenPCTab tbl TblInfo.blank w).1 = Status.OK)
    (hmax : tbl.maxhght.failed = false) (hheap : HeapOK w)
    (hpre : ∀ x ∈ pre, x.keysOK ∧ ¬ x.hasKey sts.aperture sts.cenwave tbl.maxhght.val)
    (hk : r.keysOK) (hm : r.hasKey sts.aperture sts.cenwave tbl.maxhght.val)
    (hs : r.pedigree.status = Status.OK)
    (hd : r.pedigree.goodPedigree = Pedigree.DUMMY_PEDIGREE) :
    (GetPCT X tbl sts phot w).status = Status.OK ∧
      (GetPCT X tbl sts phot w).phot.nelem = phot.nelem ∧
      (∃ pcorr, (GetPCT X tbl sts phot w).phot.pcorr = some pcorr ∧
        pcorr.length = phot.nelem ∧ ∀ x ∈ pcorr, x = 1) ∧
      ∃ new, (GetPCT X tbl sts phot w).w.log = w.log ++ new ∧
        (∀ e ∈ new, e.extracts = false) ∧
        ∀ e ∈ new, ∀ n, e.row = some n → n ≤ pre.length + 1 := by
  obtain ⟨hw, hto, hmx, ho⟩ := OpenPCTab_ok tbl w hopen
  obtain ⟨f1, e1, e2, e3, e4, e5, e6, e7, new1, e8, e9⟩ :=
    GetPCT_loop_skip X tbl (OpenPCTab tbl TblInfo.blank w).2.1 pre 1
      { status := (OpenPCTab tbl TblInfo.blank w).1, tabrow := TblRow.blank, foundit := false,
        sts := sts, phot := phot, w := (OpenPCTab tbl TblInfo.blank w).2.2 }
      (by rw [ho]; exact hmax)
      (fun x hx => ⟨(hpre x hx).1, by rw [hmx]; exact (hpre x hx).2⟩)
  dsimp only at e2 e3 e6
  have hh : HeapOK f1.w := by
    unfold HeapOK; rw [e6, ho]; exact hheap
  obtain ⟨res, k1, k2, k3, -, -, k6⟩ :=
    GetPCT_body_dummy X tbl (OpenPCTab tbl TblInfo.blank w).2.1 r (1 + pre.length) f1 e5 hh hk
      (by rw [e2, hmx]; exact hm) hs hd
  have hl := GetPCT_loop_append X tbl (OpenPCTab tbl TblInfo.blank w).2.1 pre (r :: post) 1
    { status := (OpenPCTab tbl TblInfo.blank w).1, tabrow := TblRow.blank, foundit := false,
      sts := sts, phot := phot, w := (OpenPCTab tbl TblInfo.blank w).2.2 }
  rw [e1] at hl
  simp only [GetPCT_loop, k1] at hl
  rw [← hrows] at hl
  have hG : GetPCT X tbl sts phot w = res := by
    unfold GetPCT
    simp only [hx, ha, hp, hopen, ne_eq, not_true_eq_false, if_false, Bool.not_true,
      Bool.false_eq_true]
    rw [hopen] at hl
    rw [hl]
  rw [hG, k2, k3, e3]
  refine ⟨rfl, rfl, ⟨_, rfl, by simp, fun x hx => (List.mem_replicate.mp hx).2⟩,
    [Event.tbtopn, Event.tbhgti] ++ new1 ++
      [Event.tbegt Column.APERTURE (1 + pre.length), Event.tbegt Column.CENWAVE (1 + pre.length),
        Event.tbegt Column.EXTRHEIGHT (1 + pre.length), Event.RowPedigree (1 + pre.length),
        Event.PCDummy, Event.tbtclo], ?_, ?_, ?_⟩
  · rw [k6, e8, ho]; simp
  · intro e he
    simp only [List.mem_append, List.mem_cons, List.mem_singleton, List.not_mem_nil,
      or_false] at he
    rcases he with ((he | he) | he) | he
    · rw [he]; rfl
    · rw [he]; rfl
    · obtain ⟨c, m, hc, -, -⟩ := e9 e he
      rw [hc]; rfl
    · rcases he with he | he | he | he | he | he <;> (rw [he]; rfl)
  · intro e he n hn
    simp only [List.mem_append, List.mem_cons, List.mem_singleton, List.not_mem_nil,
      or_false] at he
    rcases he with ((he | he) | he) | he
    · rw [he] at hn; simp [Event.row] at hn
    · rw [he] at hn; simp [Event.row] at hn
    · obtain ⟨c, m, hc, h1, h2⟩ := e9 e he
      rw [hc] at hn
      simp only [Event.row, Option.some.injEq] at hn
      omega
    · rcases he with he | he | he | he | he | he <;>
        (rw [he] at hn; simp only [Event.row, Option.some.injEq, reduceCtorEq] at hn; try omega)

/-- C4 at the table `PCTable.dummyFirst`, whose row 2 is the first to hold the key
(F1, 5000, 21) and is Dummy, a good row with the same key following. -/
theorem GetPCT_dummy_first_match_witness :
    (GetPCT Collab.sample PCTable.dummyFirst StisInfo7.sample PhotInfo.sample
        World.fresh).status = Status.OK ∧
      (GetPCT Collab.sample PCTable.dummyFirst StisInfo7.sample PhotInfo.sample
        World.fresh).phot.nelem = 4 ∧
      (∃ pcorr, (GetPCT Collab.sample PCTable.dummyFirst StisInfo7.sample PhotInfo.sample
          World.fresh).phot.pcorr = some pcorr ∧ pcorr.length = 4 ∧ ∀ x ∈ pcorr, x = 1) ∧
      ∃ new, (GetPCT Collab.sample PCTable.dummyFirst StisInfo7.sample PhotInfo.sample
          World.fresh).w.log = World.fresh.log ++ new ∧
        (∀ e ∈ new, e.extracts = false) ∧
        ∀ e ∈ new, ∀ n, e.row = some n → n ≤ 1 + 1 :=
  GetPCT_dummy_first_match Collab.sample PCTable.dummyFirst StisInfo7.sample PhotInfo.sample
    World.fresh [PctRow.sample "F2" 5000 21 Pedigree.GOOD_PEDIGREE]
    (PctRow.sample "F1" 5000 21 Pedigree.DUMMY_PEDIGREE)
    [PctRow.sample "F1" 5000 21 Pedigree.GOOD_PEDIGREE]
    rfl (by decide) (by decide) (by decide) (by decide) (by decide) (by decide) (by decide)
    (by decide) (by decide) (by decide) (by decide)

theorem malloc_log (w : World) : (malloc w).2.log = w.log := by
  unfold malloc
  cases w.heap <;> rfl

theorem ReadPCArray_log (X : Collab) (tbl : PCTable) (r : PctRow) (row : Nat)
    (phot : PhotInfo) (w : World) :
    ∃ new, (ReadPCArray X tbl r row phot w).2.2.log = w.log ++ new ∧
      ∀ e ∈ new, ∀ n, e.row = some n → n = row := by
  unfold ReadPCArray
  simp only [c_tbegt, c_tbagtd, c_iraferr, c_tbtclo, World.record]
  split_ifs <;> simp [malloc_log, Event.row]

theorem continuesAt_refl (row : Nat) (w : World) : World.continuesAt row w w :=
  ⟨[], by simp, by simp⟩

theorem continuesAt_trans {row : Nat} {w1 w2 w3 : World} (h1 : World.continuesAt row w1 w2)
    (h2 : World.continuesAt row w2 w3) : World.continuesAt row w1 w3 := by
  obtain ⟨n1, a1, a2⟩ := h1
  obtain ⟨n2, b1, b2⟩ := h2
  refine ⟨n1 ++ n2, by rw [b1, a1, List.append_assoc], fun e he n hn => ?_⟩
  rcases List.mem_append.mp he with h | h
  · exact a2 e h n hn
  · exact b2 e h n hn

theorem continuesAt_ReadPCTab (r : PctRow) (row : Nat) (tabrow : TblRow) (w : World) :
    World.continuesAt row w (ReadPCTab r row tabrow w).2.2 := by
  obtain ⟨n1, a1, a2⟩ := ReadPCTab_log r row tabrow w
  exact ⟨n1, a1, fun e he n hn => by simpa [a2 e he] using hn.symm⟩

theorem continuesAt_RowPedigree (ref : RefTab) (row : Nat) (p : PedigreeCell) (w : World) :
    World.continuesAt row w (RowPedigree ref row p w).2.2 :=
  ⟨[Event.RowPedigree row], rfl, by simp [Event.row]⟩

theorem continuesAt_PCDummy (row : Nat) (phot : PhotInfo) (w : World) :
    World.continuesAt row w (PCDummy phot w).2.2 := by
  refine ⟨[Event.PCDummy], ?_, by simp [Event.row]⟩
  unfold PCDummy
  dsimp only
  split_ifs <;> simp [malloc_log, World.record]

theorem continuesAt_ClosePCTab (row : Nat) (tbl : PCTable) (w : World) :
    World.continuesAt row w (ClosePCTab tbl w).2 := by
  refine ⟨[Event.tbtclo], ?_, by simp [Event.row]⟩
  unfold ClosePCTab
  dsimp only
  split_ifs <;> simp [c_tbtclo]

theorem continuesAt_ReadPCArray (X : Collab) (tbl : PCTable) (r : PctRow) (row : Nat)
    (phot : PhotInfo) (w : World) :
    World.continuesAt row w (ReadPCArray X tbl r row phot w).2.2 :=
  ReadPCArray_log X tbl r row phot w

theorem GetPCT_body_log (X : Collab) (tbl : PCTable) (ti : TblInfo) (r : PctRow) (row : Nat)
    (f : Frame) : World.continuesAt row f.w (GetPCT_body X tbl ti r row f).world := by
  have h1 := continuesAt_ReadPCTab r row f.tabrow f.w
  have h2 := continuesAt_RowPedigree f.sts.pctab row r.pedigree (ReadPCTab r row f.tabrow f.w).2.2
  have h3 := continuesAt_PCDummy row f.phot
    (RowPedigree f.sts.pctab row r.pedigree (ReadPCTab r row f.tabrow f.w).2.2).2.2
  have h4 := continuesAt_ClosePCTab row tbl (PCDummy f.phot
    (RowPedigree f.sts.pctab row r.pedigree (ReadPCTab r row f.tabrow f.w).2.2).2.2).2.2
  have h5 := continuesAt_ReadPCArray X tbl r row f.phot
    (RowPedigree f.sts.pctab row r.pedigree (ReadPCTab r row f.tabrow f.w).2.2).2.2
  unfold GetPCT_body
  dsimp only
  split_ifs
  · exact h1
  · exact continuesAt_trans h1 h2
  · exact continuesAt_trans h1 (continuesAt_trans h2 h3)
  · exact continuesAt_trans h1 (continuesAt_trans h2 (continuesAt_trans h3 h4))
  · exact continuesAt_trans h1 (continuesAt_trans h2 h5)
  · exact continuesAt_trans h1 (continuesAt_trans h2 h5)
  · exact h1

theorem ReadPCTab_status_ok (r : PctRow) (row : Nat) (tabrow : TblRow) (w : World)
    (h : (ReadPCTab r row tabrow w).1 = Status.OK) : w.iraferr = false ∧ r.keysOK := by
  unfold ReadPCTab at h
  simp only [c_tbegt, c_iraferr] at h
  split_ifs at h with h1 h2 h3
  simp only [Bool.or_eq_true, not_or, Bool.not_eq_true] at h1 h2 h3
  exact ⟨h1.1, h1.2, h2.2, h3.2⟩

theorem PCDummy_status_ok (phot : PhotInfo) (w : World) (h : (PCDummy phot w).1 = Status.OK) :
    (PCDummy phot w).2.1 = { phot with pcorr := some (List.replicate phot.nelem 1) } := by
  unfold PCDummy at h ⊢
  dsimp only at h ⊢
  split_ifs at h ⊢
  rfl

theorem ReadPCArray_status_ok (X : Collab) (tbl : PCTable) (r : PctRow) (row : Nat)
    (phot : PhotInfo) (w : World) (h : (ReadPCArray X tbl r row phot w).1 = Status.OK) :
    (ReadPCArray X tbl r row phot w).2.1 = { phot with pcorr := some (r.resampled X phot) } ∧
      Event.splint_nr row ∈ (ReadPCArray X tbl r row phot w).2.2.log ∧
      r.nelem.val ≤ r.wl.nret ∧ r.nelem.val ≤ r.pc.nret ∧
      (X.splint_nr r.wl.buf r.pc.buf r.nelem.val phot.wl phot.nelem).1 = Status.OK := by
  unfold ReadPCArray at h ⊢
  simp only [c_tbegt, c_tbagtd, c_iraferr] at h ⊢
  split_ifs at h ⊢ with h1 h2 h3 h4 h5 h6
  simp only [Bool.or_eq_true, decide_eq_true_eq, not_or, not_lt] at h5
  exact ⟨rfl, by simp [World.record], h5.1, h5.2, h⟩

theorem GetPCT_body_cases (X : Collab) (tbl : PCTable) (ti : TblInfo) (r : PctRow) (row : Nat)
    (f : Frame) :
    (∃ res, GetPCT_body X tbl ti r row f = Flow.returned res ∧ res.status ≠ Status.OK) ∨
    (∃ f1, GetPCT_body X tbl ti r row f = Flow.finished f1 ∧ r.keysOK ∧
      ¬ r.hasKey f.sts.aperture f.sts.cenwave ti.maxhght ∧ f1.sts = f.sts ∧
      f1.phot = f.phot ∧ f1.foundit = f.foundit) ∨
    (∃ res, GetPCT_body X tbl ti r row f = Flow.returned res ∧ res.status = Status.OK ∧
      r.keysOK ∧ r.hasKey f.sts.aperture f.sts.cenwave ti.maxhght ∧ r.isDummy ∧
      res.sts.pctcorr = Switch.DUMMY ∧
      res.phot = { f.phot with pcorr := some (List.replicate f.phot.nelem 1) }) ∨
    (∃ f1, GetPCT_body X tbl ti r row f = Flow.broke f1 ∧ r.keysOK ∧
      r.hasKey f.sts.aperture f.sts.cenwave ti.maxhght ∧ ¬ r.isDummy ∧
      f1.sts.pctcorr = f.sts.pctcorr ∧ f1.foundit = true ∧
      f1.phot = { f.phot with pcorr := some (r.resampled X f.phot) } ∧
      Event.splint_nr row ∈ f1.w.log) := by
  by_cases c1 : (ReadPCTab r row f.tabrow f.w).1 = Status.OK
  · obtain ⟨hw, hk⟩ := ReadPCTab_status_ok r row f.tabrow f.w c1
    have hK := ReadPCTab_ok r row f.tabrow f.w hw hk
    by_cases hm : r.hasKey f.sts.aperture f.sts.cenwave ti.maxhght
    · have hm1 := (isMatch_iff_holdsKey f.sts ti r).mpr hm
      unfold GetPCT_body
      rw [hK]
      dsimp only
      rw [if_neg (by simp), if_pos hm1]
      split_ifs with c3 c4 c5 c6
      · exact Or.inl ⟨_, rfl, c3⟩
      · exact Or.inl ⟨_, rfl, c5⟩
      · exact Or.inr (Or.inr (Or.inl ⟨_, rfl, rfl, hk, hm, c4, rfl,
          PCDummy_status_ok _ _ (not_not.mp c5)⟩))
      · exact Or.inl ⟨_, rfl, c6⟩
      · obtain ⟨a1, a2, -⟩ := ReadPCArray_status_ok X tbl r row _ _ (not_not.mp c6)
        exact Or.inr (Or.inr (Or.inr ⟨_, rfl, hk, hm, c4, rfl, rfl, a1, a2⟩))
    · have hb := GetPCT_body_skip X tbl ti r row f hw hk hm
      exact Or.inr (Or.inl ⟨_, hb, hk, hm, rfl, rfl, rfl⟩)
  · refine Or.inl ⟨⟨(ReadPCTab r row f.tabrow f.w).1, f.sts, f.phot,
      (ReadPCTab r row f.tabrow f.w).2.2⟩, ?_, c1⟩
    unfold GetPCT_body
    dsimp only
    rw [if_pos c1]

theorem firstMatch_cons_of_hasKey (aperture : String) (cenwave extrheight : Int) (r : PctRow)
    (rest : List PctRow) (h : r.hasKey aperture cenwave extrheight) :
    firstMatch aperture cenwave extrheight (r :: rest) = some r := by
  simp [firstMatch, List.find?, h]

theorem firstMatch_cons_of_not_hasKey (aperture : String) (cenwave extrheight : Int)
    (r : PctRow) (rest : List PctRow) (h : ¬ r.hasKey aperture cenwave extrheight) :
    firstMatch aperture cenwave extrheight (r :: rest) =
      firstMatch aperture cenwave extrheight rest := by
  simp [firstMatch, List.find?, h]

theorem firstMatch_append (aperture : String) (cenwave extrheight : Int) (pre : List PctRow)
    (r : PctRow) (post : List PctRow)
    (hpre : ∀ x ∈ pre, ¬ x.hasKey aperture cenwave extrheight)
    (h : r.hasKey aperture cenwave extrheight) :
    firstMatch aperture cenwave extrheight (pre ++ r :: post) = some r := by
  induction pre with
  | nil => exact firstMatch_cons_of_hasKey aperture cenwave extrheight r post h
  | cons x pre ih =>
    rw [List.cons_append, firstMatch_cons_of_not_hasKey aperture cenwave extrheight x _
      (hpre x (List.mem_cons_self _ _))]
    exact ih (fun y hy => hpre y (List.mem_cons_of_mem _ hy))

theorem GetPCT_loop_cases (X : Collab) (tbl : PCTable) (ti : TblInfo) (rows : List PctRow) :
    ∀ (row : Nat) (f : Frame),
      (∃ res, GetPCT_loop X tbl ti rows row f = Flow.returned res ∧ res.status ≠ Status.OK) ∨
      (∃ f1, GetPCT_loop X tbl ti rows row f = Flow.finished f1 ∧
        firstMatch f.sts.aperture f.sts.cenwave ti.maxhght rows = none ∧ f1.sts = f.sts ∧
        f1.phot = f.phot ∧ f1.foundit = f.foundit) ∨
      (∃ res r, GetPCT_loop X tbl ti rows row f = Flow.returned res ∧
        res.status = Status.OK ∧
        firstMatch f.sts.aperture f.sts.cenwave ti.maxhght rows = some r ∧ r.isDummy ∧
        res.sts.pctcorr = Switch.DUMMY ∧
        res.phot = { f.phot with pcorr := some (List.replicate f.phot.nelem 1) }) ∨
      (∃ f1 r, GetPCT_loop X tbl ti rows row f = Flow.broke f1 ∧
        firstMatch f.sts.aperture f.sts.cenwave ti.maxhght rows = some r ∧ ¬ r.isDummy ∧
        f1.sts.pctcorr = f.sts.pctcorr ∧ f1.foundit = true ∧
        f1.phot = { f.phot with pcorr := some (r.resampled X f.phot) } ∧
        ∃ n, Event.splint_nr n ∈ f1.w.log) := by
  induction rows with
  | nil =>
    intro row f
    exact Or.inr (Or.inl ⟨f, rfl, rfl, rfl, rfl, rfl⟩)
  | cons r rest ih =>
    intro row f
    rcases GetPCT_body_cases X tbl ti r row f with ⟨res, hb, h1⟩ |
      ⟨f1, hb, -, hm, h1, h2, h3⟩ | ⟨res, hb, h1, -, hm, h2, h3, h4⟩ |
      ⟨f1, hb, -, hm, h1, h2, h3, h4, h5⟩
    · exact Or.inl ⟨res, by simp only [GetPCT_loop, hb], h1⟩
    · have hl : GetPCT_loop X tbl ti (r :: rest) row f =
          GetPCT_loop X tbl ti rest (row + 1) f1 := by simp only [GetPCT_loop, hb]
      rw [hl, firstMatch_cons_of_not_hasKey _ _ _ r rest hm, ← h1, ← h2, ← h3]
      exact ih (row + 1) f1
    · exact Or.inr (Or.inr (Or.inl ⟨res, r, by simp only [GetPCT_loop, hb], h1,
        firstMatch_cons_of_hasKey _ _ _ r rest hm, h2, h3, h4⟩))
    · exact Or.inr (Or.inr (Or.inr ⟨f1, r, by simp only [GetPCT_loop, hb],
        firstMatch_cons_of_hasKey _ _ _ r rest hm, h1, h2, h3, h4, row, h5⟩))

theorem GetPCT_end_not_found_ok (tbl : PCTable) (f : Frame) (hf : f.foundit = false)
    (hok : (GetPCT_end tbl f).status = Status.OK) :
    (GetPCT_end tbl f).sts.pctcorr = Switch.OMIT ∧
      (GetPCT_end tbl f).phot = { f.phot with pcorr := some (List.replicate f.phot.nelem 1) } := by
  unfold GetPCT_end at hok ⊢
  dsimp only at hok ⊢
  rw [hf] at hok ⊢
  simp only [Bool.not_false, if_true] at hok ⊢
  split_ifs at hok ⊢ with h1 h2
  · exact absurd hok h1
  · exact absurd hok h2
  · exact ⟨rfl, PCDummy_status_ok _ _ (not_not.mp h2)⟩

theorem GetPCT_end_found (tbl : PCTable) (f : Frame) (hf : f.foundit = true) :
    (GetPCT_end tbl f).sts = f.sts ∧ (GetPCT_end tbl f).phot = f.phot ∧
      ∀ e ∈ f.w.log, e ∈ (GetPCT_end tbl f).w.log := by
  unfold GetPCT_end
  dsimp only
  rw [hf]
  simp only [ClosePCTab, c_tbtclo, c_iraferr]
  split_ifs <;> simp_all

theorem GetPCT_cases (X : Collab) (tbl : PCTable) (sts : StisInfo7) (phot : PhotInfo)
    (w : World) (hx : sts.x2dcorr_o = Switch.PERFORM) (hp : sts.pctcorr = Switch.PERFORM)
    (hok : (GetPCT X tbl sts phot w).status = Status.OK) :
    (firstMatch sts.aperture sts.cenwave tbl.maxhght.val tbl.rows = none ∧
      (GetPCT X tbl sts phot w).sts.pctcorr = Switch.OMIT ∧
      (GetPCT X tbl sts phot w).phot =
        { phot with pcorr := some (List.replicate phot.nelem 1) }) ∨
    (∃ r, firstMatch sts.aperture sts.cenwave tbl.maxhght.val tbl.rows = some r ∧ r.isDummy ∧
      (GetPCT X tbl sts phot w).sts.pctcorr = Switch.DUMMY ∧
      (GetPCT X tbl sts phot w).phot =
        { phot with pcorr := some (List.replicate phot.nelem 1) }) ∨
    (∃ r, firstMatch sts.aperture sts.cenwave tbl.maxhght.val tbl.rows = some r ∧ ¬ r.isDummy ∧
      (GetPCT X tbl sts phot w).sts.pctcorr = Switch.PERFORM ∧
      (GetPCT X tbl sts phot w).phot = { phot with pcorr := some (r.resampled X phot) } ∧
      ∃ n, Event.splint_nr n ∈ (GetPCT X tbl sts phot w).w.log) := by
  have ha : phot.allocated = true := by
    by_contra hc
    simp only [Bool.not_eq_true] at hc
    unfold GetPCT at hok
    simp [hx, hc] at hok
  have hopen : (OpenPCTab tbl TblInfo.blank w).1 = Status.OK := by
    by_contra hc
    unfold GetPCT at hok
    simp only [hx, ha, hp, ne_eq, not_true_eq_false, if_false, Bool.not_true,
      Bool.false_eq_true, hc, not_false_eq_true, if_true] at hok
  obtain ⟨-, -, hmx, -⟩ := OpenPCTab_ok tbl w hopen
  have hG : GetPCT X tbl sts phot w =
      match GetPCT_loop X tbl (OpenPCTab tbl TblInfo.blank w).2.1 tbl.rows 1
          { status := (OpenPCTab tbl TblInfo.blank w).1, tabrow := TblRow.blank,
            foundit := false, sts := sts, phot := phot,
            w := (OpenPCTab tbl TblInfo.blank w).2.2 } with
      | Flow.returned r => r
      | Flow.broke f => GetPCT_end tbl f
      | Flow.finished f => GetPCT_end tbl f := by
    unfold GetPCT
    simp only [hx, ha, hp, hopen, ne_eq, not_true_eq_false, if_false, Bool.not_true,
      Bool.false_eq_true]
  rw [hG] at hok ⊢
  rcases GetPCT_loop_cases X tbl (OpenPCTab tbl TblInfo.blank w).2.1 tbl.rows 1
      { status := (OpenPCTab tbl TblInfo.blank w).1, tabrow := TblRow.blank,
        foundit := false, sts := sts, phot := phot,
        w := (OpenPCTab tbl TblInfo.blank w).2.2 } with
    ⟨res, hl, h1⟩ | ⟨f1, hl, h1, h2, h3, h4⟩ | ⟨res, r, hl, h1, h2, h3, h4, h5⟩ |
    ⟨f1, r, hl, h1, h2, h3, h4, h5, h6⟩
  · rw [hl] at hok
    exact absurd hok h1
  · rw [hl] at hok ⊢
    dsimp only at hok h1 h2 h3 h4 ⊢
    obtain ⟨e1, e2⟩ := GetPCT_end_not_found_ok tbl f1 h4 hok
    rw [hmx] at h1
    rw [h3] at e2
    exact Or.inl ⟨h1, e1, e2⟩
  · rw [hl]
    dsimp only at h2 h5 ⊢
    rw [hmx] at h2
    exact Or.inr (Or.inl ⟨r, h2, h3, h4, h5⟩)
  · rw [hl]
    dsimp only at h1 h3 h5 ⊢
    rw [hmx] at h1
    obtain ⟨e1, e2, e3⟩ := GetPCT_end_found tbl f1 h4
    obtain ⟨n, hn⟩ := h6
    refine Or.inr (Or.inr ⟨r, h1, h2, ?_, ?_, n, e3 _ hn⟩)
    · rw [e1, h3, hp]
    · rw [e2, h5]

theorem ReadPCArray_ok (X : Collab) (tbl : PCTable) (r : PctRow) (row : Nat)
    (phot : PhotInfo) (w : World) (hw : w.iraferr = false) (hh : HeapOK w)
    (he : r.extractOK) :
    (ReadPCArray X tbl r row phot w).1 =
        (X.splint_nr r.wl.buf r.pc.buf r.nelem.val phot.wl phot.nelem).1 ∧
      (ReadPCArray X tbl r row phot w).2.1 =
        { phot with pcorr := some (r.resampled X phot) } ∧
      (ReadPCArray X tbl r row phot w).2.2.iraferr = false ∧
      (ReadPCArray X tbl r row phot w).2.2.log = w.log ++ extractLog row := by
  obtain ⟨h1, h2, h3, h4, h5⟩ := he
  have t0 : ∀ b ∈ w.heap, b = true := hh
  have t1 : ∀ b ∈ w.heap.tail, b = true := fun b hb => hh b (List.mem_of_mem_tail hb)
  have t2 : ∀ b ∈ w.heap.tail.tail, b = true :=
    fun b hb => t1 b (List.mem_of_mem_tail hb)
  have m0 : ∀ (e o : Bool) (l : List Event), malloc ⟨e, o, w.heap, l⟩ =
      (true, ⟨e, o, w.heap.tail, l⟩) := fun e o l => malloc_eq _ t0
  have m1 : ∀ (e o : Bool) (l : List Event), malloc ⟨e, o, w.heap.tail, l⟩ =
      (true, ⟨e, o, w.heap.tail.tail, l⟩) := fun e o l => malloc_eq _ t1
  have m2 : ∀ (e o : Bool) (l : List Event), malloc ⟨e, o, w.heap.tail.tail, l⟩ =
      (true, ⟨e, o, w.heap.tail.tail.tail, l⟩) := fun e o l => malloc_eq _ t2
  unfold ReadPCArray
  simp only [c_tbegt, c_tbagtd, c_iraferr, World.record, hw, h1, h2, h3, m0, m1, m2,
    Bool.or_false, Bool.false_eq_true, if_false, Bool.not_true, not_lt.mpr h4, not_lt.mpr h5,
    decide_False, PctRow.resampled, extractLog]
  simp

theorem GetPCT_body_congr (X : Collab) (tbl tbl2 : PCTable) (ti ti2 : TblInfo)
    (h1 : tbl2.tbtclo_ok = tbl.tbtclo_ok) (h2 : ti2.maxhght = ti.maxhght) (r : PctRow)
    (row : Nat) (f : Frame) :
    GetPCT_body X tbl2 ti2 r row f = GetPCT_body X tbl ti r row f := by
  simp only [GetPCT_body, ReadPCArray, ClosePCTab, isMatch, h1, h2]

theorem GetPCT_loop_congr (X : Collab) (tbl tbl2 : PCTable) (ti ti2 : TblInfo)
    (h1 : tbl2.tbtclo_ok = tbl.tbtclo_ok) (h2 : ti2.maxhght = ti.maxhght)
    (rows : List PctRow) :
    ∀ (row : Nat) (f : Frame),
      GetPCT_loop X tbl2 ti2 rows row f = GetPCT_loop X tbl ti rows row f := by
  induction rows with
  | nil => intro row f; rfl
  | cons r rest ih =>
    intro row f
    simp only [GetPCT_loop, GetPCT_body_congr X tbl tbl2 ti ti2 h1 h2, ih]

theorem GetPCT_end_congr (tbl tbl2 : PCTable) (h1 : tbl2.tbtclo_ok = tbl.tbtclo_ok)
    (f : Frame) : GetPCT_end tbl2 f = GetPCT_end tbl f := by
  simp only [GetPCT_end, ClosePCTab, h1]

theorem OpenPCTab_rows (tbl : PCTable) (rows : List PctRow) (ti : TblInfo) (w : World) :
    (OpenPCTab { tbl with rows := rows } ti w).1 = (OpenPCTab tbl ti w).1 ∧
      (OpenPCTab { tbl with rows := rows } ti w).2.2 = (OpenPCTab tbl ti w).2.2 ∧
      (OpenPCTab { tbl with rows := rows } ti w).2.1.maxhght =
        (OpenPCTab tbl ti w).2.1.maxhght := by
  unfold OpenPCTab
  dsimp only
  split_ifs <;> exact ⟨rfl, rfl, rfl⟩

theorem GetPCT_loop_match (X : Collab) (tbl : PCTable) (ti : TblInfo) (r : PctRow)
    (post : List PctRow) (row : Nat) (f : Frame)
    (hm : r.hasKey f.sts.aperture f.sts.cenwave ti.maxhght) :
    GetPCT_loop X tbl ti (r :: post) row f = GetPCT_body X tbl ti r row f := by
  rcases GetPCT_body_cases X tbl ti r row f with ⟨res, hb, -⟩ | ⟨f1, hb, -, hn, -⟩ |
    ⟨res, hb, -⟩ | ⟨f1, hb, -⟩
  · simp only [GetPCT_loop, hb]
  · exact absurd hm hn
  · simp only [GetPCT_loop, hb]
  · simp only [GetPCT_loop, hb]

theorem GetPCT_end_log (row : Nat) (tbl : PCTable) (f : Frame) :
    World.continuesAt row f.w (GetPCT_end tbl f).w := by
  have h1 := continuesAt_ClosePCTab row tbl f.w
  have h2 := continuesAt_PCDummy row f.phot (ClosePCTab tbl f.w).2
  unfold GetPCT_end
  dsimp only
  split_ifs
  · exact h1
  · exact continuesAt_trans h1 h2
  · exact continuesAt_trans h1 h2
  · exact h1

theorem GetPCT_body_match_log (X : Collab) (tbl : PCTable) (ti : TblInfo) (r : PctRow)
    (row : Nat) (f : Frame) (hw : f.w.iraferr = false) (hk : r.keysOK)
    (hm : r.hasKey f.sts.aperture f.sts.cenwave ti.maxhght) :
    ∃ new, (GetPCT_body X tbl ti r row f).world.log = f.w.log ++ new ∧
      Event.RowPedigree row ∈ new ∧ ∀ e ∈ new, ∀ n, e.row = some n → n = row := by
  have hK := ReadPCTab_ok r row f.tabrow f.w hw hk
  have hm1 := (isMatch_iff_holdsKey f.sts ti r).mpr hm
  have h3 := continuesAt_PCDummy row f.phot
    (RowPedigree f.sts.pctab row r.pedigree (ReadPCTab r row f.tabrow f.w).2.2).2.2
  have h4 := continuesAt_ClosePCTab row tbl (PCDummy f.phot
    (RowPedigree f.sts.pctab row r.pedigree (ReadPCTab r row f.tabrow f.w).2.2).2.2).2.2
  have h5 := continuesAt_ReadPCArray X tbl r row f.phot
    (RowPedigree f.sts.pctab row r.pedigree (ReadPCTab r row f.tabrow f.w).2.2).2.2
  have key : World.continuesAt row
      (RowPedigree f.sts.pctab row r.pedigree (ReadPCTab r row f.tabrow f.w).2.2).2.2
      (GetPCT_body X tbl ti r row f).world := by
    unfold GetPCT_body
    dsimp only
    rw [if_neg (by rw [hK]; simp), if_pos (by rw [hK]; exact hm1)]
    split_ifs
    · exact continuesAt_refl _ _
    · exact h3
    · exact continuesAt_trans h3 h4
    · exact h5
    · exact h5
  obtain ⟨more, m1, m2⟩ := key
  refine ⟨[Event.tbegt Column.APERTURE row, Event.tbegt Column.CENWAVE row,
    Event.tbegt Column.EXTRHEIGHT row, Event.RowPedigree row] ++ more, ?_, by simp, ?_⟩
  · rw [m1, hK]
    simp [RowPedigree, World.record]
  · intro e he n hn
    rcases List.mem_append.mp he with h | h
    · simp only [List.mem_cons, List.mem_singleton, List.not_mem_nil, or_false] at h
      rcases h with h | h | h | h <;>
        (rw [h] at hn; simp only [Event.row, Option.some.injEq] at hn; exact hn.symm)
    · exact m2 e h n hn

theorem GetPCT_body_good (X : Collab) (tbl : PCTable) (ti : TblInfo) (r : PctRow) (row : Nat)
    (f : Frame) (hw : f.w.iraferr = false) (hh : HeapOK f.w) (hk : r.keysOK)
    (hm : r.hasKey f.sts.aperture f.sts.cenwave ti.maxhght)
    (hs : r.pedigree.status = Status.OK) (hd : ¬ r.isDummy) (he : r.extractOK)
    (hsp : (X.splint_nr r.wl.buf r.pc.buf r.nelem.val f.phot.wl f.phot.nelem).1 = Status.OK) :
    ∃ f1, GetPCT_body X tbl ti r row f = Flow.broke f1 ∧ f1.sts.pctcorr = f.sts.pctcorr ∧
      f1.foundit = true ∧ f1.phot = { f.phot with pcorr := some (r.resampled X f.phot) } ∧
      f1.w.iraferr = false ∧
      f1.w.log = f.w.log ++ [Event.tbegt Column.APERTURE row, Event.tbegt Column.CENWAVE row,
        Event.tbegt Column.EXTRHEIGHT row] ++ [Event.RowPedigree row] ++ extractLog row := by
  obtain ⟨a1, a2, a3, a4⟩ := ReadPCArray_ok X tbl r row f.phot
    ({ f.w with log := f.w.log ++ [Event.tbegt Column.APERTURE row,
        Event.tbegt Column.CENWAVE row, Event.tbegt Column.EXTRHEIGHT row] }.record
      (Event.RowPedigree row)) hw hh he
  have hK := ReadPCTab_ok r row f.tabrow f.w hw hk
  have hm1 := (isMatch_iff_holdsKey f.sts ti r).mpr hm
  unfold GetPCT_body
  rw [hK]
  dsimp only
  rw [if_neg (by simp), if_pos hm1]
  split_ifs with c3 c4 c5 c6
  · exact absurd hs c3
  · exact absurd c4 hd
  · exact absurd c4 hd
  · exact absurd (a1.trans hsp) c6
  · exact ⟨_, rfl, rfl, rfl, a2, a3, a4⟩

theorem GetPCT_end_found_ok (tbl : PCTable) (f : Frame) (hf : f.foundit = true)
    (hw : f.w.iraferr = false) (hc : tbl.tbtclo_ok = true) :
    GetPCT_end tbl f = ⟨Status.OK, f.sts, f.phot,
      { f.w with handleOpen := false, log := f.w.log ++ [Event.tbtclo] }⟩ := by
  unfold GetPCT_end
  simp only [ClosePCTab_ok tbl f.w hw hc, hf, ne_eq, not_true_eq_false, if_false,
    Bool.not_true, Bool.false_eq_true]

/-- C13.  First match wins.  The switches are PERFORM, `phot` is allocated, the table
opens, allocations and the close succeed.  Let `r` be the first row in scan order that
holds the key (`sts.aperture`, `sts.cenwave`, MAXHGHT): the key reads of the rows `pre`
before it succeed and none of them holds the key.  Let the reads of `r` succeed: its
key reads, `RowPedigree` and, if `r` is not Dummy, the reads of `ReadPCArray` and the
resampling.  Then, whatever the rows `post` after `r` are (rows that hold the key among
them): `GetPCT` returns 0, with the same `*sts`, `*phot` and calls as on the table
truncated after `r`; if `r` is Dummy, `pctcorr` is DUMMY, `phot.pcorr` is the unity
curve and no call reads or resamples an array; if `r` is not Dummy, row `r` is
extracted (`ReadPCArray`, both `c_tbagtd` and `splint_nr` are called on it), `pctcorr`
is still PERFORM and `phot.pcorr` is the curve resampled from the arrays of `r`; `r` is
classified, every call that concerns a row before `r` is a key read, and no call
concerns a row after `r`. -/
theorem GetPCT_first_match_wins (X : Collab) (tbl : PCTable) (sts : StisInfo7)
    (phot : PhotInfo) (w : World) (pre : List PctRow) (r : PctRow) (post : List PctRow)
    (hrows : tbl.rows = pre ++ r :: post)
    (hx : sts.x2dcorr_o = Switch.PERFORM) (ha : phot.allocated = true)
    (hp : sts.pctcorr = Switch.PERFORM)
    (hopen : (OpenPCTab tbl TblInfo.blank w).1 = Status.OK)
    (hmax : tbl.maxhght.failed = false) (hheap : HeapOK w) (hclose : tbl.tbtclo_ok = true)
    (hpre : ∀ x ∈ pre, x.keysOK ∧ ¬ x.hasKey sts.aperture sts.cenwave tbl.maxhght.val)
    (hk : r.keysOK) (hm : r.hasKey sts.aperture sts.cenwave tbl.maxhght.val)
    (hs : r.pedigree.status = Status.OK)
    (hext : ¬ r.isDummy → r.extractOK ∧
      (X.splint_nr r.wl.buf r.pc.buf r.nelem.val phot.wl phot.nelem).1 = Status.OK) :
    GetPCT X tbl sts phot w = GetPCT X { tbl with rows := pre ++ [r] } sts phot w ∧
      (GetPCT X tbl sts phot w).status = Status.OK ∧
      (r.isDummy → (GetPCT X tbl sts phot w).sts.pctcorr = Switch.DUMMY ∧
        (GetPCT X tbl sts phot w).phot.pcorr = some (List.replicate phot.nelem 1)) ∧
      (¬ r.isDummy → (GetPCT X tbl sts phot w).sts.pctcorr = Switch.PERFORM ∧
        (GetPCT X tbl sts phot w).phot.pcorr = some (r.resampled X phot)) ∧
      ∃ new, (GetPCT X tbl sts phot w).w.log = w.log ++ new ∧
        Event.RowPedigree (pre.length + 1) ∈ new ∧
        (r.isDummy → ∀ e ∈ new, e.extracts = false) ∧
        (¬ r.isDummy → Event.ReadPCArray (pre.length + 1) ∈ new ∧
          Event.tbagtd Column.WAVELENGTH (pre.length + 1) ∈ new ∧
          Event.tbagtd Column.THROUGHPUT (pre.length + 1) ∈ new ∧
          Event.splint_nr (pre.length + 1) ∈ new) ∧
        ∀ e ∈ new, ∀ n, e.row = some n →
          n ≤ pre.length + 1 ∧ (n ≤ pre.length → ∃ c, e = Event.tbegt c n) := by
  obtain ⟨hw, hto, hmx, ho⟩ := OpenPCTab_ok tbl w hopen
  obtain ⟨o1, o2, o3⟩ := OpenPCTab_rows tbl (pre ++ [r]) TblInfo.blank w
  obtain ⟨f1, e1, e2, e3, e4, e5, e6, e7, new1, e8, e9⟩ :=
    GetPCT_loop_skip X tbl (OpenPCTab tbl TblInfo.blank w).2.1 pre 1
      { status := (OpenPCTab tbl TblInfo.blank w).1, tabrow := TblRow.blank, foundit := false,
        sts := sts, phot := phot, w := (OpenPCTab tbl TblInfo.blank w).2.2 }
      (by rw [ho]; exact hmax)
      (fun x hx => ⟨(hpre x hx).1, by rw [hmx]; exact (hpre x hx).2⟩)
  dsimp only at e2 e3 e6 e8
  have hh : HeapOK f1.w := by
    unfold HeapOK; rw [e6, ho]; exact hheap
  have hm2 : r.hasKey f1.sts.aperture f1.sts.cenwave
      (OpenPCTab tbl TblInfo.blank w).2.1.maxhght := by rw [e2, hmx]; exact hm
  have hl : ∀ post2, GetPCT_loop X tbl (OpenPCTab tbl TblInfo.blank w).2.1 (pre ++ r :: post2) 1
      { status := (OpenPCTab tbl TblInfo.blank w).1, tabrow := TblRow.blank, foundit := false,
        sts := sts, phot := phot, w := (OpenPCTab tbl TblInfo.blank w).2.2 } =
      GetPCT_body X tbl (OpenPCTab tbl TblInfo.blank w).2.1 r (1 + pre.length) f1 := by
    intro post2
    rw [GetPCT_loop_append, e1]
    exact GetPCT_loop_match X tbl _ r post2 _ f1 hm2
  rw [hopen] at hl
  have hG : GetPCT X tbl sts phot w =
      match GetPCT_body X tbl (OpenPCTab tbl TblInfo.blank w).2.1 r (1 + pre.length) f1 with
      | Flow.returned r => r
      | Flow.broke f => GetPCT_end tbl f
      | Flow.finished f => GetPCT_end tbl f := by
    unfold GetPCT
    simp only [hx, ha, hp, hopen, ne_eq, not_true_eq_false, if_false, Bool.not_true,
      Bool.false_eq_true]
    rw [hrows, hl post]
  have hG2 : GetPCT X { tbl with rows := pre ++ [r] } sts phot w =
      match GetPCT_body X tbl (OpenPCTab tbl TblInfo.blank w).2.1 r (1 + pre.length) f1 with
      | Flow.returned r => r
      | Flow.broke f => GetPCT_end tbl f
      | Flow.finished f => GetPCT_end tbl f := by
    unfold GetPCT
    simp only [hx, ha, hp, o1, o2, hopen, ne_eq, not_true_eq_false, if_false, Bool.not_true,
      Bool.false_eq_true]
    rw [GetPCT_loop_congr X tbl { tbl with rows := pre ++ [r] }
      (OpenPCTab tbl TblInfo.blank w).2.1 _ rfl o3, hl []]
    cases GetPCT_body X tbl (OpenPCTab tbl TblInfo.blank w).2.1 r (1 + pre.length) f1 <;> rfl
  have hrow : ∀ e : Event, ∀ n, e.row = some n → n = 1 + pre.length →
      n ≤ pre.length + 1 ∧ (n ≤ pre.length → ∃ c, e = Event.tbegt c n) :=
    fun e n _ h => ⟨by omega, fun h2 => by omega⟩
  have hskip : ∀ e ∈ new1, ∀ n, e.row = some n →
      n ≤ pre.length + 1 ∧ (n ≤ pre.length → ∃ c, e = Event.tbegt c n) := by
    intro e he n hn
    obtain ⟨c, m, hc, h1, h2⟩ := e9 e he
    rw [hc] at hn
    simp only [Event.row, Option.some.injEq] at hn
    subst hn
    exact ⟨by omega, fun _ => ⟨c, hc⟩⟩
  have h11 : pre.length + 1 = 1 + pre.length := by omega
  refine ⟨by rw [hG, hG2], ?_⟩
  by_cases hd : r.isDummy
  · obtain ⟨res, k1, k2, k3, k4, -, k6⟩ :=
      GetPCT_body_dummy X tbl (OpenPCTab tbl TblInfo.blank w).2.1 r (1 + pre.length) f1 e5 hh hk
        hm2 hs hd
    rw [k1] at hG
    simp only [] at hG
    rw [hG, k2, k3, k4, k6, e8, ho, e3]
    refine ⟨rfl, fun _ => ⟨rfl, rfl⟩, fun h => absurd hd h,
      [Event.tbtopn, Event.tbhgti] ++ new1 ++
        [Event.tbegt Column.APERTURE (1 + pre.length),
          Event.tbegt Column.CENWAVE (1 + pre.length),
          Event.tbegt Column.EXTRHEIGHT (1 + pre.length), Event.RowPedigree (1 + pre.length),
          Event.PCDummy, Event.tbtclo], by simp, by rw [h11]; simp, ?_,
      fun h => absurd hd h, ?_⟩
    · intro _ e he
      simp only [List.mem_append, List.mem_cons, List.mem_singleton, List.not_mem_nil,
        or_false] at he
      rcases he with ((he | he) | he) | he
      · rw [he]; rfl
      · rw [he]; rfl
      · obtain ⟨c, m, hc, -, -⟩ := e9 e he
        rw [hc]; rfl
      · rcases he with he | he | he | he | he | he <;> (rw [he]; rfl)
    · intro e he n hn
      simp only [List.mem_append, List.mem_cons, List.mem_singleton, List.not_mem_nil,
        or_false] at he
      rcases he with ((he | he) | he) | he
      · rw [he] at hn; simp [Event.row] at hn
      · rw [he] at hn; simp [Event.row] at hn
      · exact hskip e he n hn
      · refine hrow e n hn ?_
        rcases he with he | he | he | he | he | he <;>
          (rw [he] at hn; simp only [Event.row, Option.some.injEq, reduceCtorEq] at hn) <;>
          exact hn.symm
  · obtain ⟨hex, hsp⟩ := hext hd
    obtain ⟨f2, k1, k2, k3, k4, k5, k6⟩ :=
      GetPCT_body_good X tbl (OpenPCTab tbl TblInfo.blank w).2.1 r (1 + pre.length) f1 e5 hh hk
        hm2 hs hd hex (by rw [e3]; exact hsp)
    rw [k1] at hG
    simp only [] at hG
    rw [hG, GetPCT_end_found_ok tbl f2 k3 k5 hclose]
    dsimp only
    rw [k2, k4, k6, e8, ho, e2, e3]
    refine ⟨rfl, fun h => absurd h hd, fun _ => ⟨hp, rfl⟩,
      [Event.tbtopn, Event.tbhgti] ++ new1 ++
        [Event.tbegt Column.APERTURE (1 + pre.length),
          Event.tbegt Column.CENWAVE (1 + pre.length),
          Event.tbegt Column.EXTRHEIGHT (1 + pre.length), Event.RowPedigree (1 + pre.length),
          Event.ReadPCArray (1 + pre.length), Event.tbegt Column.NELEM (1 + pre.length),
          Event.tbagtd Column.WAVELENGTH (1 + pre.length),
          Event.tbagtd Column.THROUGHPUT (1 + pre.length),
          Event.splint_nr (1 + pre.length), Event.tbtclo], by simp [extractLog],
      by rw [h11]; simp, fun h => absurd h hd,
      fun _ => by rw [h11]; simp, ?_⟩
    intro e he n hn
    simp only [List.mem_append, List.mem_cons, List.mem_singleton, List.not_mem_nil,
      or_false] at he
    rcases he with ((he | he) | he) | he
    · rw [he] at hn; simp [Event.row] at hn
    · rw [he] at hn; simp [Event.row] at hn
    · exact hskip e he n hn
    · refine hrow e n hn ?_
      rcases he with he | he | he | he | he | he | he | he | he | he <;>
        (rw [he] at hn; simp only [Event.row, Option.some.injEq, reduceCtorEq] at hn) <;>
        exact hn.symm

/-- C13 at the table `PCTable.twoMatches`, whose rows 2 and 3 both hold the key
(F1, 5000, 21) and differ in their throughput, with the resampler of the spec: the
result is that of the table cut after row 2, the status is 0, row 2 is classified and
extracted, `phot.pcorr` is the curve of row 2, {(1,2),(2,4),(3,6)}, resampled on the
grid [1, 2, 3, 4], and no call concerns row 3. -/
theorem GetPCT_first_match_wins_witness :
    GetPCT Collab.spline PCTable.twoMatches StisInfo7.sample PhotInfo.sample World.fresh =
        GetPCT Collab.spline
          { PCTable.twoMatches with
            rows := [PctRow.sample "F2" 5000 21 Pedigree.GOOD_PEDIGREE] ++
              [PctRow.sample "F1" 5000 21 Pedigree.GOOD_PEDIGREE] }
          StisInfo7.sample PhotInfo.sample World.fresh ∧
      (GetPCT Collab.spline PCTable.twoMatches StisInfo7.sample PhotInfo.sample
        World.fresh).status = Status.OK ∧
      (GetPCT Collab.spline PCTable.twoMatches StisInfo7.sample PhotInfo.sample
        World.fresh).sts.pctcorr = Switch.PERFORM ∧
      (GetPCT Collab.spline PCTable.twoMatches StisInfo7.sample PhotInfo.sample
        World.fresh).phot.pcorr = some [2, 4, 6, 8] ∧
      ∃ new, (GetPCT Collab.spline PCTable.twoMatches StisInfo7.sample PhotInfo.sample
          World.fresh).w.log = World.fresh.log ++ new ∧
        Event.RowPedigree 2 ∈ new ∧ Event.ReadPCArray 2 ∈ new ∧
        Event.tbagtd Column.WAVELENGTH 2 ∈ new ∧ Event.tbagtd Column.THROUGHPUT 2 ∈ new ∧
        Event.splint_nr 2 ∈ new ∧
        ∀ e ∈ new, ∀ n, e.row = some n → n ≤ 2 ∧ (n ≤ 1 → ∃ c, e = Event.tbegt c n) := by
  have hg : ¬ (PctRow.sample "F1" 5000 21 Pedigree.GOOD_PEDIGREE).isDummy := by decide
  obtain ⟨h1, h2, -, h4, new, h5, h6, -, h8, h9⟩ :=
    GetPCT_first_match_wins Collab.spline PCTable.twoMatches StisInfo7.sample PhotInfo.sample
      World.fresh [PctRow.sample "F2" 5000 21 Pedigree.GOOD_PEDIGREE]
      (PctRow.sample "F1" 5000 21 Pedigree.GOOD_PEDIGREE)
      [{ PctRow.sample "F1" 5000 21 Pedigree.GOOD_PEDIGREE with pc := ⟨3, [5, 5, 5], false⟩ }]
      rfl (by decide) (by decide) (by decide) (by decide) (by decide) (by decide) (by decide)
      (by decide) (by decide) (by decide) (by decide) (fun _ => ⟨by decide, by decide⟩)
  exact ⟨h1, h2, (h4 hg).1,
    (h4 hg).2.trans (show some ((PctRow.sample "F1" 5000 21 Pedigree.GOOD_PEDIGREE).resampled
      Collab.spline PhotInfo.sample) = some [2, 4, 6, 8] by decide!),
    new, h5, h6, (h8 hg).1, (h8 hg).2.1, (h8 hg).2.2.1, (h8 hg).2.2.2, h9⟩

/-- C20, as amended.  For every run of `GetPCT` that starts with `x2dcorr_o` = PERFORM
and `pctcorr` = PERFORM and returns 0: `sts.pctcorr` afterwards is DUMMY exactly when
the first row that holds the key (`sts.aperture`, `sts.cenwave`, MAXHGHT) is Dummy; it
is OMIT exactly when no row holds the key; it is still PERFORM exactly when the first
row that holds the key is not Dummy, and then `splint_nr` was called and `phot.pcorr`
is the curve resampled from the arrays of that row; and whenever `sts.pctcorr` ends
different from PERFORM, `phot.pcorr` is `phot.nelem` ones. -/
theorem GetPCT_switch_records_cause (X : Collab) (tbl : PCTable) (sts : StisInfo7)
    (phot : PhotInfo) (w : World)
    (hx : sts.x2dcorr_o = Switch.PERFORM) (hp : sts.pctcorr = Switch.PERFORM)
    (hok : (GetPCT X tbl sts phot w).status = Status.OK) :
    ((GetPCT X tbl sts phot w).sts.pctcorr = Switch.DUMMY ↔
      ∃ r, firstMatch sts.aperture sts.cenwave tbl.maxhght.val tbl.rows = some r ∧
        r.isDummy) ∧
    ((GetPCT X tbl sts phot w).sts.pctcorr = Switch.OMIT ↔
      firstMatch sts.aperture sts.cenwave tbl.maxhght.val tbl.rows = none) ∧
    ((GetPCT X tbl sts phot w).sts.pctcorr = Switch.PERFORM ↔
      ∃ r, firstMatch sts.aperture sts.cenwave tbl.maxhght.val tbl.rows = some r ∧
        ¬ r.isDummy ∧
        (GetPCT X tbl sts phot w).phot.pcorr = some (r.resampled X phot) ∧
        ∃ n, Event.splint_nr n ∈ (GetPCT X tbl sts phot w).w.log) ∧
    ((GetPCT X tbl sts phot w).sts.pctcorr ≠ Switch.PERFORM →
      (GetPCT X tbl sts phot w).phot.nelem = phot.nelem ∧
      (GetPCT X tbl sts phot w).phot.pcorr = some (List.replicate phot.nelem 1)) := by
  rcases GetPCT_cases X tbl sts phot w hx hp hok with ⟨c1, c2, c3⟩ | ⟨r, c1, c2, c3, c4⟩ |
    ⟨r, c1, c2, c3, c4, c5⟩
  · rw [c1, c2, c3]
    simp
  · rw [c1, c3, c4]
    refine ⟨⟨fun _ => ⟨r, rfl, c2⟩, fun _ => rfl⟩,
      ⟨fun h => absurd h (by simp), fun h => absurd h (by simp)⟩,
      ⟨fun h => absurd h (by simp), ?_⟩, fun _ => ⟨rfl, rfl⟩⟩
    rintro ⟨x, hx, hd, -⟩
    cases hx
    exact absurd c2 hd
  · rw [c1, c3, c4]
    obtain ⟨n, hn⟩ := c5
    refine ⟨⟨fun h => absurd h (by simp), ?_⟩,
      ⟨fun h => absurd h (by simp), fun h => absurd h (by simp)⟩,
      ⟨fun _ => ⟨r, rfl, c2, rfl, n, hn⟩, fun _ => rfl⟩, fun h => absurd rfl h⟩
    rintro ⟨x, hx, hd⟩
    cases hx
    exact absurd hd c2

/-- C20 (amended) at the table `PCTable.dummyFirst`, whose first row holding the key
(F1, 5000, 21) is Dummy. -/
theorem GetPCT_switch_records_cause_witness :
    ((GetPCT Collab.sample PCTable.dummyFirst StisInfo7.sample PhotInfo.sample
        World.fresh).sts.pctcorr = Switch.DUMMY ↔
      ∃ r, firstMatch StisInfo7.sample.aperture StisInfo7.sample.cenwave
          PCTable.dummyFirst.maxhght.val PCTable.dummyFirst.rows = some r ∧ r.isDummy) ∧
    ((GetPCT Collab.sample PCTable.dummyFirst StisInfo7.sample PhotInfo.sample
        World.fresh).sts.pctcorr = Switch.OMIT ↔
      firstMatch StisInfo7.sample.aperture StisInfo7.sample.cenwave
        PCTable.dummyFirst.maxhght.val PCTable.dummyFirst.rows = none) ∧
    ((GetPCT Collab.sample PCTable.dummyFirst StisInfo7.sample PhotInfo.sample
        World.fresh).sts.pctcorr = Switch.PERFORM ↔
      ∃ r, firstMatch StisInfo7.sample.aperture StisInfo7.sample.cenwave
          PCTable.dummyFirst.maxhght.val PCTable.dummyFirst.rows = some r ∧
        ¬ r.isDummy ∧
        (GetPCT Collab.sample PCTable.dummyFirst StisInfo7.sample PhotInfo.sample
          World.fresh).phot.pcorr = some (r.resampled Collab.sample PhotInfo.sample) ∧
        ∃ n, Event.splint_nr n ∈ (GetPCT Collab.sample PCTable.dummyFirst StisInfo7.sample
          PhotInfo.sample World.fresh).w.log) ∧
    ((GetPCT Collab.sample PCTable.dummyFirst StisInfo7.sample PhotInfo.sample
        World.fresh).sts.pctcorr ≠ Switch.PERFORM →
      (GetPCT Collab.sample PCTable.dummyFirst StisInfo7.sample PhotInfo.sample
        World.fresh).phot.nelem = PhotInfo.sample.nelem ∧
      (GetPCT Collab.sample PCTable.dummyFirst StisInfo7.sample PhotInfo.sample
        World.fresh).phot.pcorr = some (List.replicate PhotInfo.sample.nelem 1)) :=
  GetPCT_switch_records_cause Collab.sample PCTable.dummyFirst StisInfo7.sample
    PhotInfo.sample World.fresh (by decide) (by decide) (by decide)

/-- C20 as stated fails when `x2dcorr_o` is not PERFORM: on the table
`PCTable.twoMatches` with `x2dcorr_o` = OMIT and `pctcorr` = PERFORM, `GetPCT` returns 0
and `sts.pctcorr` is still PERFORM, although no call was made, so that no row was
extracted or resampled, and `phot.pcorr` is still NULL. -/
theorem GetPCT_gate_keeps_PERFORM :
    (GetPCT Collab.sample PCTable.twoMatches
        { StisInfo7.sample with x2dcorr_o := Switch.OMIT } PhotInfo.sample
        World.fresh).status = Status.OK ∧
      (GetPCT Collab.sample PCTable.twoMatches
        { StisInfo7.sample with x2dcorr_o := Switch.OMIT } PhotInfo.sample
        World.fresh).sts.pctcorr = Switch.PERFORM ∧
      (GetPCT Collab.sample PCTable.twoMatches
        { StisInfo7.sample with x2dcorr_o := Switch.OMIT } PhotInfo.sample
        World.fresh).phot.pcorr = none ∧
      (GetPCT Collab.sample PCTable.twoMatches
        { StisInfo7.sample with x2dcorr_o := Switch.OMIT } PhotInfo.sample
        World.fresh).w.log = [] := by
  decide

end Cs7

/-- C10.  Key-read failure aborts the scan.  Let row `r`, preceded by the rows `pre`
and followed by the rows `post`, have a key read that fails at the storage layer.
`GetTrace4`: if the table opens and every read of the rows before `r` succeeds, the
status returned is `TABLE_ERROR` and every call the run logs for a row (a read,
`RowPedigree`, `ReadTraceArray`) concerns a row not after `r`.  `GetPCT`, with the
switches PERFORM and `phot` allocated: if the table opens, the key reads of the rows
before `r` succeed and none of them holds the key, the same holds. -/
theorem key_read_failure_aborts_scan :
    (∀ (X : Collab) (tbl : Cs4.TraceTable) (sts : Cs4.StisInfo4) (trace : List Cs4.SpTrace)
        (w : World) (pre : List Cs4.SptrcRow) (r : Cs4.SptrcRow) (post : List Cs4.SptrcRow),
        tbl.rows = pre ++ r :: post →
        (Cs4.OpenTraceTab tbl Cs4.TblInfo.blank w).1 = Status.OK → HeapOK w →
        (∀ x ∈ pre, x.readsOK sts.opt_elem sts.cenwave) → ¬ r.keysOK →
        (Cs4.GetTrace4 X tbl sts trace w).status = Status.TABLE_ERROR ∧
          ∃ new, (Cs4.GetTrace4 X tbl sts trace w).w.log = w.log ++ new ∧
            ∀ e ∈ new, ∀ n, e.row = some n → n ≤ pre.length + 1) ∧
    (∀ (X : Collab) (tbl : Cs7.PCTable) (sts : Cs7.StisInfo7) (phot : Cs7.PhotInfo)
        (w : World) (pre : List Cs7.PctRow) (r : Cs7.PctRow) (post : List Cs7.PctRow),
        tbl.rows = pre ++ r :: post →
        sts.x2dcorr_o = Switch.PERFORM → phot.allocated = true →
        sts.pctcorr = Switch.PERFORM →
        (Cs7.OpenPCTab tbl Cs7.TblInfo.blank w).1 = Status.OK →
        tbl.maxhght.failed = false →
        (∀ x ∈ pre, x.keysOK ∧ ¬ x.hasKey sts.aperture sts.cenwave tbl.maxhght.val) →
        ¬ r.keysOK →
        (Cs7.GetPCT X tbl sts phot w).status = Status.TABLE_ERROR ∧
          ∃ new, (Cs7.GetPCT X tbl sts phot w).w.log = w.log ++ new ∧
            ∀ e ∈ new, ∀ n, e.row = some n → n ≤ pre.length + 1) :=
  ⟨fun X tbl sts trace w pre r post h1 h2 h3 h4 h5 =>
      Cs4.GetTrace4_key_read_failure X tbl sts trace w pre r post h1 h2 h3 h4 h5,
    fun X tbl sts phot w pre r post h1 h2 h3 h4 h5 h6 h7 h8 =>
      Cs7.GetPCT_key_read_failure X tbl sts phot w pre r post h1 h2 h3 h4 h5 h6 h7 h8⟩

/-- C10 at two tables of three rows whose second row has a failing key read: both
functions return `TABLE_ERROR` and log no call for row 3. -/
theorem key_read_failure_aborts_scan_witness :
    ((Cs4.GetTrace4 Collab.sample Cs4.TraceTable.badSecond Cs4.StisInfo4.sample []
          World.fresh).status = Status.TABLE_ERROR ∧
      ∃ new, (Cs4.GetTrace4 Collab.sample Cs4.TraceTable.badSecond Cs4.StisInfo4.sample []
          World.fresh).w.log = World.fresh.log ++ new ∧
        ∀ e ∈ new, ∀ n, e.row = some n → n ≤ 1 + 1) ∧
    ((Cs7.GetPCT Collab.sample Cs7.PCTable.badSecond Cs7.StisInfo7.sample Cs7.PhotInfo.sample
          World.fresh).status = Status.TABLE_ERROR ∧
      ∃ new, (Cs7.GetPCT Collab.sample Cs7.PCTable.badSecond Cs7.StisInfo7.sample
          Cs7.PhotInfo.sample World.fresh).w.log = World.fresh.log ++ new ∧
        ∀ e ∈ new, ∀ n, e.row = some n → n ≤ 1 + 1) :=
  ⟨key_read_failure_aborts_scan.1 Collab.sample Cs4.TraceTable.badSecond Cs4.StisInfo4.sample []
      World.fresh [Cs4.SptrcRow.sample "A" 100 1 Pedigree.GOOD_PEDIGREE]
      { Cs4.SptrcRow.sample "A" 100 2 Pedigree.GOOD_PEDIGREE with cenwave := Cell.fail 0 }
      [Cs4.SptrcRow.sample "A" 100 3 Pedigree.GOOD_PEDIGREE]
      rfl (by decide) (by decide) (by decide) (by decide),
    key_read_failure_aborts_scan.2 Collab.sample Cs7.PCTable.badSecond Cs7.StisInfo7.sample
      Cs7.PhotInfo.sample World.fresh [Cs7.PctRow.sample "F2" 5000 21 Pedigree.GOOD_PEDIGREE]
      { Cs7.PctRow.sample "F1" 5000 21 Pedigree.GOOD_PEDIGREE with extrheight := Cell.fail 0 }
      [Cs7.PctRow.sample "F1" 5000 21 Pedigree.GOOD_PEDIGREE]
      rfl (by decide) (by decide) (by decide) (by decide) (by decide) (by decide) (by decide)⟩

/-- C9 as stated fails for `ReadPCArray`, which has no capacity check: on a row that
declares 2000 elements, more than `MAX_SP_TRACE`, and whose reads succeed, it reads
both arrays, assigns `pcorr` and returns 0. -/
theorem ReadPCArray_no_capacity_check :
    Cs4.MAX_SP_TRACE < Cs7.PctRow.oversize.nelem.val ∧
      (Cs7.ReadPCArray Collab.sample (Cs7.PCTable.sample [Cs7.PctRow.oversize])
        Cs7.PctRow.oversize 1 Cs7.PhotInfo.sample World.fresh).1 = Status.OK ∧
      (Cs7.ReadPCArray Collab.sample (Cs7.PCTable.sample [Cs7.PctRow.oversize])
        Cs7.PctRow.oversize 1 Cs7.PhotInfo.sample World.fresh).2.1.pcorr ≠ none ∧
      Event.tbagtd Column.WAVELENGTH 1 ∈
        (Cs7.ReadPCArray Collab.sample (Cs7.PCTable.sample [Cs7.PctRow.oversize])
          Cs7.PctRow.oversize 1 Cs7.PhotInfo.sample World.fresh).2.2.log := by
  decide

/-- C6.  A short read is rejected with no partial result.  `ReadPCArray`: if one of the
two array reads returns fewer elements than the declared count NELEM, `phot` is left as
it was (`pcorr` is not assigned), the status is not 0, and it is `TABLE_ERROR` when the
allocations succeed.  `ReadTraceArray`: if the array read returns fewer elements than
the declared count, the trace list is left as it was (no record is appended), the
status is not 0, and it is `TABLE_ERROR` when the allocation succeeds. -/
theorem short_read_rejected :
    (∀ (X : Collab) (tbl : Cs7.PCTable) (r : Cs7.PctRow) (row : Nat) (phot : Cs7.PhotInfo)
        (w : World), (r.wl.nret < r.nelem.val ∨ r.pc.nret < r.nelem.val) →
        (Cs7.ReadPCArray X tbl r row phot w).2.1 = phot ∧
          (Cs7.ReadPCArray X tbl r row phot w).1 ≠ Status.OK ∧
          (HeapOK w → (Cs7.ReadPCArray X tbl r row phot w).1 = Status.TABLE_ERROR)) ∧
    (∀ (X : Collab) (tbl : Cs4.TraceTable) (ti : Cs4.TblInfo) (r : Cs4.SptrcRow) (row : Nat)
        (sts : Cs4.StisInfo4) (trace : List Cs4.SpTrace) (w : World),
        r.a2displ.nret < r.nelem.val →
        (Cs4.ReadTraceArray X tbl ti r row sts trace w).2.2.1 = trace ∧
          (Cs4.ReadTraceArray X tbl ti r row sts trace w).1 ≠ Status.OK ∧
          (HeapOK w → (Cs4.ReadTraceArray X tbl ti r row sts trace w).1 = Status.TABLE_ERROR)) :=
  ⟨fun X tbl r row phot w h => Cs7.ReadPCArray_short X tbl r row phot w h,
    fun X tbl ti r row sts trace w h => Cs4.ReadTraceArray_short X tbl ti r row sts trace w h⟩

/-- C6 at rows that declare 50 elements while the array read returns 40. -/
theorem short_read_rejected_witness :
    ((Cs7.PctRow.short.wl.nret = 40 ∧ Cs7.PctRow.short.nelem.val = 50) ∧
      (Cs7.ReadPCArray Collab.sample (Cs7.PCTable.sample [Cs7.PctRow.short]) Cs7.PctRow.short 1
        Cs7.PhotInfo.sample World.fresh).2.1 = Cs7.PhotInfo.sample ∧
      (Cs7.ReadPCArray Collab.sample (Cs7.PCTable.sample [Cs7.PctRow.short]) Cs7.PctRow.short 1
        Cs7.PhotInfo.sample World.fresh).1 = Status.TABLE_ERROR) ∧
    ((Cs4.SptrcRow.short.a2displ.nret = 40 ∧ Cs4.SptrcRow.short.nelem.val = 50) ∧
      (Cs4.ReadTraceArray Collab.sample (Cs4.TraceTable.sample [Cs4.SptrcRow.short])
        Cs4.TblInfo.blank Cs4.SptrcRow.short 1 Cs4.StisInfo4.sample [] World.fresh).2.2.1 = [] ∧
      (Cs4.ReadTraceArray Collab.sample (Cs4.TraceTable.sample [Cs4.SptrcRow.short])
        Cs4.TblInfo.blank Cs4.SptrcRow.short 1 Cs4.StisInfo4.sample [] World.fresh).1
          = Status.TABLE_ERROR) :=
  ⟨⟨by decide,
      (short_read_rejected.1 Collab.sample (Cs7.PCTable.sample [Cs7.PctRow.short])
        Cs7.PctRow.short 1 Cs7.PhotInfo.sample World.fresh (by decide)).1,
      (short_read_rejected.1 Collab.sample (Cs7.PCTable.sample [Cs7.PctRow.short])
        Cs7.PctRow.short 1 Cs7.PhotInfo.sample World.fresh (by decide)).2.2 (by decide)⟩,
    ⟨by decide,
      (short_read_rejected.2 Collab.sample (Cs4.TraceTable.sample [Cs4.SptrcRow.short])
        Cs4.TblInfo.blank Cs4.SptrcRow.short 1 Cs4.StisInfo4.sample [] World.fresh
        (by decide)).1,
      (short_read_rejected.2 Collab.sample (Cs4.TraceTable.sample [Cs4.SptrcRow.short])
        Cs4.TblInfo.blank Cs4.SptrcRow.short 1 Cs4.StisInfo4.sample [] World.fresh
        (by decide)).2.2 (by decide)⟩⟩

/-- C7, what the code does.  On the tables whose second row has a failing key read,
`GetTrace4` and `GetPCT` return `TABLE_ERROR` with the table handle still open: the run
makes no call of `c_tbtclo`. -/
theorem handle_left_open_on_key_read_failure :
    ((Cs4.GetTrace4 Collab.sample Cs4.TraceTable.badSecond Cs4.StisInfo4.sample []
          World.fresh).status = Status.TABLE_ERROR ∧
      (Cs4.GetTrace4 Collab.sample Cs4.TraceTable.badSecond Cs4.StisInfo4.sample []
          World.fresh).w.handleOpen = true ∧
      closes (Cs4.GetTrace4 Collab.sample Cs4.TraceTable.badSecond Cs4.StisInfo4.sample []
          World.fresh).w.log = 0) ∧
    ((Cs7.GetPCT Collab.sample Cs7.PCTable.badSecond Cs7.StisInfo7.sample Cs7.PhotInfo.sample
          World.fresh).status = Status.TABLE_ERROR ∧
      (Cs7.GetPCT Collab.sample Cs7.PCTable.badSecond Cs7.StisInfo7.sample Cs7.PhotInfo.sample
          World.fresh).w.handleOpen = true ∧
      closes (Cs7.GetPCT Collab.sample Cs7.PCTable.badSecond Cs7.StisInfo7.sample
          Cs7.PhotInfo.sample World.fresh).w.log = 0) := by
  decide

/-- C19.  Entry gates of `GetPCT`.  If `x2dcorr_o` is not PERFORM, `GetPCT` returns 0 at
once: `sts` (its `pctcorr` included), `phot` (its `pcorr` included) and the world are
as they were, so that the table is neither opened nor read and nothing is allocated,
whatever `phot.allocated` and `pctcorr` are and whatever the table is.  If `x2dcorr_o`
is PERFORM and `phot` is not allocated, `GetPCT` returns `INTERNAL_ERROR`, again with
`sts`, `phot` and the world as they were. -/
theorem GetPCT_entry_gates :
    (∀ (X : Collab) (tbl : Cs7.PCTable) (sts : Cs7.StisInfo7) (phot : Cs7.PhotInfo) (w : World),
        sts.x2dcorr_o ≠ Switch.PERFORM →
        Cs7.GetPCT X tbl sts phot w = ⟨Status.OK, sts, phot, w⟩) ∧
    (∀ (X : Collab) (tbl : Cs7.PCTable) (sts : Cs7.StisInfo7) (phot : Cs7.PhotInfo) (w : World),
        sts.x2dcorr_o = Switch.PERFORM → phot.allocated = false →
        Cs7.GetPCT X tbl sts phot w = ⟨Status.INTERNAL_ERROR, sts, phot, w⟩) := by
  refine ⟨fun X tbl sts phot w h => ?_, fun X tbl sts phot w h1 h2 => ?_⟩
  · unfold Cs7.GetPCT
    rw [if_pos h]
  · unfold Cs7.GetPCT
    simp only [h1, h2, ne_eq, not_true_eq_false, if_false, Bool.not_false, if_true]

/-- C19 at the switch value OMIT with `phot` not allocated and a table that does not
exist, and at the switch value PERFORM with `phot` not allocated. -/
theorem GetPCT_entry_gates_witness :
    Cs7.GetPCT Collab.sample { Cs7.PCTable.noMatch with tbtopn_ok := false }
        { Cs7.StisInfo7.sample with x2dcorr_o := Switch.OMIT }
        { Cs7.PhotInfo.sample with allocated := false } World.fresh =
      ⟨Status.OK, { Cs7.StisInfo7.sample with x2dcorr_o := Switch.OMIT },
        { Cs7.PhotInfo.sample with allocated := false }, World.fresh⟩ ∧
    Cs7.GetPCT Collab.sample Cs7.PCTable.noMatch Cs7.StisInfo7.sample
        { Cs7.PhotInfo.sample with allocated := false } World.fresh =
      ⟨Status.INTERNAL_ERROR, Cs7.StisInfo7.sample,
        { Cs7.PhotInfo.sample with allocated := false }, World.fresh⟩ :=
  ⟨GetPCT_entry_gates.1 Collab.sample _ _ _ World.fresh (by decide),
    GetPCT_entry_gates.2 Collab.sample _ _ _ World.fresh (by decide) (by decide)⟩

/-- C11.  Administratively disabled lookup.  If `x2dcorr_o` is PERFORM, `phot` is
allocated and `pctcorr` is not PERFORM, then, the allocation of `pcorr` succeeding,
`GetPCT` returns 0, `phot.pcorr` has exactly `phot.nelem` elements, each equal to 1,
`sts` is unchanged, and the only call the run logs is `PCDummy`: the table is neither
opened nor read.  The result is the same for every other table `tbl2`, one that cannot
be opened included. -/
theorem GetPCT_disabled_unity (X : Collab) (tbl tbl2 : Cs7.PCTable) (sts : Cs7.StisInfo7)
    (phot : Cs7.PhotInfo) (w : World)
    (hx : sts.x2dcorr_o = Switch.PERFORM) (ha : phot.allocated = true)
    (hp : sts.pctcorr ≠ Switch.PERFORM) (hheap : HeapOK w) :
    (Cs7.GetPCT X tbl sts phot w).status = Status.OK ∧
      (Cs7.GetPCT X tbl sts phot w).phot.nelem = phot.nelem ∧
      (∃ pcorr, (Cs7.GetPCT X tbl sts phot w).phot.pcorr = some pcorr ∧
        pcorr.length = phot.nelem ∧ ∀ x ∈ pcorr, x = 1) ∧
      (Cs7.GetPCT X tbl sts phot w).sts = sts ∧
      (Cs7.GetPCT X tbl sts phot w).w.log = w.log ++ [Event.PCDummy] ∧
      (Cs7.GetPCT X tbl sts phot w).w.handleOpen = w.handleOpen ∧
      Cs7.GetPCT X tbl sts phot w = Cs7.GetPCT X tbl2 sts phot w := by
  obtain ⟨d1, d2, -, -, d5, d6⟩ := Cs7.PCDummy_of_heapOK phot w hheap
  have hG : ∀ t : Cs7.PCTable, Cs7.GetPCT X t sts phot w =
      ⟨Status.OK, sts, (Cs7.PCDummy phot w).2.1, (Cs7.PCDummy phot w).2.2⟩ := by
    intro t
    unfold Cs7.GetPCT
    simp only [hx, ha, hp, d1, ne_eq, not_true_eq_false, if_false, Bool.not_true,
      Bool.false_eq_true, not_false_eq_true, if_true]
  rw [hG tbl, hG tbl2]
  refine ⟨rfl, ?_, ⟨List.replicate phot.nelem 1, ?_, by simp,
    fun x hx => (List.mem_replicate.mp hx).2⟩, rfl, d6, d5, rfl⟩
  · show (Cs7.PCDummy phot w).2.1.nelem = phot.nelem
    rw [d2]
  · show (Cs7.PCDummy phot w).2.1.pcorr = _
    rw [d2]

/-- C11 at the switch value OMIT, for the table `PCTable.noMatch` and a table that
cannot be opened. -/
theorem GetPCT_disabled_unity_witness :
    (Cs7.GetPCT Collab.sample Cs7.PCTable.noMatch
        { Cs7.StisInfo7.sample with pctcorr := Switch.OMIT } Cs7.PhotInfo.sample
        World.fresh).status = Status.OK ∧
      (Cs7.GetPCT Collab.sample Cs7.PCTable.noMatch
        { Cs7.StisInfo7.sample with pctcorr := Switch.OMIT } Cs7.PhotInfo.sample
        World.fresh).phot.nelem = 4 ∧
      (∃ pcorr, (Cs7.GetPCT Collab.sample Cs7.PCTable.noMatch
          { Cs7.StisInfo7.sample with pctcorr := Switch.OMIT } Cs7.PhotInfo.sample
          World.fresh).phot.pcorr = some pcorr ∧ pcorr.length = 4 ∧ ∀ x ∈ pcorr, x = 1) ∧
      (Cs7.GetPCT Collab.sample Cs7.PCTable.noMatch
        { Cs7.StisInfo7.sample with pctcorr := Switch.OMIT } Cs7.PhotInfo.sample
        World.fresh).sts = { Cs7.StisInfo7.sample with pctcorr := Switch.OMIT } ∧
      (Cs7.GetPCT Collab.sample Cs7.PCTable.noMatch
        { Cs7.StisInfo7.sample with pctcorr := Switch.OMIT } Cs7.PhotInfo.sample
        World.fresh).w.log = World.fresh.log ++ [Event.PCDummy] ∧
      (Cs7.GetPCT Collab.sample Cs7.PCTable.noMatch
        { Cs7.StisInfo7.sample with pctcorr := Switch.OMIT } Cs7.PhotInfo.sample
        World.fresh).w.handleOpen = World.fresh.handleOpen ∧
      Cs7.GetPCT Collab.sample Cs7.PCTable.noMatch
          { Cs7.StisInfo7.sample with pctcorr := Switch.OMIT } Cs7.PhotInfo.sample World.fresh =
        Cs7.GetPCT Collab.sample { Cs7.PCTable.noMatch with tbtopn_ok := false }
          { Cs7.StisInfo7.sample with pctcorr := Switch.OMIT } Cs7.PhotInfo.sample World.fresh :=
  GetPCT_disabled_unity Collab.sample Cs7.PCTable.noMatch
    { Cs7.PCTable.noMatch with tbtopn_ok := false }
    { Cs7.StisInfo7.sample with pctcorr := Switch.OMIT } Cs7.PhotInfo.sample World.fresh
    (by decide) (by decide) (by decide) (by decide)

theorem c_tbcfnd1_loop_none (lc : List Char) (cols : List ColumnDescr) :
    ∀ i, c_tbcfnd1_loop lc cols i = none ↔ ∀ c ∈ cols, lc ≠ str_lower c.name.data := by
  induction cols with
  | nil => intro i; simp [c_tbcfnd1_loop]
  | cons col rest ih =>
    intro i
    unfold c_tbcfnd1_loop
    by_cases h : lc = str_lower col.name.data
    · simp [h]
    · rw [if_neg h, ih (i + 1)]
      simp only [List.mem_cons, forall_eq_or_imp, ne_eq, h, not_false_eq_true, true_and]

theorem c_tbcfnd1_loop_some (lc : List Char) (cols : List ColumnDescr) :
    ∀ i k, c_tbcfnd1_loop lc cols i = some k ↔
      ∃ j c, k = i + j ∧ cols[j]? = some c ∧ lc = str_lower c.name.data ∧
        ∀ j2 < j, ∀ d, cols[j2]? = some d → lc ≠ str_lower d.name.data := by
  induction cols with
  | nil => intro i k; simp [c_tbcfnd1_loop]
  | cons col rest ih =>
    intro i k
    unfold c_tbcfnd1_loop
    by_cases h : lc = str_lower col.name.data
    · rw [if_pos h]
      constructor
      · intro hk
        refine ⟨0, col, ?_, by simp, h, fun j2 hj => absurd hj (Nat.not_lt_zero _)⟩
        simpa using hk.symm
      · rintro ⟨j, c, hk, hc, -, hmin⟩
        cases j with
        | zero => simp [hk]
        | succ j => exact absurd h (hmin 0 (Nat.succ_pos _) col (by simp))
    · rw [if_neg h, ih (i + 1) k]
      constructor
      · rintro ⟨j, c, hk, hc, hl, hmin⟩
        refine ⟨j + 1, c, by omega, by simpa using hc, hl, ?_⟩
        intro j2 hj d hd
        cases j2 with
        | zero =>
          have : d = col := by simpa using hd.symm
          rw [this]; exact h
        | succ j2 => exact hmin j2 (by omega) d (by simpa using hd)
      · rintro ⟨j, c, hk, hc, hl, hmin⟩
        cases j with
        | zero =>
          have : c = col := by simpa using hc.symm
          rw [this] at hl
          exact absurd hl h
        | succ j =>
          refine ⟨j, c, by omega, by simpa using hc, hl, ?_⟩
          intro j2 hj d hd
          exact hmin (j2 + 1) (by omega) d (by simpa using hd)

theorem c_tbcfnd1_eq_none_iff (tp : TableDescr) (name : String) :
    c_tbcfnd1 tp name = none ↔ ¬ tp.hasColumn name := by
  unfold c_tbcfnd1 TableDescr.hasColumn
  rw [c_tbcfnd1_loop_none]
  simp only [str_lower_data, ne_eq, not_exists, not_and]
  constructor
  · intro h c hc hf; exact h c hc hf.symm
  · intro h c hc hf; exact h c hc hf.symm

/-- C12.  Reference behaviour of `c_tbcfnd1`.  The value stored in `*cp` is the column
of index `i` exactly when the name of that column equals the requested name after
folding both to lower case and no column of smaller index does; it is NULL exactly
when no column has a name equal to the requested one after folding.  So a name that
is only a prefix of a column name, or differs from it in a character other than the
case of a letter, does not select that column.  The table descriptor is an argument
only: the function delivers nothing but the value of `*cp`. -/
theorem c_tbcfnd1_first_equal_column (tp : TableDescr) (name : String) :
    (∀ i, c_tbcfnd1 tp name = some i ↔
      ∃ c, tp.columns[i]? = some c ∧ folded c.name = folded name ∧
        ∀ j < i, ∀ d, tp.columns[j]? = some d → folded d.name ≠ folded name) ∧
    (c_tbcfnd1 tp name = none ↔ ∀ c ∈ tp.columns, folded c.name ≠ folded name) := by
  refine ⟨fun i => ?_, ?_⟩
  · unfold c_tbcfnd1
    rw [c_tbcfnd1_loop_some]
    simp only [str_lower_data, zero_add, ne_eq]
    constructor
    · rintro ⟨j, c, hk, hc, hl, hmin⟩
      subst hk
      exact ⟨c, hc, hl.symm, fun j2 hj d hd hf => hmin j2 hj d hd hf.symm⟩
    · rintro ⟨c, hc, hl, hmin⟩
      exact ⟨i, c, rfl, hc, hl.symm, fun j2 hj d hd hf => hmin j2 hj d hd hf.symm⟩
  · rw [c_tbcfnd1_eq_none_iff]
    unfold TableDescr.hasColumn
    simp only [not_exists, not_and, ne_eq]

/-- C12 at the table of columns SPORDER, cenwave, CENWAVE, OPT_ELEM: the name Cenwave
selects the first of the two columns equal to it after folding, the names OPT (a
prefix) and OPT-ELEM (another character) select none. -/
theorem c_tbcfnd1_first_equal_column_witness :
    c_tbcfnd1 TableDescr.twice "Cenwave" = some 1 ∧
      (∃ c, TableDescr.twice.columns[1]? = some c ∧ folded c.name = folded "Cenwave" ∧
        ∀ j < 1, ∀ d, TableDescr.twice.columns[j]? = some d →
          folded d.name ≠ folded "Cenwave") ∧
      c_tbcfnd1 TableDescr.twice "OPT" = none ∧
      c_tbcfnd1 TableDescr.twice "OPT-ELEM" = none ∧
      c_tbcfnd1 TableDescr.twice "opt_elem" = some 3 :=
  ⟨by decide,
    ((c_tbcfnd1_first_equal_column TableDescr.twice "Cenwave").1 1).mp (by decide),
    (c_tbcfnd1_first_equal_column TableDescr.twice "OPT").2.mpr (by decide),
    (c_tbcfnd1_first_equal_column TableDescr.twice "OPT-ELEM").2.mpr (by decide),
    by decide⟩

theorem OpenTraceTab_columns (tbl : Cs4.TraceTable) (w : World) (hw : w.iraferr = false)
    (ho : tbl.tbtopn_ok = true) :
    ((Cs4.OpenTraceTab tbl Cs4.TblInfo.blank w).1 = Status.COLUMN_NOT_FOUND ↔
        ∃ name ∈ Cs4.requiredColumns, ¬ tbl.descr.hasColumn name) ∧
      ((Cs4.OpenTraceTab tbl Cs4.TblInfo.blank w).1 = Status.COLUMN_NOT_FOUND →
        (Cs4.OpenTraceTab tbl Cs4.TblInfo.blank w).2.2.handleOpen = false ∧
        (Cs4.OpenTraceTab tbl Cs4.TblInfo.blank w).2.2.log =
          w.log ++ [Event.tbtopn, Event.tbtclo]) ∧
      ((∀ name ∈ Cs4.requiredColumns, tbl.descr.hasColumn name) →
        (Cs4.OpenTraceTab tbl Cs4.TblInfo.blank w).1 = Status.OK ∧
        ((Cs4.OpenTraceTab tbl Cs4.TblInfo.blank w).2.1.cp_pedigree = none ↔
          ¬ tbl.descr.hasColumn "PEDIGREE") ∧
        ((Cs4.OpenTraceTab tbl Cs4.TblInfo.blank w).2.1.cp_descrip = none ↔
          ¬ tbl.descr.hasColumn "DESCRIP") ∧
        ((Cs4.OpenTraceTab tbl Cs4.TblInfo.blank w).2.1.cp_mjd = none ↔
          ¬ tbl.descr.hasColumn "MJD") ∧
        ((Cs4.OpenTraceTab tbl Cs4.TblInfo.blank w).2.1.cp_degperyr = none ↔
          ¬ tbl.descr.hasColumn "DEGPERYR")) := by
  have hreq : (∃ name ∈ Cs4.requiredColumns, ¬ tbl.descr.hasColumn name) ↔
      (c_tbcfnd1 tbl.descr "OPT_ELEM" = none ∨ c_tbcfnd1 tbl.descr "CENWAVE" = none ∨
        c_tbcfnd1 tbl.descr "SPORDER" = none ∨ c_tbcfnd1 tbl.descr "A1CENTER" = none ∨
        c_tbcfnd1 tbl.descr "A2CENTER" = none ∨ c_tbcfnd1 tbl.descr "NELEM" = none ∨
        c_tbcfnd1 tbl.descr "A2DISPL" = none) := by
    simp only [Cs4.requiredColumns, List.mem_cons, List.mem_singleton, List.not_mem_nil,
      or_false, exists_eq_or_imp, exists_eq_left, c_tbcfnd1_eq_none_iff]
  have hall : (∀ name ∈ Cs4.requiredColumns, tbl.descr.hasColumn name) →
      ¬ ∃ name ∈ Cs4.requiredColumns, ¬ tbl.descr.hasColumn name := by
    rintro h ⟨n, hn, hc⟩; exact hc (h n hn)
  rw [hreq] at hall ⊢
  unfold Cs4.OpenTraceTab
  simp only [c_iraferr, c_tbtopn, hw, ho, Bool.not_true, Bool.or_false, Bool.false_eq_true,
    if_false, Bool.or_eq_true, decide_eq_true_eq, Bool.or_true, c_tbtclo, or_assoc]
  by_cases h : c_tbcfnd1 tbl.descr "OPT_ELEM" = none ∨ c_tbcfnd1 tbl.descr "CENWAVE" = none ∨
        c_tbcfnd1 tbl.descr "SPORDER" = none ∨ c_tbcfnd1 tbl.descr "A1CENTER" = none ∨
        c_tbcfnd1 tbl.descr "A2CENTER" = none ∨ c_tbcfnd1 tbl.descr "NELEM" = none ∨
        c_tbcfnd1 tbl.descr "A2DISPL" = none
  · rw [if_pos h]
    exact ⟨⟨fun _ => h, fun _ => rfl⟩, fun _ => ⟨rfl, by simp⟩, fun hh => absurd h (hall hh)⟩
  · rw [if_neg h]
    refine ⟨⟨fun hc => ?_, fun hc => absurd hc h⟩, fun hc => ?_, fun _ =>
      ⟨rfl, c_tbcfnd1_eq_none_iff _ _, c_tbcfnd1_eq_none_iff _ _, c_tbcfnd1_eq_none_iff _ _,
        c_tbcfnd1_eq_none_iff _ _⟩⟩
    · exact absurd hc (by simp)
    · exact absurd hc (by simp)

theorem OpenPCTab_columns (tbl : Cs7.PCTable) (w : World) (hw : w.iraferr = false)
    (ho : tbl.tbtopn_ok = true) :
    ((Cs7.OpenPCTab tbl Cs7.TblInfo.blank w).1 = Status.COLUMN_NOT_FOUND ↔
        ∃ name ∈ Cs7.requiredColumns, ¬ tbl.descr.hasColumn name) ∧
      ((Cs7.OpenPCTab tbl Cs7.TblInfo.blank w).1 = Status.COLUMN_NOT_FOUND →
        (Cs7.OpenPCTab tbl Cs7.TblInfo.blank w).2.2.handleOpen = false ∧
        (Cs7.OpenPCTab tbl Cs7.TblInfo.blank w).2.2.log =
          w.log ++ [Event.tbtopn, Event.tbhgti, Event.tbtclo]) ∧
      ((∀ name ∈ Cs7.requiredColumns, tbl.descr.hasColumn name) →
        (Cs7.OpenPCTab tbl Cs7.TblInfo.blank w).1 = Status.OK ∧
        ((Cs7.OpenPCTab tbl Cs7.TblInfo.blank w).2.1.cp_pedigree = none ↔
          ¬ tbl.descr.hasColumn "PEDIGREE") ∧
        ((Cs7.OpenPCTab tbl Cs7.TblInfo.blank w).2.1.cp_descrip = none ↔
          ¬ tbl.descr.hasColumn "DESCRIP")) := by
  have hreq : (∃ name ∈ Cs7.requiredColumns, ¬ tbl.descr.hasColumn name) ↔
      (c_tbcfnd1 tbl.descr "APERTURE" = none ∨ c_tbcfnd1 tbl.descr "CENWAVE" = none ∨
        c_tbcfnd1 tbl.descr "EXTRHEIGHT" = none ∨ c_tbcfnd1 tbl.descr "NELEM" = none ∨
        c_tbcfnd1 tbl.descr "WAVELENGTH" = none ∨ c_tbcfnd1 tbl.descr "THROUGHPUT" = none) := by
    simp only [Cs7.requiredColumns, List.mem_cons, List.mem_singleton, List.not_mem_nil,
      or_false, exists_eq_or_imp, exists_eq_left, c_tbcfnd1_eq_none_iff]
  have hall : (∀ name ∈ Cs7.requiredColumns, tbl.descr.hasColumn name) →
      ¬ ∃ name ∈ Cs7.requiredColumns, ¬ tbl.descr.hasColumn name := by
    rintro h ⟨n, hn, hc⟩; exact hc (h n hn)
  rw [hreq] at hall ⊢
  unfold Cs7.OpenPCTab
  simp only [c_iraferr, c_tbtopn, hw, ho, Bool.not_true, Bool.or_false, Bool.false_eq_true,
    if_false, Bool.or_eq_true, decide_eq_true_eq, Bool.or_true, c_tbtclo, c_tbhgti, or_assoc]
  by_cases h : c_tbcfnd1 tbl.descr "APERTURE" = none ∨ c_tbcfnd1 tbl.descr "CENWAVE" = none ∨
        c_tbcfnd1 tbl.descr "EXTRHEIGHT" = none ∨ c_tbcfnd1 tbl.descr "NELEM" = none ∨
        c_tbcfnd1 tbl.descr "WAVELENGTH" = none ∨ c_tbcfnd1 tbl.descr "THROUGHPUT" = none
  · rw [if_pos h]
    exact ⟨⟨fun _ => h, fun _ => rfl⟩, fun _ => ⟨rfl, by simp⟩, fun hh => absurd h (hall hh)⟩
  · rw [if_neg h]
    refine ⟨⟨fun hc => ?_, fun hc => absurd hc h⟩, fun hc => ?_, fun _ =>
      ⟨rfl, c_tbcfnd1_eq_none_iff _ _, c_tbcfnd1_eq_none_iff _ _⟩⟩
    · exact absurd hc (by simp)
    · exact absurd hc (by simp)

/-- C18.  Required versus optional columns.  Let `c_tbtopn` open the table with no
error pending.  `OpenTraceTab` returns `COLUMN_NOT_FOUND` if and only if at least one
of OPT_ELEM, CENWAVE, SPORDER, A1CENTER, A2CENTER, NELEM, A2DISPL is absent, and then
the table is closed and the only calls made are the open and the close; when all seven
are present it returns 0, whatever optional columns are absent, and each of
`cp_pedigree`, `cp_descrip`, `cp_mjd`, `cp_degperyr` is NULL exactly when PEDIGREE,
DESCRIP, MJD, DEGPERYR is absent.  `OpenPCTab` does the same with APERTURE, CENWAVE,
EXTRHEIGHT, NELEM, WAVELENGTH, THROUGHPUT required (it reads the header keyword MAXHGHT
between the open and the close) and PEDIGREE, DESCRIP optional. -/
theorem open_required_and_optional_columns :
    (∀ (tbl : Cs4.TraceTable) (w : World), w.iraferr = false → tbl.tbtopn_ok = true →
      ((Cs4.OpenTraceTab tbl Cs4.TblInfo.blank w).1 = Status.COLUMN_NOT_FOUND ↔
        ∃ name ∈ Cs4.requiredColumns, ¬ tbl.descr.hasColumn name) ∧
      ((Cs4.OpenTraceTab tbl Cs4.TblInfo.blank w).1 = Status.COLUMN_NOT_FOUND →
        (Cs4.OpenTraceTab tbl Cs4.TblInfo.blank w).2.2.handleOpen = false ∧
        (Cs4.OpenTraceTab tbl Cs4.TblInfo.blank w).2.2.log =
          w.log ++ [Event.tbtopn, Event.tbtclo]) ∧
      ((∀ name ∈ Cs4.requiredColumns, tbl.descr.hasColumn name) →
        (Cs4.OpenTraceTab tbl Cs4.TblInfo.blank w).1 = Status.OK ∧
        ((Cs4.OpenTraceTab tbl Cs4.TblInfo.blank w).2.1.cp_pedigree = none ↔
          ¬ tbl.descr.hasColumn "PEDIGREE") ∧
        ((Cs4.OpenTraceTab tbl Cs4.TblInfo.blank w).2.1.cp_descrip = none ↔
          ¬ tbl.descr.hasColumn "DESCRIP") ∧
        ((Cs4.OpenTraceTab tbl Cs4.TblInfo.blank w).2.1.cp_mjd = none ↔
          ¬ tbl.descr.hasColumn "MJD") ∧
        ((Cs4.OpenTraceTab tbl Cs4.TblInfo.blank w).2.1.cp_degperyr = none ↔
          ¬ tbl.descr.hasColumn "DEGPERYR"))) ∧
    (∀ (tbl : Cs7.PCTable) (w : World), w.iraferr = false → tbl.tbtopn_ok = true →
      ((Cs7.OpenPCTab tbl Cs7.TblInfo.blank w).1 = Status.COLUMN_NOT_FOUND ↔
        ∃ name ∈ Cs7.requiredColumns, ¬ tbl.descr.hasColumn name) ∧
      ((Cs7.OpenPCTab tbl Cs7.TblInfo.blank w).1 = Status.COLUMN_NOT_FOUND →
        (Cs7.OpenPCTab tbl Cs7.TblInfo.blank w).2.2.handleOpen = false ∧
        (Cs7.OpenPCTab tbl Cs7.TblInfo.blank w).2.2.log =
          w.log ++ [Event.tbtopn, Event.tbhgti, Event.tbtclo]) ∧
      ((∀ name ∈ Cs7.requiredColumns, tbl.descr.hasColumn name) →
        (Cs7.OpenPCTab tbl Cs7.TblInfo.blank w).1 = Status.OK ∧
        ((Cs7.OpenPCTab tbl Cs7.TblInfo.blank w).2.1.cp_pedigree = none ↔
          ¬ tbl.descr.hasColumn "PEDIGREE") ∧
        ((Cs7.OpenPCTab tbl Cs7.TblInfo.blank w).2.1.cp_descrip = none ↔
          ¬ tbl.descr.hasColumn "DESCRIP"))) :=
  ⟨fun tbl w hw ho => OpenTraceTab_columns tbl w hw ho,
    fun tbl w hw ho => OpenPCTab_columns tbl w hw ho⟩

/-- C18 at a SPTRCTAB without SPORDER (the open fails and the table is closed), at a
SPTRCTAB with the seven required columns only (the open succeeds, the four optional
handles are NULL), at a PCTAB without THROUGHPUT and at a PCTAB with the six required
columns only. -/
theorem open_required_and_optional_columns_witness :
    ((Cs4.OpenTraceTab Cs4.TraceTable.noSporder Cs4.TblInfo.blank World.fresh).1 =
        Status.COLUMN_NOT_FOUND ∧
      (Cs4.OpenTraceTab Cs4.TraceTable.noSporder Cs4.TblInfo.blank World.fresh).2.2.handleOpen
        = false ∧
      (Cs4.OpenTraceTab Cs4.TraceTable.noSporder Cs4.TblInfo.blank World.fresh).2.2.log =
        World.fresh.log ++ [Event.tbtopn, Event.tbtclo]) ∧
    ((Cs4.OpenTraceTab Cs4.TraceTable.requiredOnly Cs4.TblInfo.blank World.fresh).1 = Status.OK ∧
      (Cs4.OpenTraceTab Cs4.TraceTable.requiredOnly Cs4.TblInfo.blank World.fresh).2.1.cp_pedigree
        = none ∧
      (Cs4.OpenTraceTab Cs4.TraceTable.requiredOnly Cs4.TblInfo.blank World.fresh).2.1.cp_mjd
        = none) ∧
    ((Cs7.OpenPCTab Cs7.PCTable.noThroughput Cs7.TblInfo.blank World.fresh).1 =
        Status.COLUMN_NOT_FOUND ∧
      (Cs7.OpenPCTab Cs7.PCTable.noThroughput Cs7.TblInfo.blank World.fresh).2.2.handleOpen
        = false) ∧
    ((Cs7.OpenPCTab Cs7.PCTable.requiredOnly Cs7.TblInfo.blank World.fresh).1 = Status.OK ∧
      (Cs7.OpenPCTab Cs7.PCTable.requiredOnly Cs7.TblInfo.blank World.fresh).2.1.cp_pedigree
        = none) :=
  ⟨⟨(open_required_and_optional_columns.1 Cs4.TraceTable.noSporder World.fresh rfl rfl).1.mpr
        (by decide),
      (open_required_and_optional_columns.1 Cs4.TraceTable.noSporder World.fresh rfl rfl).2.1
        ((open_required_and_optional_columns.1 Cs4.TraceTable.noSporder World.fresh rfl
          rfl).1.mpr (by decide))⟩,
    ⟨((open_required_and_optional_columns.1 Cs4.TraceTable.requiredOnly World.fresh rfl
        rfl).2.2 (by decide)).1,
      ((open_required_and_optional_columns.1 Cs4.TraceTable.requiredOnly World.fresh rfl
        rfl).2.2 (by decide)).2.1.mpr (by decide),
      ((open_required_and_optional_columns.1 Cs4.TraceTable.requiredOnly World.fresh rfl
        rfl).2.2 (by decide)).2.2.2.1.mpr (by decide)⟩,
    ⟨(open_required_and_optional_columns.2 Cs7.PCTable.noThroughput World.fresh rfl rfl).1.mpr
        (by decide),
      ((open_required_and_optional_columns.2 Cs7.PCTable.noThroughput World.fresh rfl rfl).2.1
        ((open_required_and_optional_columns.2 Cs7.PCTable.noThroughput World.fresh rfl
          rfl).1.mpr (by decide))).1⟩,
    ⟨((open_required_and_optional_columns.2 Cs7.PCTable.requiredOnly World.fresh rfl
        rfl).2.2 (by decide)).1,
      ((open_required_and_optional_columns.2 Cs7.PCTable.requiredOnly World.fresh rfl
        rfl).2.2 (by decide)).2.1.mpr (by decide)⟩⟩

theorem log2Fuel_le (fuel : Nat) : ∀ (n k : Nat), n < 2 ^ (k + 1) → log2Fuel fuel n ≤ k := by
  induction fuel with
  | zero => intro n k _; simp [log2Fuel]
  | succ fuel ih =>
    intro n k h
    unfold log2Fuel
    split_ifs with h2
    · exact Nat.zero_le k
    · cases k with
      | zero => simp at h; omega
      | succ k =>
        have h3 : n / 2 < 2 ^ (k + 1) := by
          rw [Nat.div_lt_iff_lt_mul (by norm_num)]
          calc n < 2 ^ (k + 1 + 1) := h
            _ = 2 ^ (k + 1) * 2 := by ring
        have := ih (n / 2) k h3
        omega

theorem binaryExponent_intCast_le (n : ℤ) (h : |n| < 2 ^ 53) :
    binaryExponent (n : ℚ) ≤ 52 := by
  have h1 : log2Fuel n.natAbs n.natAbs ≤ 52 := by
    apply log2Fuel_le
    have : (n.natAbs : ℤ) < 2 ^ 53 := by rw [Int.natCast_natAbs]; exact h
    exact_mod_cast this
  have h2 : log2Fuel 1 1 = 0 := by decide
  unfold binaryExponent
  simp only [Rat.num_intCast, Rat.den_intCast, h2]
  split_ifs <;> omega

theorem roundDouble_intCast (n : ℤ) (h : |n| < 2 ^ 53) : roundDouble (n : ℚ) = n := by
  by_cases h0 : n = 0
  · subst h0
    simp [roundDouble]
  · have hk : 0 ≤ 52 - binaryExponent (n : ℚ) := by
      have := binaryExponent_intCast_le n h
      omega
    obtain ⟨j, hj⟩ := Int.eq_ofNat_of_zero_le hk
    have hq : (n : ℚ) ≠ 0 := by exact_mod_cast h0
    have hm : |(n : ℚ)| * 2 ^ j = ((|n| * 2 ^ j : ℤ) : ℚ) := by push_cast; rfl
    have hhalf : (0 : ℚ) < 1 / 2 := by norm_num
    have h2 : (2 : ℚ) ^ j ≠ 0 := by positivity
    unfold roundDouble
    rw [if_neg hq]
    simp only [hj, zpow_natCast, hm, Int.floor_intCast, sub_self, hhalf, if_true]
    push_cast
    by_cases hneg : (n : ℚ) < 0
    · rw [if_pos hneg, abs_of_neg hneg]
      field_simp
    · rw [if_neg hneg, abs_of_nonneg (not_lt.mp hneg)]
      field_simp

/-- C17, as amended.  Zero-indexing of the trace centres.  Whenever `ReadTraceArray`
returns 0 on a row, the reads of SPORDER, A1CENTER, A2CENTER and NELEM have succeeded
and exactly one record is appended to the trace list.  Its `a1center` and `a2center`
are the table values of A1CENTER and A2CENTER decremented once in `double` arithmetic:
the double nearest to the value minus 1.  That is the value minus exactly 1 whenever
the difference is itself a double, in particular whenever it is an integer of
magnitude below 2 ^ 53.  Its `sporder` and `nelem` are the table values of SPORDER and
NELEM unchanged. -/
theorem ReadTraceArray_zero_indexes_centres (X : Collab) (tbl : Cs4.TraceTable)
    (ti : Cs4.TblInfo) (r : Cs4.SptrcRow) (row : Nat) (sts : Cs4.StisInfo4)
    (trace : List Cs4.SpTrace) (w : World)
    (hok : (Cs4.ReadTraceArray X tbl ti r row sts trace w).1 = Status.OK) :
    (∃ v1 v2 o n, r.a1center = Cell.ok v1 ∧ r.a2center = Cell.ok v2 ∧ r.sporder = Cell.ok o ∧
        r.nelem = Cell.ok n ∧
        ∃ newrec, (Cs4.ReadTraceArray X tbl ti r row sts trace w).2.2.1 = trace ++ [newrec] ∧
          newrec.a1center = roundDouble (v1 - 1) ∧ newrec.a2center = roundDouble (v2 - 1) ∧
          (roundDouble (v1 - 1) = v1 - 1 → newrec.a1center = v1 - 1) ∧
          (roundDouble (v2 - 1) = v2 - 1 → newrec.a2center = v2 - 1) ∧
          (∀ k : ℤ, v1 - 1 = k → |k| < 2 ^ 53 → newrec.a1center = v1 - 1) ∧
          (∀ k : ℤ, v2 - 1 = k → |k| < 2 ^ 53 → newrec.a2center = v2 - 1) ∧
          newrec.sporder = o ∧ newrec.nelem = n) := by
  have key : ∀ m : Bool × World, ∀ m2 : World → Bool × World,
      m = malloc (w.record (Event.ReadTraceArray row)) → m2 = malloc →
      (Cs4.ReadTraceArray X tbl ti r row sts trace w).1 = Status.OK →
      (r.a1center.failed = false ∧ r.a2center.failed = false ∧ r.sporder.failed = false ∧
        r.nelem.failed = false) ∧
      (Cs4.ReadTraceArray X tbl ti r row sts trace w).2.2.1 =
        trace ++ [r.record X ti sts.expstart] := by
    intro m m2 hm hm2
    unfold Cs4.ReadTraceArray Cs4.NewTrace4
    simp only [← hm]
    simp only [← hm2, c_tbegt, c_tbagtd, c_iraferr, Cs4.SptrcRow.record]
    cases h1 : m.1
    · simp
    · simp only [Bool.not_true, Bool.false_eq_true, if_false]
      split_ifs <;> simp_all
  obtain ⟨⟨h1, h2, h3, h4⟩, ht⟩ := key _ _ rfl rfl hok
  have cell : ∀ {α : Type} (c : Cell α), c.failed = false → c = Cell.ok c.val := by
    intro α c hc
    cases c with
    | ok v => rfl
    | fail l => simp [Cell.failed] at hc
  refine ⟨r.a1center.val, r.a2center.val, r.sporder.val, r.nelem.val, cell _ h1, cell _ h2,
    cell _ h3, cell _ h4, r.record X ti sts.expstart, ht, rfl, rfl, fun h => h, fun h => h,
    ?_, ?_, rfl, rfl⟩
  · intro k hk hb
    show roundDouble (r.a1center.val - 1) = r.a1center.val - 1
    rw [hk]
    exact roundDouble_intCast k hb
  · intro k hk hb
    show roundDouble (r.a2center.val - 1) = r.a2center.val - 1
    rw [hk]
    exact roundDouble_intCast k hb

/-- C17 (amended) at the row (A, 100, order 1) with A1CENTER = 512 and A2CENTER = 300:
the record appended holds the centres 511 and 299. -/
theorem ReadTraceArray_zero_indexes_centres_witness :
    (Cs4.ReadTraceArray Collab.sample Cs4.TraceTable.threeRows Cs4.TblInfo.blank
        (Cs4.SptrcRow.sample "A" 100 1 Pedigree.GOOD_PEDIGREE) 1 Cs4.StisInfo4.sample []
        World.fresh).1 = Status.OK ∧
    (∃ v1 v2 o n, (Cs4.SptrcRow.sample "A" 100 1 Pedigree.GOOD_PEDIGREE).a1center = Cell.ok v1 ∧
      (Cs4.SptrcRow.sample "A" 100 1 Pedigree.GOOD_PEDIGREE).a2center = Cell.ok v2 ∧
      (Cs4.SptrcRow.sample "A" 100 1 Pedigree.GOOD_PEDIGREE).sporder = Cell.ok o ∧
      (Cs4.SptrcRow.sample "A" 100 1 Pedigree.GOOD_PEDIGREE).nelem = Cell.ok n ∧
      ∃ newrec, (Cs4.ReadTraceArray Collab.sample Cs4.TraceTable.threeRows Cs4.TblInfo.blank
          (Cs4.SptrcRow.sample "A" 100 1 Pedigree.GOOD_PEDIGREE) 1 Cs4.StisInfo4.sample []
          World.fresh).2.2.1 = [] ++ [newrec] ∧
        newrec.a1center = roundDouble (v1 - 1) ∧ newrec.a2center = roundDouble (v2 - 1) ∧
        (roundDouble (v1 - 1) = v1 - 1 → newrec.a1center = v1 - 1) ∧
        (roundDouble (v2 - 1) = v2 - 1 → newrec.a2center = v2 - 1) ∧
        (∀ k : ℤ, v1 - 1 = k → |k| < 2 ^ 53 → newrec.a1center = v1 - 1) ∧
        (∀ k : ℤ, v2 - 1 = k → |k| < 2 ^ 53 → newrec.a2center = v2 - 1) ∧
        newrec.sporder = o ∧ newrec.nelem = n) ∧
    (Cs4.ReadTraceArray Collab.sample Cs4.TraceTable.threeRows Cs4.TblInfo.blank
        (Cs4.SptrcRow.sample "A" 100 1 Pedigree.GOOD_PEDIGREE) 1 Cs4.StisInfo4.sample []
        World.fresh).2.2.1.map (fun t => (t.a1center, t.a2center, t.sporder, t.nelem)) =
      [(511, 299, 1, 2)] :=
  ⟨by decide,
    ReadTraceArray_zero_indexes_centres Collab.sample Cs4.TraceTable.threeRows
      Cs4.TblInfo.blank (Cs4.SptrcRow.sample "A" 100 1 Pedigree.GOOD_PEDIGREE) 1
      Cs4.StisInfo4.sample [] World.fresh (by decide),
    by decide!⟩

/-- C17 as stated fails where the decrement rounds: for the row whose A1CENTER is the
double nearest to 0.1, 3602879701896397 / 2 ^ 55, `ReadTraceArray` returns 0 and the
`a1center` it stores is -8106479329266893 / 2 ^ 53, the double nearest to the
difference, which is not the table value minus 1, -32425917317067571 / 2 ^ 55. -/
theorem ReadTraceArray_decrement_rounds :
    Cs4.SptrcRow.tenth.a1center = Cell.ok (3602879701896397 / 36028797018963968) ∧
      roundDouble (3602879701896397 / 36028797018963968) =
        3602879701896397 / 36028797018963968 ∧
      (Cs4.ReadTraceArray Collab.sample (Cs4.TraceTable.sample [Cs4.SptrcRow.tenth])
        Cs4.TblInfo.blank Cs4.SptrcRow.tenth 1 Cs4.StisInfo4.sample [] World.fresh).1 =
          Status.OK ∧
      (Cs4.ReadTraceArray Collab.sample (Cs4.TraceTable.sample [Cs4.SptrcRow.tenth])
        Cs4.TblInfo.blank Cs4.SptrcRow.tenth 1 Cs4.StisInfo4.sample []
        World.fresh).2.2.1.map (fun t => t.a1center) =
          [-8106479329266893 / 9007199254740992] ∧
      (-8106479329266893 / 9007199254740992 : ℚ) ≠
        3602879701896397 / 36028797018963968 - 1 := by
  decide!

/-- C15, what the code does.  On a table that has the columns MJD and DEGPERYR, for a
row that holds the key, is not Dummy and whose read of MJD fails, `ReadTraceArray`
returns 0 and appends the record, leaving the error flag set: the reads of MJD and
DEGPERYR are followed by no test of `c_iraferr`.  `GetTrace4` then returns the
`TABLE_ERROR` of `CloseTraceTab`, with the record in the list. -/
theorem ReadTraceArray_ignores_mjd_failure :
    ((Cs4.ReadTraceArray Collab.sample Cs4.TraceTable.badMjd
          (Cs4.OpenTraceTab Cs4.TraceTable.badMjd Cs4.TblInfo.blank World.fresh).2.1
          { Cs4.SptrcRow.sample "A" 100 1 Pedigree.GOOD_PEDIGREE with mjd := Cell.fail 0 } 1
          Cs4.StisInfo4.sample [] World.fresh).1 = Status.OK ∧
      (Cs4.ReadTraceArray Collab.sample Cs4.TraceTable.badMjd
          (Cs4.OpenTraceTab Cs4.TraceTable.badMjd Cs4.TblInfo.blank World.fresh).2.1
          { Cs4.SptrcRow.sample "A" 100 1 Pedigree.GOOD_PEDIGREE with mjd := Cell.fail 0 } 1
          Cs4.StisInfo4.sample [] World.fresh).2.2.1.length = 1 ∧
      (Cs4.ReadTraceArray Collab.sample Cs4.TraceTable.badMjd
          (Cs4.OpenTraceTab Cs4.TraceTable.badMjd Cs4.TblInfo.blank World.fresh).2.1
          { Cs4.SptrcRow.sample "A" 100 1 Pedigree.GOOD_PEDIGREE with mjd := Cell.fail 0 } 1
          Cs4.StisInfo4.sample [] World.fresh).2.2.2.iraferr = true ∧
      Event.tbegt Column.MJD 1 ∈
        (Cs4.ReadTraceArray Collab.sample Cs4.TraceTable.badMjd
          (Cs4.OpenTraceTab Cs4.TraceTable.badMjd Cs4.TblInfo.blank World.fresh).2.1
          { Cs4.SptrcRow.sample "A" 100 1 Pedigree.GOOD_PEDIGREE with mjd := Cell.fail 0 } 1
          Cs4.StisInfo4.sample [] World.fresh).2.2.2.log) ∧
    ((Cs4.GetTrace4 Collab.sample Cs4.TraceTable.badMjd Cs4.StisInfo4.sample []
          World.fresh).status = Status.TABLE_ERROR ∧
      (Cs4.GetTrace4 Collab.sample Cs4.TraceTable.badMjd Cs4.StisInfo4.sample []
          World.fresh).trace.length = 1) := by
  decide

theorem splineCubic_left (p0 p1 : ℚ × ℚ × ℚ) (h : p0.1 < p1.1) :
    splineCubic p0 p1 p0.1 = p0.2.1 := by
  have hne : p1.1 - p0.1 ≠ 0 := sub_ne_zero.mpr (ne_of_gt h)
  unfold splineCubic
  simp only [div_self hne, sub_self, zero_div]
  ring

theorem splineCubic_right (p0 p1 : ℚ × ℚ × ℚ) (h : p0.1 < p1.1) :
    splineCubic p0 p1 p1.1 = p1.2.1 := by
  have hne : p1.1 - p0.1 ≠ 0 := sub_ne_zero.mpr (ne_of_gt h)
  unfold splineCubic
  simp only [div_self hne, sub_self, zero_div]
  ring

theorem splineEval_knot (knots : List (ℚ × ℚ × ℚ)) :
    2 ≤ knots.length → knots.Pairwise (fun p q => p.1 < q.1) →
      ∀ k ∈ knots, splineEval knots k.1 = k.2.1 := by
  induction knots with
  | nil => intro h; simp at h
  | cons p0 rest ih =>
    intro hlen hinc k hk
    cases rest with
    | nil => simp at hlen
    | cons p1 rest2 =>
      have h01 : p0.1 < p1.1 := (List.pairwise_cons.mp hinc).1 p1 (List.mem_cons_self _ _)
      cases rest2 with
      | nil =>
        simp only [splineEval]
        rcases List.mem_cons.mp hk with h | h
        · rw [h]; exact splineCubic_left p0 p1 h01
        · rw [List.mem_singleton.mp h]; exact splineCubic_right p0 p1 h01
      | cons p2 rest3 =>
        simp only [splineEval]
        rcases List.mem_cons.mp hk with h | h
        · rw [h, if_pos h01]; exact splineCubic_left p0 p1 h01
        · have hinc2 := (List.pairwise_cons.mp hinc).2
          have hge : ¬ k.1 < p1.1 := by
            rcases List.mem_cons.mp h with h2 | h2
            · rw [h2]; exact lt_irrefl _
            · exact not_lt.mpr (le_of_lt ((List.pairwise_cons.mp hinc2).1 k h2))
          rw [if_neg hge]
          exact ih (by simp) hinc2 k h

theorem splint_nr_knot (xa ya : List ℚ) (n : Int) (x : List ℚ) (nelem : Nat)
    (hn : 2 ≤ n) (hlen : n ≤ xa.length)
    (hinc : List.Pairwise (fun a b => a < b) (xa.take n.toNat))
    (i j : Nat) (xi yi : ℚ) (hi : (i : Int) < n) (h1 : xa[i]? = some xi)
    (h2 : ya[i]? = some yi) (hj : j < nelem) (h3 : x[j]? = some xi) :
    (splint_nr xa ya n x nelem).2[j]? = some yi := by
  have hi2 : i < n.toNat := by omega
  have hlen2 : n.toNat ≤ xa.length := by omega
  unfold splint_nr
  rw [if_neg (by omega)]
  dsimp only
  rw [List.getElem?_map, List.getElem?_take_of_lt hj, h3, Option.map_some']
  congr 1
  have hxi : xa.getD i 0 = xi := by simp [List.getD, h1]
  have hyi : ya.getD i 0 = yi := by simp [List.getD, h2]
  have key := splineEval_knot
    ((List.range n.toNat).map (fun i => (xa.getD i 0, ya.getD i 0,
      (splineY2 ((List.range n.toNat).map (fun i => (xa.getD i 0, ya.getD i 0)))).getD i 0)))
    (by simp only [List.length_map, List.length_range]; omega)
    (by
      rw [List.pairwise_map]
      refine List.Pairwise.imp_of_mem ?_ (List.pairwise_lt_range n.toNat)
      intro a b ha hb hab
      have ha2 : a < n.toNat := List.mem_range.mp ha
      have hb2 : b < n.toNat := List.mem_range.mp hb
      have hp := List.pairwise_iff_getElem.mp hinc a b
        (by rw [List.length_take]; omega) (by rw [List.length_take]; omega) hab
      rw [List.getElem_take, List.getElem_take] at hp
      dsimp only
      rw [List.getD_eq_getElem xa 0 (by omega), List.getD_eq_getElem xa 0 (by omega)]
      exact hp)
    (xa.getD i 0, ya.getD i 0,
      (splineY2 ((List.range n.toNat).map (fun i => (xa.getD i 0, ya.getD i 0)))).getD i 0)
    (List.mem_map.mpr ⟨i, List.mem_range.mpr hi2, rfl⟩)
  dsimp only at key
  rw [hxi, hyi] at key
  exact key

/-- C16.  Resampling passes through its knots.  Let `splint_nr` be the resampler of the
spec, and let a run of `GetPCT` with both switches PERFORM return 0, the first row `r`
that holds the key (`sts.aperture`, `sts.cenwave`, MAXHGHT) being not Dummy.  Let the
reference curve of `r` have n = NELEM ≥ 2 wavelengths, strictly increasing.  If the
target grid `phot.wl` contains at index `j` the reference wavelength `xi` of index
`i`, then element `j` of `phot.pcorr` equals the reference throughput `yi` of index `i`
exactly. -/
theorem GetPCT_resampling_passes_through_knots (X : Collab) (tbl : Cs7.PCTable)
    (sts : Cs7.StisInfo7) (phot : Cs7.PhotInfo) (w : World) (r : Cs7.PctRow)
    (hX : X.splint_nr = splint_nr)
    (hx : sts.x2dcorr_o = Switch.PERFORM) (hp : sts.pctcorr = Switch.PERFORM)
    (hok : (Cs7.GetPCT X tbl sts phot w).status = Status.OK)
    (hfirst : Cs7.firstMatch sts.aperture sts.cenwave tbl.maxhght.val tbl.rows = some r)
    (hgood : ¬ r.isDummy)
    (hn : 2 ≤ r.nelem.val) (hlen : r.nelem.val ≤ r.wl.buf.length)
    (hinc : List.Pairwise (fun a b => a < b) (r.wl.buf.take r.nelem.val.toNat))
    (i j : Nat) (xi yi : ℚ) (hi : (i : Int) < r.nelem.val)
    (h1 : r.wl.buf[i]? = some xi) (h2 : r.pc.buf[i]? = some yi)
    (hj : j < phot.nelem) (h3 : phot.wl[j]? = some xi) :
    ∃ pcorr, (Cs7.GetPCT X tbl sts phot w).phot.pcorr = some pcorr ∧
      pcorr[j]? = some yi := by
  have hk := splint_nr_knot r.wl.buf r.pc.buf r.nelem.val phot.wl phot.nelem hn hlen hinc
    i j xi yi hi h1 h2 hj h3
  rcases Cs7.GetPCT_cases X tbl sts phot w hx hp hok with ⟨c1, -⟩ | ⟨r2, c1, c2, -⟩ |
    ⟨r2, c1, c2, c3, c4, -⟩
  · rw [hfirst] at c1
    exact absurd c1 (by simp)
  · rw [hfirst] at c1
    cases c1
    exact absurd c2 hgood
  · rw [hfirst] at c1
    cases c1
    refine ⟨r.resampled X phot, by rw [c4], ?_⟩
    unfold Cs7.PctRow.resampled
    rw [hX]
    exact hk

/-- C16 at the reference curve {(1,2),(2,4),(3,6)} of the spec and the target grid
[1, 2, 3, 4]: the element of `phot.pcorr` at the target wavelength 2 is 4. -/
theorem GetPCT_resampling_passes_through_knots_witness :
    ∃ pcorr, (Cs7.GetPCT Collab.spline Cs7.PCTable.twoMatches Cs7.StisInfo7.sample
        Cs7.PhotInfo.sample World.fresh).phot.pcorr = some pcorr ∧
      pcorr[1]? = some 4 :=
  GetPCT_resampling_passes_through_knots Collab.spline Cs7.PCTable.twoMatches
    Cs7.StisInfo7.sample Cs7.PhotInfo.sample World.fresh
    (Cs7.PctRow.sample "F1" 5000 21 Pedigree.GOOD_PEDIGREE)
    rfl (by decide) (by decide) (by decide) rfl (by decide) (by decide) (by decide)
    (by simp [Cs7.PctRow.sample, Cell.val]; norm_num) 1 1 2 4 (by decide) rfl rfl (by decide) rfl

end Hstcal
